import Mathlib

/-!
# libcarddav: a shallow embedding of the protocol orchestration

The C sources embedded here are `carddav.c`, `modify-carddav-object.c` and
`get-carddav-report.c`.  Strings that may be `NULL` are `Option String`;
`gboolean` is `Bool`; `long` and `int` are `Int`.

Code that the three files call but that lives elsewhere (libcurl, the lock
helpers declared in `lock-carddav-object.h`, the text helpers declared in
`carddav-utils.h`, the verb handlers of the other objects) is collected in
the structure `Env`: every statement below holds for every such environment.
-/

namespace CardDAV

/-! ## Data model (carddav.h, carddav-utils.h) -/

/-- The enum `CARDDAV_ACTION` of carddav.h. -/
inductive CARDDAV_ACTION where
  | UNKNOWN | ADD | DELETE | FREEBUSY | MODIFY | GET | GETALL | GETCALNAME
  | ISCARDDAV | OPTIONS
  deriving DecidableEq, Repr

/-- The enum `CARDDAV_RESPONSE` of carddav.h. -/
inductive CARDDAV_RESPONSE where
  | OK | FORBIDDEN | CONFLICT | LOCKED | NOTIMPLEMENTED
  deriving DecidableEq, Repr

/-- The struct `_carddav_error` of carddav.h: `long code; char* str`. -/
structure carddav_error where
  code : Int
  str : Option String
  deriving DecidableEq, Repr

/-- The struct `debug_curl` of carddav.h (all flags are C `int`). -/
structure debug_curl where
  trace_ascii : Int
  debug : Int
  verify_ssl_certificate : Int
  use_locking : Int
  custom_cacert : Option String
  deriving DecidableEq, Repr

/-- The struct `runtime_info` of carddav.h; both members are pointers. -/
structure runtime_info where
  error : Option carddav_error
  options : Option debug_curl
  deriving DecidableEq, Repr

/-- The struct `_response` of carddav.h. -/
structure response where
  msg : Option String
  deriving DecidableEq, Repr

/-- The struct `_CARDDAV_SETTINGS` of carddav-utils.h (`end` is spelled
`end_`, a reserved word otherwise). -/
structure carddav_settings where
  username : Option String
  password : Option String
  url : Option String
  file : Option String
  usehttps : Bool
  verify_ssl_certificate : Bool
  custom_cacert : Option String
  debug : Bool
  use_locking : Bool
  trace_ascii : Int
  ACTION : CARDDAV_ACTION
  start : Int
  end_ : Int
  use_uri : Int
  deriving DecidableEq, Repr

/-! ## The transport, seen from the orchestration code -/

/-- The options of a libcurl easy handle that the embedded code sets or relies
on: `CURLOPT_URL`, `CURLOPT_HTTPHEADER`, `CURLOPT_POSTFIELDS`,
`CURLOPT_CUSTOMREQUEST`, and the buffers registered with `CURLOPT_WRITEDATA`
(`chunk.memory`) and `CURLOPT_WRITEHEADER` (`headers.memory`). -/
structure CURL where
  url : Option String
  httpheader : List String
  postfields : Option String
  customrequest : Option String
  writedata : Option String
  writeheader : Option String
  deriving DecidableEq, Repr

/-- What one `curl_easy_perform` leaves behind: its `CURLcode` (`res`), the text
in `error_buf`, the status `CURLINFO_RESPONSE_CODE` reports afterwards, and the
contents of `chunk.memory` and `headers.memory` once the transfer ended. -/
structure Transfer where
  res : Nat
  error_buf : String
  code : Int
  chunk : Option String
  headers : Option String
  deriving DecidableEq, Repr

/-- Observable steps of a call, in program order. -/
inductive Event where
  /-- `curl_easy_perform` on the function's own handle, with its outcome. -/
  | perform (curl : CURL) (t : Transfer)
  /-- `carddav_getoptions`, the capability probe. -/
  | getoptions
  /-- `carddav_lock_support`. -/
  | lock_support
  /-- `carddav_lock_object` on a resource. -/
  | lock_object (uri : String)
  /-- `carddav_unlock_object` with a token on a resource. -/
  | unlock_object (token : String) (uri : String)
  /-- A verb handler defined in another object file (`carddav_add`,
  `carddav_delete`, `carddav_delete_by_uri`, `carddav_getname`). -/
  | handler (name : String)
  deriving DecidableEq, Repr

/-- How a C call ends.  `undefined` marks an operation the C standard leaves
undefined (a `NULL` handed to `strlen` or `strstr`, a `NULL` dereference);
`timeout` marks a loop that was still running when the fuel ran out. -/
inductive Outcome (α : Type) where
  | ok : α → Outcome α
  | undefined : Outcome α
  | timeout : Outcome α
  deriving Repr

/-- What a `gboolean f(carddav_settings*, carddav_error*)` handler returns and
leaves in its two arguments, together with the steps it performed. -/
structure CallResult where
  result : Bool
  settings : carddav_settings
  error : carddav_error
  trace : List Event
  deriving Repr

/-- The members of the settings that describe where to connect: credentials,
scheme and the remaining URL (the ConnectionTarget of the specification). -/
structure ConnectionTarget where
  username : Option String
  password : Option String
  url : Option String
  usehttps : Bool
  deriving DecidableEq, Repr

/-- Functions called by the embedded code and not defined in it.  The three lock
helpers follow their declarations in lock-carddav-object.h: they read
`settings`, write `*error` and return a token or a flag. -/
structure Env where
  /-- `get_curl` (carddav-utils.h): a prepared handle, or `NULL`. -/
  get_curl : carddav_settings → Option CURL
  /-- `curl_easy_perform` (libcurl). -/
  curl_easy_perform : CURL → Transfer
  /-- `get_response_header(header, headers, lowcase)` (carddav-utils.h). -/
  get_response_header : String → Option String → Bool → Option String
  /-- `get_url(text)` (carddav-utils.h). -/
  get_url : Option String → Option String
  /-- `get_etag(text)` (carddav-utils.h). -/
  get_etag : Option String → Option String
  /-- `get_host(url)` (carddav-utils.h). -/
  get_host : Option String → Option String
  /-- `get_tag(tag, text)` (carddav-utils.h). -/
  get_tag : String → Option String → Option String
  /-- `parse_carddav_report(report, element, type)` (carddav-utils.h). -/
  parse_carddav_report : Option String → String → String → Option String
  /-- `rebuild_url(settings, uri)` (carddav-utils.h). -/
  rebuild_url : carddav_settings → String → Option String
  /-- `carddav_lock_support(settings, error)`. -/
  carddav_lock_support : carddav_settings → carddav_error → Bool × carddav_error
  /-- `carddav_lock_object(URI, settings, error)`. -/
  carddav_lock_object :
    String → carddav_settings → carddav_error → Option String × carddav_error
  /-- `carddav_unlock_object(lock_token, URI, settings, error)`. -/
  carddav_unlock_object :
    String → String → carddav_settings → carddav_error → Bool × carddav_error
  /-- Indeterminate initial contents of the local `carddav_error lock_error`. -/
  uninit_lock_error : carddav_error
  /-- Indeterminate initial contents of the local `long code` that
  `carddav_modify_by_uri` declares and never assigns. -/
  uninit_code : Int
  /-- `carddav_getoptions(curl, settings, result, error, test)`
  (options-carddav-server.h); `result` is `none` for a `NULL` pointer and the
  second component is what `*result` holds afterwards. -/
  carddav_getoptions :
    CURL → carddav_settings → Option response → carddav_error → Bool →
      Bool × Option response × carddav_error
  /-- `carddav_add` (add-carddav-object.h). -/
  carddav_add : carddav_settings → carddav_error → Bool × carddav_settings × carddav_error
  /-- `carddav_delete` (delete-carddav-object.h). -/
  carddav_delete : carddav_settings → carddav_error → Bool × carddav_settings × carddav_error
  /-- `carddav_delete_by_uri` (delete-carddav-object.h). -/
  carddav_delete_by_uri :
    carddav_settings → carddav_error → Bool × carddav_settings × carddav_error
  /-- `carddav_getname` (get-display-name.h). -/
  carddav_getname : carddav_settings → carddav_error → Bool × carddav_settings × carddav_error
  /-- The contents `init_carddav_settings` gives a settings structure. -/
  init_carddav_settings : carddav_settings
  /-- The connection target `parse_url(settings, url)` (carddav-utils.h) reads
  off the URL. -/
  parse_url : carddav_settings → Option String → ConnectionTarget

/-! ## glib and libc helpers -/

/-- `g_strdup`: a copy, `NULL` for `NULL`. -/
def g_strdup (s : Option String) : Option String := s

/-- What `%s` prints for its argument in `g_strdup_printf`; glibc prints
`(null)` for a `NULL` pointer. -/
def fmt_s (s : Option String) : String :=
  match s with
  | some x => x
  | none => "(null)"

/-! ## modify-carddav-object.c -/

/-- The literal `search_head` (modify-carddav-object.c:37). -/
def search_head : String :=
  "<?xml version=\"1.0\" encoding=\"utf-8\" ?>" ++
  "<C:addressbook-query xmlns:D=\"DAV:\"" ++
  "                 xmlns:C=\"urn:ietf:params:xml:ns:carddav\">" ++
  " <D:prop>" ++
  "   <D:getetag/>" ++
  "   <C:address-data>" ++
  "      <C:allprop/>" ++
  "   </C:address-data>" ++
  " </D:prop>" ++
  " <C:filter test=\"anyof\">" ++
  "    <C:prop-filter name=\"UID\">"

/-- The literal `search_tail` (modify-carddav-object.c:53). -/
def search_tail : String :=
  "    </C:prop-filter>" ++
  " </C:filter>" ++
  "</C:addressbook-query>\r\n"

/-- The five headers every REPORT and PROPFIND of the library is sent with
(modify-carddav-object.c:92-97, get-carddav-report.c:92-97 and 215-220). -/
def xml_request_headers : List String :=
  ["Content-Type: application/xml; charset=\"utf-8\"",
   "Depth: 1",
   "Expect:",
   "Transfer-Encoding:",
   "Connection: close"]

/-- Lines 244-267 of `carddav_modify` (443-466 of `carddav_modify_by_uri`): the
verdict once the PUT was sent or skipped.  `res` is the last `CURLcode`, `code`
the function-level `code`, `last_code` what `CURLINFO_RESPONSE_CODE` reports on
the handle at this point, `chunk` the contents of `chunk.memory`. -/
def modify_verdict (settings : carddav_settings) (error : carddav_error)
    (res : Nat) (lock : Int) (lock_error : carddav_error) (code last_code : Int)
    (chunk : Option String) (trace : List Event) : CallResult :=
  if res ≠ 0 ∨ lock < 0 then
    if lock = 0 ∨ lock_error.code = 423 then
      { result := true, settings := { settings with file := none },
        error := { code := code, str := g_strdup chunk }, trace := trace }
    else
      { result := true, settings := { settings with file := none },
        error := { code := lock_error.code, str := g_strdup lock_error.str },
        trace := trace }
  else
    if last_code ≠ 204 then
      { result := true, settings := settings,
        error := { code := last_code, str := g_strdup chunk }, trace := trace }
    else
      { result := false, settings := settings, error := error, trace := trace }

/-- The handle as lines 227-235 of `carddav_modify` (426-434 of
`carddav_modify_by_uri`) set it up for the PUT; `card` is `settings->file`. -/
def put_request (env : Env) (settings : carddav_settings) (curl : CURL) (url : String)
    (http_header : List String) (card : String) (chunk headers : Option String) : CURL :=
  { curl with httpheader := http_header, url := env.rebuild_url settings url,
              postfields := some card, customrequest := some "PUT",
              writedata := chunk, writeheader := headers }

/-- Lines 237-240 of `carddav_modify` (436-439 of `carddav_modify_by_uri`):
release the lock when there is a token; gives `lock_error` afterwards and the
step performed. -/
def release_lock (env : Env) (settings : carddav_settings) (url : String)
    (LOCKSUPPORT : Bool) (lock_token : Option String) (lock_error : carddav_error) :
    carddav_error × List Event :=
  match LOCKSUPPORT, lock_token with
  | true, some tok =>
    ((env.carddav_unlock_object tok url settings lock_error).2, [Event.unlock_object tok url])
  | _, _ => (lock_error, [])

/-- Lines 226-243 of `carddav_modify` (425-442 of `carddav_modify_by_uri`): send
the PUT unless locking stands in the way, release the lock, then give the
verdict.  `res` and `last_code` are the `CURLcode` and the handle's response
code left by whatever ran before; `strlen(settings->file)` is undefined for a
`NULL` file. -/
def modify_put (env : Env) (settings : carddav_settings) (error : carddav_error)
    (curl : CURL) (url : String) (http_header : List String)
    (LOCKSUPPORT : Bool) (lock_token : Option String) (lock : Int)
    (lock_error : carddav_error) (res : Nat) (code last_code : Int)
    (chunk headers : Option String) (trace : List Event) : Outcome CallResult :=
  if !LOCKSUPPORT || (LOCKSUPPORT && lock_token.isSome && lock_error.code != 423) then
    match settings.file with
    | none => Outcome.undefined
    | some card =>
      let put := put_request env settings curl url http_header card chunk headers
      let t := env.curl_easy_perform put
      let u := release_lock env settings url LOCKSUPPORT lock_token lock_error
      Outcome.ok (modify_verdict settings error t.res lock u.1 code t.code t.chunk
        (trace ++ Event.perform put t :: u.2))
  else
    Outcome.ok (modify_verdict settings error res lock lock_error code last_code chunk trace)

/-- Lines 198-225 of `carddav_modify` (397-424 of `carddav_modify_by_uri`): probe
for lock support and try to lock the resource, then go on to the PUT.
`http_header` is the list built so far. -/
def modify_lock (env : Env) (settings : carddav_settings) (error : carddav_error)
    (curl : CURL) (url : String) (http_header : List String)
    (res : Nat) (code last_code : Int)
    (chunk headers : Option String) (trace : List Event) : Outcome CallResult :=
  if settings.use_locking then
    let s := env.carddav_lock_support settings env.uninit_lock_error
    if s.1 then
      let l := env.carddav_lock_object url settings s.2
      let trace := trace ++ [Event.lock_support, Event.lock_object url]
      match l.1 with
      | some tok =>
        modify_put env settings error curl url (http_header ++ ["If: (" ++ tok ++ ")"])
          true (some tok) 0 l.2 res code last_code chunk headers trace
      | none =>
        if l.2.code = 423 then
          modify_put env settings error curl url http_header
            true none (-1) l.2 res code last_code chunk headers trace
        else if l.2.code = 501 then
          modify_put env settings error curl url http_header
            true (g_strdup (some "")) 0 l.2 res code last_code chunk headers trace
        else
          modify_put env settings error curl url http_header
            true none (-1) l.2 res code last_code chunk headers trace
    else
      modify_put env settings error curl url http_header
        false none 0 s.2 res code last_code chunk headers (trace ++ [Event.lock_support])
  else
    modify_put env settings error curl url http_header
      false none 0 env.uninit_lock_error res code last_code chunk headers trace

/-- The body of the discovery REPORT (modify-carddav-object.c:126-128). -/
def uid_query (uid : String) : String :=
  search_head ++
  "<C:text-match collation=\"i;unicode-casemap\" negate-condition=\"no\" match-type=\"exact\">"
  ++ uid ++ "</C:text-match>" ++ search_tail

/-- The handle as lines 92-133 of `carddav_modify` set it up for the discovery
REPORT, from the handle `get_curl` gave. -/
def modify_report_request (curl : CURL) (uid : String) : CURL :=
  { curl with httpheader := xml_request_headers, writedata := none, writeheader := none,
              postfields := some (uid_query uid), customrequest := some "REPORT" }

/-- The header list lines 186-197 of `carddav_modify` build for the PUT, before
any lock token is known. -/
def modify_put_headers (etag : String) : List String :=
  ["If-Match: " ++ etag,
   "Content-Type: text/directory; charset=\"utf-8\"",
   "Connection: close",
   "Expect:",
   "Transfer-Encoding:"]

/-- Lines 270-277 of `carddav_modify`: an href was found but no etag or no
host. -/
def modify_not_found (settings : carddav_settings) (code : Int) (chunk : Option String)
    (trace : List Event) : CallResult :=
  { result := true, settings := settings,
    error := { code := code,
               str := match chunk with
                      | some body => g_strdup (some body)
                      | none => some "No object found" },
    trace := trace }

/-- The function `carddav_modify` (modify-carddav-object.c:64-296).  The value
`curl_easy_getinfo` returns is `CURLE_OK`, so `res` is 0 after line 150. -/
def carddav_modify (env : Env) (settings : carddav_settings) (error : carddav_error) :
    Outcome CallResult :=
  match env.get_curl settings with
  | none =>
    Outcome.ok
      { result := true, settings := { settings with file := none },
        error := { code := -1, str := some "Could not initialize libcurl" }, trace := [] }
  | some curl =>
    match env.get_response_header "uid" (g_strdup settings.file) false with
    | none =>
      Outcome.ok
        { result := true, settings := settings,
          error := { code := 1, str := some "Error: Missing required UID for object" },
          trace := [] }
    | some uid =>
      let report := modify_report_request curl uid
      let t := env.curl_easy_perform report
      let trace := [Event.perform report t]
      if t.res ≠ 0 then
        Outcome.ok
          { result := true, settings := { settings with file := none },
            error := { code := -1, str := some t.error_buf }, trace := trace }
      else
        let code := t.code
        if code ≠ 207 then
          Outcome.ok
            { result := true, settings := settings,
              error := { code := code, str := g_strdup t.chunk }, trace := trace }
        else
          match env.get_url t.chunk with
          | none =>
            Outcome.ok
              { result := true, settings := settings,
                error := { code := 409, str := some "No object found" }, trace := trace }
          | some href =>
            match env.get_etag t.chunk with
            | none => Outcome.ok (modify_not_found settings code t.chunk trace)
            | some etag =>
              match env.get_host settings.url with
              | none => Outcome.ok (modify_not_found settings code t.chunk trace)
              | some host =>
                modify_lock env settings error report (host ++ href)
                  (modify_put_headers etag) 0 code t.code t.chunk t.headers trace

/-- The header list `carddav_modify_by_uri` holds for the PUT, before any lock
token is known: the five lines appended at 332-337, which the function never
frees or resets (unlike `carddav_modify` at 138-139), followed by the five lines
appended at 385-396; `etag` is the local of that name. -/
def modify_by_uri_put_headers (etag : Option String) : List String :=
  ["Content-Type: application/xml; charset=\"utf-8\"",
   "Depth: 1",
   "Expect:",
   "Transfer-Encoding:",
   "Connection: close",
   "If-Match: " ++ fmt_s (g_strdup etag),
   "Content-Type: text/directory; charset=\"utf-8\"",
   "Expect:",
   "Transfer-Encoding:",
   "Connection: close"]

/-- The handle of `carddav_modify_by_uri` after lines 332-348. -/
def modify_by_uri_handle (curl : CURL) : CURL :=
  { curl with httpheader := xml_request_headers, writedata := none, writeheader := none }

/-- The function `carddav_modify_by_uri` (modify-carddav-object.c:304-493).  No
transfer precedes the PUT: `res` is still 0, `chunk.memory` and
`headers.memory` are `NULL`, the handle has no response code yet
(`CURLINFO_RESPONSE_CODE` gives 0), and the local `etag` is still `NULL` when
the `If-Match` header is printed. -/
def carddav_modify_by_uri (env : Env) (settings : carddav_settings) (error : carddav_error) :
    Outcome CallResult :=
  match env.get_curl settings with
  | none =>
    Outcome.ok
      { result := true, settings := { settings with file := none },
        error := { code := -1, str := some "Could not initialize libcurl" }, trace := [] }
  | some curl =>
    match env.get_response_header "uri" (g_strdup settings.file) false with
    | none =>
      Outcome.ok
        { result := true, settings := settings,
          error :=
            { code := 1,
              str := some ("Error: Missing required URI for object\n" ++
                "The requested contact may not exist on the server") },
          trace := [] }
    | some uid =>
      let code := env.uninit_code
      let etag : Option String := none
      match env.get_host settings.url with
      | none =>
        Outcome.ok (modify_not_found settings code none [])
      | some host =>
        modify_lock env settings error (modify_by_uri_handle curl) (host ++ uid)
          (modify_by_uri_put_headers etag) 0 code 0 none none []

/-! ## get-carddav-report.c -/

/-- The literal `dirlist_request` (get-carddav-report.c:36). -/
def dirlist_request : String :=
  "<?xml version=\"1.0\" encoding=\"utf-8\" ?>" ++
  "<a:propfind xmlns:a=\"DAV:\">" ++
  "  <a:prop><a:resourcetype/></a:prop>" ++
  "</a:propfind>\r\n"

/-- The literal `getall_request_header` (get-carddav-report.c:46). -/
def getall_request_header : String :=
  "<?xml version=\"1.0\" encoding=\"utf-8\" ?>" ++
  "<C:addressbook-multiget xmlns:D=\"DAV:\"" ++
  "                 xmlns:C=\"urn:ietf:params:xml:ns:carddav\">" ++
  " <D:prop>" ++
  "   <D:getetag/>" ++
  "   <C:address-data>" ++
  "      <C:allprop/>" ++
  "   </C:address-data>" ++
  " </D:prop>"

/-- The literal `getall_request_footer` (get-carddav-report.c:57). -/
def getall_request_footer : String :=
  "</C:addressbook-multiget>\r\n"

/-- The macro `ELEM_HREF`. -/
def ELEM_HREF : String := "href"

/-- The libc `strstr` on character lists: the suffix of `hay` that starts at
the first occurrence of `needle`, if there is one. -/
def strstr_chars : List Char → List Char → Option (List Char)
  | [], needle => if needle = [] then some [] else none
  | c :: hay, needle =>
    if needle.isPrefixOf (c :: hay) then some (c :: hay) else strstr_chars hay needle

/-- The libc `strstr` on strings. -/
def strstr (hay needle : String) : Option String :=
  (strstr_chars hay.data needle.data).map String.mk

/-- The lookup of lines 141-148 and 152-159 of `carddav_dirlist`: `href`, then
`D:href`, then `d:href`. -/
def href_lookup (env : Env) (text : Option String) : Option String :=
  match env.get_tag ELEM_HREF text with
  | some href => some href
  | none =>
    match env.get_tag "D:href" text with
    | some href => some href
    | none => env.get_tag "d:href" text

/-- The `while` loop of `carddav_dirlist` (get-carddav-report.c:151-167), entered
with `href` and `pos` both non-`NULL`; one unit of fuel per iteration. -/
def dirlist_loop (env : Env) : Nat → String → String → Outcome String
  | 0, _, _ => Outcome.timeout
  | fuel + 1, pos, all_href =>
    match href_lookup env (some pos) with
    | none => Outcome.ok all_href
    | some href =>
      let all_href := all_href ++ " <D:href>" ++ href ++ "</D:href>\r\n"
      match strstr pos href with
      | none => Outcome.ok all_href
      | some pos => dirlist_loop env fuel pos all_href

/-- What `carddav_dirlist` returns (`all_href`) and leaves behind. -/
structure DirlistResult where
  all_href : Option String
  settings : carddav_settings
  error : carddav_error
  trace : List Event
  deriving Repr

/-- The function `carddav_dirlist` (get-carddav-report.c:68-178). -/
def carddav_dirlist (env : Env) (fuel : Nat) (settings : carddav_settings)
    (error : carddav_error) : Outcome DirlistResult :=
  match env.get_curl settings with
  | none =>
    Outcome.ok
      { all_href := none, settings := { settings with file := none },
        error := { code := -1, str := some "Could not initialize libcurl" }, trace := [] }
  | some curl =>
    let propfind : CURL :=
      { curl with writedata := none, writeheader := none,
                  postfields := some dirlist_request, httpheader := xml_request_headers,
                  customrequest := some "PROPFIND" }
    let t := env.curl_easy_perform propfind
    let trace := [Event.perform propfind t]
    if t.res ≠ 0 then
      Outcome.ok
        { all_href := none, settings := { settings with file := none },
          error := { code := -1, str := some t.error_buf }, trace := trace }
    else
      let code := t.code
      if code ≠ 207 then
        Outcome.ok
          { all_href := none, settings := settings,
            error := { code := code, str := g_strdup t.headers }, trace := trace }
      else
        let tmp_report := g_strdup t.chunk
        match tmp_report, href_lookup env tmp_report with
        | some report, some href =>
          match strstr report href with
          | none =>
            Outcome.ok
              { all_href := some "", settings := settings, error := error, trace := trace }
          | some pos =>
            match dirlist_loop env fuel pos "" with
            | Outcome.ok all_href =>
              Outcome.ok
                { all_href := some all_href, settings := settings, error := error,
                  trace := trace }
            | Outcome.undefined => Outcome.undefined
            | Outcome.timeout => Outcome.timeout
        | _, _ => Outcome.undefined

/-- The body shared by `carddav_getall` (get-carddav-report.c:186-279) and
`carddav_getall_by_uri` (288-381), whose texts differ in the function name
only. -/
def carddav_getall (env : Env) (fuel : Nat) (settings : carddav_settings)
    (error : carddav_error) : Outcome CallResult :=
  match carddav_dirlist env fuel settings error with
  | Outcome.undefined => Outcome.undefined
  | Outcome.timeout => Outcome.timeout
  | Outcome.ok d =>
    match d.all_href with
    | none =>
      Outcome.ok { result := true, settings := d.settings, error := d.error, trace := d.trace }
    | some dav_file_listing =>
      match env.get_curl d.settings with
      | none =>
        Outcome.ok
          { result := true, settings := { d.settings with file := none },
            error := { code := -1, str := some "Could not initialize libcurl" },
            trace := d.trace }
      | some curl =>
        let get_request :=
          getall_request_header ++ dav_file_listing ++ getall_request_footer ++ "\r\n"
        let report : CURL :=
          { curl with writedata := none, writeheader := none,
                      postfields := some get_request, httpheader := xml_request_headers,
                      customrequest := some "REPORT" }
        let t := env.curl_easy_perform report
        let trace := d.trace ++ [Event.perform report t]
        if t.res ≠ 0 then
          Outcome.ok
            { result := true, settings := { d.settings with file := none },
              error := { code := -1, str := some t.error_buf }, trace := trace }
        else
          let code := t.code
          if code ≠ 207 then
            Outcome.ok
              { result := true, settings := d.settings,
                error := { code := code, str := g_strdup t.headers }, trace := trace }
          else
            let report_text := env.parse_carddav_report t.chunk "address-data" "VCARD"
            Outcome.ok
              { result := false, settings := { d.settings with file := g_strdup report_text },
                error := d.error, trace := trace }

/-- The function `carddav_getall_by_uri` (get-carddav-report.c:288-381). -/
def carddav_getall_by_uri (env : Env) (fuel : Nat) (settings : carddav_settings)
    (error : carddav_error) : Outcome CallResult :=
  match carddav_dirlist env fuel settings error with
  | Outcome.undefined => Outcome.undefined
  | Outcome.timeout => Outcome.timeout
  | Outcome.ok d =>
    match d.all_href with
    | none =>
      Outcome.ok { result := true, settings := d.settings, error := d.error, trace := d.trace }
    | some dav_file_listing =>
      match env.get_curl d.settings with
      | none =>
        Outcome.ok
          { result := true, settings := { d.settings with file := none },
            error := { code := -1, str := some "Could not initialize libcurl" },
            trace := d.trace }
      | some curl =>
        let get_request :=
          getall_request_header ++ dav_file_listing ++ getall_request_footer ++ "\r\n"
        let report : CURL :=
          { curl with writedata := none, writeheader := none,
                      postfields := some get_request, httpheader := xml_request_headers,
                      customrequest := some "REPORT" }
        let t := env.curl_easy_perform report
        let trace := d.trace ++ [Event.perform report t]
        if t.res ≠ 0 then
          Outcome.ok
            { result := true, settings := { d.settings with file := none },
              error := { code := -1, str := some t.error_buf }, trace := trace }
        else
          let code := t.code
          if code ≠ 207 then
            Outcome.ok
              { result := true, settings := d.settings,
                error := { code := code, str := g_strdup t.headers }, trace := trace }
          else
            let report_text := env.parse_carddav_report t.chunk "address-data" "VCARD"
            Outcome.ok
              { result := false, settings := { d.settings with file := g_strdup report_text },
                error := d.error, trace := trace }

/-! ## carddav.c -/

/-- The error `init_runtime` leaves in `info->error`: the one already there,
or a zeroed one (`g_new0`) when the pointer was `NULL`. -/
def init_error (info : runtime_info) : carddav_error :=
  match info.error with
  | none => { code := 0, str := none }
  | some e => e

/-- The options `init_runtime` leaves in `info->options`: the ones already
there, or the defaults of carddav.c:45-50 when the pointer was `NULL`. -/
def init_options (info : runtime_info) : debug_curl :=
  match info.options with
  | none =>
    { trace_ascii := 1, debug := 0, verify_ssl_certificate := 1, use_locking := 1,
      custom_cacert := none }
  | some o => o

/-- The function `init_runtime` (carddav.c:39-52): allocate what is missing,
leave what is there. -/
def init_runtime (info : runtime_info) : runtime_info :=
  { error := some (init_error info), options := some (init_options info) }

/-- A handler of another object file, run through `Env`, as a `CallResult`. -/
def run_handler (name : String) (r : Bool × carddav_settings × carddav_error)
    (trace : List Event) : CallResult :=
  { result := r.1, settings := r.2.1, error := r.2.2, trace := trace ++ [Event.handler name] }

/-- Prefix the steps of the caller to those of a handler. -/
def with_trace (trace : List Event) (r : Outcome CallResult) : Outcome CallResult :=
  match r with
  | Outcome.ok c => Outcome.ok { c with trace := trace ++ c.trace }
  | Outcome.undefined => Outcome.undefined
  | Outcome.timeout => Outcome.timeout

/-- The function `make_carddav_call` (carddav.c:73-115), with
`test_carddav_enabled` (62-66) inlined.  The `error` of the result is
`*info->error` on return. -/
def make_carddav_call (env : Env) (fuel : Nat) (settings : carddav_settings)
    (info : runtime_info) : Outcome CallResult :=
  match info.error with
  | none => Outcome.undefined
  | some error =>
    match env.get_curl settings with
    | none =>
      Outcome.ok
        { result := true, settings := { settings with file := none },
          error := { error with str := some "Could not initialize libcurl" }, trace := [] }
    | some curl =>
      let probe := env.carddav_getoptions curl settings none error true
      let error := probe.2.2
      let trace := [Event.getoptions]
      if !probe.1 then
        Outcome.ok
          { result := true, settings := { settings with file := none }, error := error,
            trace := trace }
      else
        let skipped : Outcome CallResult :=
          Outcome.ok { result := false, settings := settings, error := error, trace := trace }
        if settings.use_uri = 0 then
          match settings.ACTION with
          | CARDDAV_ACTION.GETALL => with_trace trace (carddav_getall env fuel settings error)
          | CARDDAV_ACTION.ADD =>
            Outcome.ok (run_handler "carddav_add" (env.carddav_add settings error) trace)
          | CARDDAV_ACTION.DELETE =>
            Outcome.ok (run_handler "carddav_delete" (env.carddav_delete settings error) trace)
          | CARDDAV_ACTION.MODIFY => with_trace trace (carddav_modify env settings error)
          | CARDDAV_ACTION.GETCALNAME =>
            Outcome.ok (run_handler "carddav_getname" (env.carddav_getname settings error) trace)
          | _ => skipped
        else
          match settings.ACTION with
          | CARDDAV_ACTION.GETALL =>
            with_trace trace (carddav_getall_by_uri env fuel settings error)
          | CARDDAV_ACTION.ADD =>
            Outcome.ok (run_handler "carddav_add" (env.carddav_add settings error) trace)
          | CARDDAV_ACTION.DELETE =>
            Outcome.ok
              (run_handler "carddav_delete_by_uri" (env.carddav_delete_by_uri settings error)
                trace)
          | CARDDAV_ACTION.MODIFY =>
            with_trace trace (carddav_modify_by_uri env settings error)
          | CARDDAV_ACTION.GETCALNAME =>
            Outcome.ok (run_handler "carddav_getname" (env.carddav_getname settings error) trace)
          | _ => skipped

/-- Modelled from the spec: `parse_url` is declared in carddav-utils.h and no
file of the sources defines it.  Section 3 has the connection target "derived
from a caller-supplied URL": the call stores that target in the settings and
leaves the other members as they are. -/
def parse_url (env : Env) (settings : carddav_settings) (URL : Option String) :
    carddav_settings :=
  let target := env.parse_url settings URL
  { settings with username := target.username, password := target.password,
                  url := target.url, usehttps := target.usehttps }

/-- What a public verb returns (`response`), leaves in `*info`, and stores in
`result->msg` (`none` also for the verbs that take no `result`).  The verbs
are embedded for a caller that passes an `info` that is not `NULL`; each of
them returns at once otherwise (`g_return_val_if_fail`). -/
structure PublicResult where
  response : CARDDAV_RESPONSE
  info : runtime_info
  msg : Option String
  trace : List Event
  deriving Repr

/-- The settings `carddav_add_object` hands to `make_carddav_call`: the lines of
carddav.c:126-172 from `init_carddav_settings` to `parse_url`, with `options`
standing for `*info->options`. -/
def carddav_add_object_settings (env : Env) (object : Option String) (URL : Option String)
    (options : debug_curl) : carddav_settings :=
  let settings := env.init_carddav_settings
  let settings : carddav_settings :=
    { settings with
      file := g_strdup object,
      ACTION := CARDDAV_ACTION.ADD,
      debug := decide (options.debug ≠ 0),
      trace_ascii := if options.trace_ascii ≠ 0 then 1 else 0,
      use_locking := decide (options.use_locking ≠ 0) }
  parse_url env settings URL

/-- The function `carddav_add_object` (carddav.c:126-172). -/
def carddav_add_object (env : Env) (fuel : Nat) (object : Option String) (URL : Option String)
    (info : runtime_info) : Outcome PublicResult :=
  let info := init_runtime info
  match info.options with
  | none => Outcome.undefined
  | some options =>
    let settings := carddav_add_object_settings env object URL options
    match make_carddav_call env fuel settings info with
    | Outcome.undefined => Outcome.undefined
    | Outcome.timeout => Outcome.timeout
    | Outcome.ok call =>
      let info : runtime_info := { info with error := some call.error }
      if call.result then
        let carddav_response :=
          if call.error.code > 0 then
            if call.error.code = 403 then CARDDAV_RESPONSE.FORBIDDEN
            else if call.error.code = 409 then CARDDAV_RESPONSE.CONFLICT
            else if call.error.code = 423 then CARDDAV_RESPONSE.LOCKED
            else if call.error.code = 501 then CARDDAV_RESPONSE.NOTIMPLEMENTED
            else CARDDAV_RESPONSE.CONFLICT
          else CARDDAV_RESPONSE.CONFLICT
        Outcome.ok
          { response := carddav_response, info := info, msg := none, trace := call.trace }
      else
        Outcome.ok
          { response := CARDDAV_RESPONSE.OK, info := info,
            msg := none, trace := call.trace }

/-- The settings `carddav_delete_object` hands to `make_carddav_call`: the lines of
carddav.c:183-230 from `init_carddav_settings` to `parse_url`, with `options`
standing for `*info->options`. -/
def carddav_delete_object_settings (env : Env) (object : Option String) (URL : Option String)
    (options : debug_curl) : carddav_settings :=
  let settings := env.init_carddav_settings
  let settings : carddav_settings :=
    { settings with
      file := g_strdup object,
      ACTION := CARDDAV_ACTION.DELETE,
      debug := decide (options.debug ≠ 0),
      trace_ascii := if options.trace_ascii ≠ 0 then 1 else 0,
      use_locking := decide (options.use_locking ≠ 0),
      use_uri := 0 }
  parse_url env settings URL

/-- The function `carddav_delete_object` (carddav.c:183-230). -/
def carddav_delete_object (env : Env) (fuel : Nat) (object : Option String) (URL : Option String)
    (info : runtime_info) : Outcome PublicResult :=
  let info := init_runtime info
  match info.options with
  | none => Outcome.undefined
  | some options =>
    let settings := carddav_delete_object_settings env object URL options
    match make_carddav_call env fuel settings info with
    | Outcome.undefined => Outcome.undefined
    | Outcome.timeout => Outcome.timeout
    | Outcome.ok call =>
      let info : runtime_info := { info with error := some call.error }
      if call.result then
        let carddav_response :=
          if call.error.code > 0 then
            if call.error.code = 403 then CARDDAV_RESPONSE.FORBIDDEN
            else if call.error.code = 409 then CARDDAV_RESPONSE.CONFLICT
            else if call.error.code = 423 then CARDDAV_RESPONSE.LOCKED
            else if call.error.code = 501 then CARDDAV_RESPONSE.NOTIMPLEMENTED
            else CARDDAV_RESPONSE.CONFLICT
          else CARDDAV_RESPONSE.CONFLICT
        Outcome.ok
          { response := carddav_response, info := info, msg := none, trace := call.trace }
      else
        Outcome.ok
          { response := CARDDAV_RESPONSE.OK, info := info,
            msg := none, trace := call.trace }

/-- The settings `carddav_delete_object_by_uri` hands to `make_carddav_call`: the lines of
carddav.c:241-288 from `init_carddav_settings` to `parse_url`, with `options`
standing for `*info->options`. -/
def carddav_delete_object_by_uri_settings (env : Env) (object : Option String) (URL : Option String)
    (options : debug_curl) : carddav_settings :=
  let settings := env.init_carddav_settings
  let settings : carddav_settings :=
    { settings with
      file := g_strdup object,
      ACTION := CARDDAV_ACTION.DELETE,
      debug := decide (options.debug ≠ 0),
      trace_ascii := if options.trace_ascii ≠ 0 then 1 else 0,
      use_locking := decide (options.use_locking ≠ 0),
      use_uri := 1 }
  parse_url env settings URL

/-- The function `carddav_delete_object_by_uri` (carddav.c:241-288). -/
def carddav_delete_object_by_uri (env : Env) (fuel : Nat) (object : Option String) (URL : Option String)
    (info : runtime_info) : Outcome PublicResult :=
  let info := init_runtime info
  match info.options with
  | none => Outcome.undefined
  | some options =>
    let settings := carddav_delete_object_by_uri_settings env object URL options
    match make_carddav_call env fuel settings info with
    | Outcome.undefined => Outcome.undefined
    | Outcome.timeout => Outcome.timeout
    | Outcome.ok call =>
      let info : runtime_info := { info with error := some call.error }
      if call.result then
        let carddav_response :=
          if call.error.code > 0 then
            if call.error.code = 403 then CARDDAV_RESPONSE.FORBIDDEN
            else if call.error.code = 409 then CARDDAV_RESPONSE.CONFLICT
            else if call.error.code = 423 then CARDDAV_RESPONSE.LOCKED
            else if call.error.code = 501 then CARDDAV_RESPONSE.NOTIMPLEMENTED
            else CARDDAV_RESPONSE.CONFLICT
          else CARDDAV_RESPONSE.CONFLICT
        Outcome.ok
          { response := carddav_response, info := info, msg := none, trace := call.trace }
      else
        Outcome.ok
          { response := CARDDAV_RESPONSE.OK, info := info,
            msg := none, trace := call.trace }

/-- The settings `carddav_modify_object` hands to `make_carddav_call`: the lines of
carddav.c:299-346 from `init_carddav_settings` to `parse_url`, with `options`
standing for `*info->options`. -/
def carddav_modify_object_settings (env : Env) (object : Option String) (URL : Option String)
    (options : debug_curl) : carddav_settings :=
  let settings := env.init_carddav_settings
  let settings : carddav_settings :=
    { settings with
      file := g_strdup object,
      ACTION := CARDDAV_ACTION.MODIFY,
      debug := decide (options.debug ≠ 0),
      trace_ascii := if options.trace_ascii ≠ 0 then 1 else 0,
      use_locking := decide (options.use_locking ≠ 0),
      use_uri := 0 }
  parse_url env settings URL

/-- The function `carddav_modify_object` (carddav.c:299-346). -/
def carddav_modify_object (env : Env) (fuel : Nat) (object : Option String) (URL : Option String)
    (info : runtime_info) : Outcome PublicResult :=
  let info := init_runtime info
  match info.options with
  | none => Outcome.undefined
  | some options =>
    let settings := carddav_modify_object_settings env object URL options
    match make_carddav_call env fuel settings info with
    | Outcome.undefined => Outcome.undefined
    | Outcome.timeout => Outcome.timeout
    | Outcome.ok call =>
      let info : runtime_info := { info with error := some call.error }
      if call.result then
        let carddav_response :=
          if call.error.code > 0 then
            if call.error.code = 403 then CARDDAV_RESPONSE.FORBIDDEN
            else if call.error.code = 409 then CARDDAV_RESPONSE.CONFLICT
            else if call.error.code = 423 then CARDDAV_RESPONSE.LOCKED
            else if call.error.code = 501 then CARDDAV_RESPONSE.NOTIMPLEMENTED
            else CARDDAV_RESPONSE.CONFLICT
          else CARDDAV_RESPONSE.CONFLICT
        Outcome.ok
          { response := carddav_response, info := info, msg := none, trace := call.trace }
      else
        Outcome.ok
          { response := CARDDAV_RESPONSE.OK, info := info,
            msg := none, trace := call.trace }

/-- The settings `carddav_modify_object_by_uri` hands to `make_carddav_call`: the lines of
carddav.c:357-404 from `init_carddav_settings` to `parse_url`, with `options`
standing for `*info->options`. -/
def carddav_modify_object_by_uri_settings (env : Env) (object : Option String) (URL : Option String)
    (options : debug_curl) : carddav_settings :=
  let settings := env.init_carddav_settings
  let settings : carddav_settings :=
    { settings with
      file := g_strdup object,
      ACTION := CARDDAV_ACTION.MODIFY,
      debug := decide (options.debug ≠ 0),
      trace_ascii := if options.trace_ascii ≠ 0 then 1 else 0,
      use_locking := decide (options.use_locking ≠ 0),
      use_uri := 1 }
  parse_url env settings URL

/-- The function `carddav_modify_object_by_uri` (carddav.c:357-404). -/
def carddav_modify_object_by_uri (env : Env) (fuel : Nat) (object : Option String) (URL : Option String)
    (info : runtime_info) : Outcome PublicResult :=
  let info := init_runtime info
  match info.options with
  | none => Outcome.undefined
  | some options =>
    let settings := carddav_modify_object_by_uri_settings env object URL options
    match make_carddav_call env fuel settings info with
    | Outcome.undefined => Outcome.undefined
    | Outcome.timeout => Outcome.timeout
    | Outcome.ok call =>
      let info : runtime_info := { info with error := some call.error }
      if call.result then
        let carddav_response :=
          if call.error.code > 0 then
            if call.error.code = 403 then CARDDAV_RESPONSE.FORBIDDEN
            else if call.error.code = 409 then CARDDAV_RESPONSE.CONFLICT
            else if call.error.code = 423 then CARDDAV_RESPONSE.LOCKED
            else if call.error.code = 501 then CARDDAV_RESPONSE.NOTIMPLEMENTED
            else CARDDAV_RESPONSE.CONFLICT
          else CARDDAV_RESPONSE.CONFLICT
        Outcome.ok
          { response := carddav_response, info := info, msg := none, trace := call.trace }
      else
        Outcome.ok
          { response := CARDDAV_RESPONSE.OK, info := info,
            msg := none, trace := call.trace }

/-- The settings `carddav_get_object` hands to `make_carddav_call`: the lines of
carddav.c:419-474 from `init_carddav_settings` to `parse_url`, with `options`
standing for `*info->options`. -/
def carddav_get_object_settings (env : Env) (start end_ : Int) (URL : Option String)
    (options : debug_curl) : carddav_settings :=
  let settings := env.init_carddav_settings
  let settings : carddav_settings :=
    { settings with
      ACTION := CARDDAV_ACTION.GET,
      start := start,
      end_ := end_,
      debug := decide (options.debug ≠ 0),
      trace_ascii := if options.trace_ascii ≠ 0 then 1 else 0,
      use_locking := decide (options.use_locking ≠ 0) }
  parse_url env settings URL

/-- The function `carddav_get_object` (carddav.c:419-474). -/
def carddav_get_object (env : Env) (fuel : Nat) (start end_ : Int) (URL : Option String)
    (info : runtime_info) : Outcome PublicResult :=
  let info := init_runtime info
  match info.options with
  | none => Outcome.undefined
  | some options =>
    let settings := carddav_get_object_settings env start end_ URL options
    match make_carddav_call env fuel settings info with
    | Outcome.undefined => Outcome.undefined
    | Outcome.timeout => Outcome.timeout
    | Outcome.ok call =>
      let info : runtime_info := { info with error := some call.error }
      if call.result then
        let carddav_response :=
          if call.error.code > 0 then
            if call.error.code = 403 then CARDDAV_RESPONSE.FORBIDDEN
            else if call.error.code = 409 then CARDDAV_RESPONSE.CONFLICT
            else if call.error.code = 423 then CARDDAV_RESPONSE.LOCKED
            else if call.error.code = 501 then CARDDAV_RESPONSE.NOTIMPLEMENTED
            else CARDDAV_RESPONSE.CONFLICT
          else CARDDAV_RESPONSE.CONFLICT
        Outcome.ok
          { response := carddav_response, info := info, msg := none, trace := call.trace }
      else
        Outcome.ok
          { response := CARDDAV_RESPONSE.OK, info := info,
            msg := g_strdup call.settings.file, trace := call.trace }

/-- The settings `carddav_getall_object` hands to `make_carddav_call`: the lines of
carddav.c:485-537 from `init_carddav_settings` to `parse_url`, with `options`
standing for `*info->options`. -/
def carddav_getall_object_settings (env : Env) (URL : Option String)
    (options : debug_curl) : carddav_settings :=
  let settings := env.init_carddav_settings
  let settings : carddav_settings :=
    { settings with
      ACTION := CARDDAV_ACTION.GETALL,
      debug := decide (options.debug ≠ 0),
      trace_ascii := if options.trace_ascii ≠ 0 then 1 else 0,
      use_locking := decide (options.use_locking ≠ 0),
      use_uri := 0 }
  parse_url env settings URL

/-- The function `carddav_getall_object` (carddav.c:485-537). -/
def carddav_getall_object (env : Env) (fuel : Nat) (URL : Option String)
    (info : runtime_info) : Outcome PublicResult :=
  let info := init_runtime info
  match info.options with
  | none => Outcome.undefined
  | some options =>
    let settings := carddav_getall_object_settings env URL options
    match make_carddav_call env fuel settings info with
    | Outcome.undefined => Outcome.undefined
    | Outcome.timeout => Outcome.timeout
    | Outcome.ok call =>
      let info : runtime_info := { info with error := some call.error }
      if call.result then
        let carddav_response :=
          if call.error.code > 0 then
            if call.error.code = 403 then CARDDAV_RESPONSE.FORBIDDEN
            else if call.error.code = 409 then CARDDAV_RESPONSE.CONFLICT
            else if call.error.code = 423 then CARDDAV_RESPONSE.LOCKED
            else if call.error.code = 501 then CARDDAV_RESPONSE.NOTIMPLEMENTED
            else CARDDAV_RESPONSE.CONFLICT
          else CARDDAV_RESPONSE.CONFLICT
        Outcome.ok
          { response := carddav_response, info := info, msg := none, trace := call.trace }
      else
        Outcome.ok
          { response := CARDDAV_RESPONSE.OK, info := info,
            msg := g_strdup call.settings.file, trace := call.trace }

/-- The settings `carddav_getall_object_by_uri` hands to `make_carddav_call`: the lines of
carddav.c:549-601 from `init_carddav_settings` to `parse_url`, with `options`
standing for `*info->options`. -/
def carddav_getall_object_by_uri_settings (env : Env) (URL : Option String)
    (options : debug_curl) : carddav_settings :=
  let settings := env.init_carddav_settings
  let settings : carddav_settings :=
    { settings with
      ACTION := CARDDAV_ACTION.GETALL,
      debug := decide (options.debug ≠ 0),
      trace_ascii := if options.trace_ascii ≠ 0 then 1 else 0,
      use_locking := decide (options.use_locking ≠ 0),
      use_uri := 1 }
  parse_url env settings URL

/-- The function `carddav_getall_object_by_uri` (carddav.c:549-601). -/
def carddav_getall_object_by_uri (env : Env) (fuel : Nat) (URL : Option String)
    (info : runtime_info) : Outcome PublicResult :=
  let info := init_runtime info
  match info.options with
  | none => Outcome.undefined
  | some options =>
    let settings := carddav_getall_object_by_uri_settings env URL options
    match make_carddav_call env fuel settings info with
    | Outcome.undefined => Outcome.undefined
    | Outcome.timeout => Outcome.timeout
    | Outcome.ok call =>
      let info : runtime_info := { info with error := some call.error }
      if call.result then
        let carddav_response :=
          if call.error.code > 0 then
            if call.error.code = 403 then CARDDAV_RESPONSE.FORBIDDEN
            else if call.error.code = 409 then CARDDAV_RESPONSE.CONFLICT
            else if call.error.code = 423 then CARDDAV_RESPONSE.LOCKED
            else if call.error.code = 501 then CARDDAV_RESPONSE.NOTIMPLEMENTED
            else CARDDAV_RESPONSE.CONFLICT
          else CARDDAV_RESPONSE.CONFLICT
        Outcome.ok
          { response := carddav_response, info := info, msg := none, trace := call.trace }
      else
        Outcome.ok
          { response := CARDDAV_RESPONSE.OK, info := info,
            msg := g_strdup call.settings.file, trace := call.trace }

/-- The settings `carddav_get_displayname` hands to `make_carddav_call`: the lines of
carddav.c:612-663 from `init_carddav_settings` to `parse_url`, with `options`
standing for `*info->options`. -/
def carddav_get_displayname_settings (env : Env) (URL : Option String)
    (options : debug_curl) : carddav_settings :=
  let settings := env.init_carddav_settings
  let settings : carddav_settings :=
    { settings with
      ACTION := CARDDAV_ACTION.GETCALNAME,
      debug := decide (options.debug ≠ 0),
      trace_ascii := if options.trace_ascii ≠ 0 then 1 else 0,
      use_locking := decide (options.use_locking ≠ 0) }
  parse_url env settings URL

/-- The function `carddav_get_displayname` (carddav.c:612-663). -/
def carddav_get_displayname (env : Env) (fuel : Nat) (URL : Option String)
    (info : runtime_info) : Outcome PublicResult :=
  let info := init_runtime info
  match info.options with
  | none => Outcome.undefined
  | some options =>
    let settings := carddav_get_displayname_settings env URL options
    match make_carddav_call env fuel settings info with
    | Outcome.undefined => Outcome.undefined
    | Outcome.timeout => Outcome.timeout
    | Outcome.ok call =>
      let info : runtime_info := { info with error := some call.error }
      if call.result then
        let carddav_response :=
          if call.error.code > 0 then
            if call.error.code = 403 then CARDDAV_RESPONSE.FORBIDDEN
            else if call.error.code = 409 then CARDDAV_RESPONSE.CONFLICT
            else if call.error.code = 423 then CARDDAV_RESPONSE.LOCKED
            else if call.error.code = 501 then CARDDAV_RESPONSE.NOTIMPLEMENTED
            else CARDDAV_RESPONSE.CONFLICT
          else CARDDAV_RESPONSE.CONFLICT
        Outcome.ok
          { response := carddav_response, info := info, msg := none, trace := call.trace }
      else
        Outcome.ok
          { response := CARDDAV_RESPONSE.OK, info := info,
            msg := g_strdup call.settings.file, trace := call.trace }

/-! ## A concrete environment

A small server with one card, used to run the definitions on actual inputs. -/

/-- A card with a UID and the URI property the library embeds. -/
def demo_card : String := "BEGIN:VCARD\nUID:42\nURI:/book/42.vcf\nEND:VCARD"

/-- The multistatus body the demo server answers a REPORT or PROPFIND with. -/
def demo_body : String :=
  "<multistatus><response><href>/book/42.vcf</href>" ++
  "<getetag>e1</getetag></response></multistatus>"

/-- Settings for a MODIFY by identifier of the demo card, locking enabled. -/
def demo_settings : carddav_settings :=
  { username := none, password := none, url := some "example.org/book/",
    file := some demo_card, usehttps := false, verify_ssl_certificate := true,
    custom_cacert := none, debug := false, use_locking := true, trace_ascii := 1,
    ACTION := CARDDAV_ACTION.MODIFY, start := 0, end_ := 0, use_uri := 0 }

/-- An empty ErrorDetail. -/
def demo_error : carddav_error := { code := 0, str := none }

/-- A runtime_info as `carddav_get_runtime_info` followed by `init_runtime`
leaves it, with locking switched on. -/
def demo_info : runtime_info :=
  { error := some demo_error,
    options := some { trace_ascii := 1, debug := 0, verify_ssl_certificate := 1,
                      use_locking := 1, custom_cacert := none } }

/-- The handle `get_curl` of the demo environment prepares. -/
def demo_curl : CURL :=
  { url := some "http://example.org/book/", httpheader := [], postfields := none,
    customrequest := none, writedata := none, writeheader := none }

/-- The demo server: every REPORT and PROPFIND is answered 207 with `demo_body`,
every PUT with `put_code`; the card is found with etag `e1`; locking is
supported and `carddav_lock_object` gives `lock`. -/
def demo_env (put_code : Int) (lock : Option String × carddav_error) : Env :=
  { get_curl := fun _ => some demo_curl,
    curl_easy_perform := fun c =>
      if c.customrequest = some "PUT" then
        { res := 0, error_buf := "", code := put_code, chunk := c.writedata, headers := none }
      else
        { res := 0, error_buf := "", code := 207, chunk := some demo_body, headers := none },
    get_response_header := fun name text _ =>
      match text with
      | none => none
      | some _ => if name = "uid" then some "42" else some "/book/42.vcf",
    get_url := fun text => text.map (fun _ => "/book/42.vcf"),
    get_etag := fun text => text.map (fun _ => "e1"),
    get_host := fun url => url.map (fun _ => "example.org"),
    get_tag := fun tag text =>
      if tag = "href" ∧ text = some demo_body then some "/book/42.vcf" else none,
    parse_carddav_report := fun report _ _ => report,
    rebuild_url := fun _ uri => some ("http://" ++ uri),
    carddav_lock_support := fun _ e => (true, e),
    carddav_lock_object := fun _ _ _ => lock,
    carddav_unlock_object := fun _ _ _ e => (true, e),
    uninit_lock_error := { code := 0, str := none },
    uninit_code := 0,
    carddav_getoptions := fun _ _ result e _ => (true, result, e),
    carddav_add := fun s e => (false, s, e),
    carddav_delete := fun s e => (false, s, e),
    carddav_delete_by_uri := fun s e => (false, s, e),
    carddav_getname := fun s e => (false, s, e),
    init_carddav_settings :=
      { username := none, password := none, url := none, file := none, usehttps := false,
        verify_ssl_certificate := true, custom_cacert := none, debug := false,
        use_locking := true, trace_ascii := 1, ACTION := CARDDAV_ACTION.UNKNOWN,
        start := 0, end_ := 0, use_uri := 0 },
    parse_url := fun _ _ =>
      { username := none, password := none, url := some "example.org/book/",
        usehttps := false } }

/-- The demo server when the discovery REPORT yields no href. -/
def demo_env_no_href : Env :=
  { demo_env 204 (some "opaquelocktoken:1", { code := 0, str := none }) with
    get_url := fun _ => none }

/-- The demo server when the discovery REPORT yields an href and no etag. -/
def demo_env_no_etag : Env :=
  { demo_env 204 (some "opaquelocktoken:1", { code := 0, str := none }) with
    get_etag := fun _ => none }

/-- The lock token of the demo server. -/
def demo_token : Option String × carddav_error :=
  (some "opaquelocktoken:1", { code := 0, str := none })

/-- The demo server refusing the lock with status `code`. -/
def demo_refusal (code : Int) : Option String × carddav_error :=
  (none, { code := code, str := some "lock refused" })

/-- The PUT a MODIFY by identifier of the demo card sends once the demo server
has handed out its lock token. -/
def demo_put : CURL :=
  { url := some "http://example.org/book/42.vcf",
    httpheader :=
      ["If-Match: e1", "Content-Type: text/directory; charset=\"utf-8\"",
       "Connection: close", "Expect:", "Transfer-Encoding:", "If: (opaquelocktoken:1)"],
    postfields := some demo_card, customrequest := some "PUT",
    writedata := some demo_body, writeheader := none }

/-- The PUT a MODIFY by URI of the demo card sends once the demo server has
handed out its lock token. -/
def demo_put_by_uri : CURL :=
  { url := some "http://example.org/book/42.vcf",
    httpheader :=
      ["Content-Type: application/xml; charset=\"utf-8\"", "Depth: 1", "Expect:",
       "Transfer-Encoding:", "Connection: close",
       "If-Match: (null)", "Content-Type: text/directory; charset=\"utf-8\"",
       "Expect:", "Transfer-Encoding:", "Connection: close", "If: (opaquelocktoken:1)"],
    postfields := some demo_card, customrequest := some "PUT",
    writedata := none, writeheader := none }

/-! ## Vocabulary of the specification -/

/-- Two calls end alike: both return, with results related by `R`, or both are
undefined, or both run out of fuel. -/
def Outcome.rel {α β : Type} (R : α → β → Prop) : Outcome α → Outcome β → Prop
  | Outcome.ok a, Outcome.ok b => R a b
  | Outcome.undefined, Outcome.undefined => True
  | Outcome.timeout, Outcome.timeout => True
  | _, _ => False

/-- The status table of the specification (sections 6 and 8.1), in its own
words: `failed` is the flag of the underlying call, `c` the ErrorDetail code it
left, `r` the value handed to the caller. -/
def ErrorMapper_spec (failed : Bool) (c : Int) (r : CARDDAV_RESPONSE) : Prop :=
  (r = CARDDAV_RESPONSE.OK ↔ failed = false) ∧
  (failed = true →
    (c = 403 → r = CARDDAV_RESPONSE.FORBIDDEN) ∧
    (c = 409 → r = CARDDAV_RESPONSE.CONFLICT) ∧
    (c = 423 → r = CARDDAV_RESPONSE.LOCKED) ∧
    (c = 501 → r = CARDDAV_RESPONSE.NOTIMPLEMENTED) ∧
    (c ≠ 403 → c ≠ 409 → c ≠ 423 → c ≠ 501 → r = CARDDAV_RESPONSE.CONFLICT))

/-- A PUT with request `c` and outcome `t` is among the steps of a call. -/
def put_sent (trace : List Event) (c : CURL) (t : Transfer) : Prop :=
  Event.perform c t ∈ trace ∧ c.customrequest = some "PUT"

/-- No lock helper was called. -/
def no_lock_traffic (trace : List Event) : Prop :=
  Event.lock_support ∉ trace ∧
  (∀ uri, Event.lock_object uri ∉ trace) ∧
  (∀ token uri, Event.unlock_object token uri ∉ trace)

/-- The PUT decides the outcome of a MODIFY that ended as `r`: success exactly
when a PUT was sent, the transport reported no fault for it (`res = 0`) and its
status was 204; a PUT that went through with any other status makes the call
fail with that status as ErrorDetail code.  The outcome recorded for a PUT is
the transport's answer to that very request. -/
def put_decides (env : Env) (r : CallResult) : Prop :=
  (r.result = false ↔ ∃ c t, put_sent r.trace c t ∧ t.res = 0 ∧ t.code = 204) ∧
  (∀ c t, put_sent r.trace c t → t.res = 0 → t.code ≠ 204 →
    r.result = true ∧ r.error.code = t.code) ∧
  (∀ c t, put_sent r.trace c t → t = env.curl_easy_perform c)

/-- Discovery finds the object: the handle is there, the card carries the UID
`uid`, the discovery REPORT goes through with status 207, and `href`, `etag`
and `host` are what `get_url`, `get_etag` and `get_host` extract. -/
def discovery_finds (env : Env) (settings : carddav_settings) (curl : CURL)
    (uid href etag host : String) : Prop :=
  env.get_curl settings = some curl ∧
  env.get_response_header "uid" (g_strdup settings.file) false = some uid ∧
  (env.curl_easy_perform (modify_report_request curl uid)).res = 0 ∧
  (env.curl_easy_perform (modify_report_request curl uid)).code = 207 ∧
  env.get_url (env.curl_easy_perform (modify_report_request curl uid)).chunk = some href ∧
  env.get_etag (env.curl_easy_perform (modify_report_request curl uid)).chunk = some etag ∧
  env.get_host settings.url = some host

/-- MODIFY by URI reaches its lock phase: the handle is there, the card carries
the URI property `uri`, and `host` is what `get_host` extracts. -/
def uri_resolves (env : Env) (settings : carddav_settings) (curl : CURL)
    (uri host : String) : Prop :=
  env.get_curl settings = some curl ∧
  env.get_response_header "uri" (g_strdup settings.file) false = some uri ∧
  env.get_host settings.url = some host

/-- Locking is enabled and supported, and `carddav_lock_object` on `url` gives
`token` and leaves `lock_error`. -/
def lock_attempt (env : Env) (settings : carddav_settings) (url : String)
    (token : Option String) (lock_error : carddav_error) : Prop :=
  settings.use_locking = true ∧
  (env.carddav_lock_support settings env.uninit_lock_error).1 = true ∧
  env.carddav_lock_object url settings
    (env.carddav_lock_support settings env.uninit_lock_error).2 = (token, lock_error)

/-- The capability probe of `make_carddav_call` on `settings` lets the verb
through: `get_curl` gives `curl` and `carddav_getoptions` answers true, leaving
`error` in the ErrorDetail that started as `error0`. -/
def probe_passes (env : Env) (settings : carddav_settings) (curl : CURL)
    (error0 error : carddav_error) : Prop :=
  env.get_curl settings = some curl ∧
  (env.carddav_getoptions curl settings none error0 true).1 = true ∧
  (env.carddav_getoptions curl settings none error0 true).2.2 = error

/-- The name of a header line: the text before its first colon. -/
def header_name (line : String) : String :=
  String.mk (line.data.takeWhile (fun c => c != ':'))

/-- The header lines of a request that carry the given name, in order. -/
def headers_named (name : String) (c : CURL) : List String :=
  c.httpheader.filter (fun line => header_name line = name)

/-- The token `carddav_lock_object` returned for `url`; `none` when it returned
`NULL` or was not called (locking disabled or unsupported). -/
def acquired_token (env : Env) (settings : carddav_settings) (url : String) :
    Option String :=
  if settings.use_locking = true ∧
      (env.carddav_lock_support settings env.uninit_lock_error).1 = true then
    (env.carddav_lock_object url settings
      (env.carddav_lock_support settings env.uninit_lock_error).2).1
  else none

/-- The `If` header line for a lock token, if there is a token. -/
def token_header (token : Option String) : List String :=
  match token with
  | some tok => ["If: (" ++ tok ++ ")"]
  | none => []

/-- The demo server when the capability probe answers that the target is not
CardDAV-enabled, leaving status 405 in the ErrorDetail. -/
def demo_env_not_enabled : Env :=
  { demo_env 204 (some "opaquelocktoken:1", { code := 0, str := none }) with
    carddav_getoptions := fun _ _ result _ _ =>
      (false, result, { code := 405, str := some "Method Not Allowed" }) }

/-- The lines every public verb of carddav.c runs after `make_carddav_call`
(for instance 152-171 of `carddav_add_object`, 452-473 of `carddav_get_object`):
store the ErrorDetail, map the outcome, and for a retrieval verb hand out
`settings.file` on success. -/
def public_tail (retrieval : Bool) (info : runtime_info) (call : Outcome CallResult) :
    Outcome PublicResult :=
  match call with
  | Outcome.undefined => Outcome.undefined
  | Outcome.timeout => Outcome.timeout
  | Outcome.ok call =>
    let info : runtime_info := { info with error := some call.error }
    if call.result then
      let carddav_response :=
        if call.error.code > 0 then
          if call.error.code = 403 then CARDDAV_RESPONSE.FORBIDDEN
          else if call.error.code = 409 then CARDDAV_RESPONSE.CONFLICT
          else if call.error.code = 423 then CARDDAV_RESPONSE.LOCKED
          else if call.error.code = 501 then CARDDAV_RESPONSE.NOTIMPLEMENTED
          else CARDDAV_RESPONSE.CONFLICT
        else CARDDAV_RESPONSE.CONFLICT
      Outcome.ok
        { response := carddav_response, info := info, msg := none, trace := call.trace }
    else
      Outcome.ok
        { response := CARDDAV_RESPONSE.OK, info := info,
          msg := if retrieval then g_strdup call.settings.file else none,
          trace := call.trace }

/-- The verbs whose handler `make_carddav_call` takes from modify-carddav-object.c
or get-carddav-report.c, or for which it has no handler at all: every ACTION
but ADD, DELETE and GETCALNAME. -/
def handler_in_sources (action : CARDDAV_ACTION) : Prop :=
  action ≠ CARDDAV_ACTION.ADD ∧ action ≠ CARDDAV_ACTION.DELETE ∧
  action ≠ CARDDAV_ACTION.GETCALNAME

/-- The handle as lines 92-120 of `carddav_dirlist` set it up for the PROPFIND,
from the handle `get_curl` gave. -/
def dirlist_propfind_request (curl : CURL) : CURL :=
  { curl with writedata := none, writeheader := none,
              postfields := some dirlist_request, httpheader := xml_request_headers,
              customrequest := some "PROPFIND" }

/-- The handle as lines 215-246 of `carddav_getall` (317-348 of
`carddav_getall_by_uri`) set it up for the multiget REPORT; the body is the one
line 232 prints from the listing. -/
def getall_report_request (curl : CURL) (dav_file_listing : String) : CURL :=
  { curl with writedata := none, writeheader := none,
              postfields := some
                (getall_request_header ++ dav_file_listing ++ getall_request_footer ++ "\r\n"),
              httpheader := xml_request_headers,
              customrequest := some "REPORT" }

/-- The values `href` takes in the successive iterations of the `while` loop of
`carddav_dirlist` started at `pos`, in order: the loop of `dirlist_loop` with
the values listed instead of printed. -/
def dirlist_scan (env : Env) : Nat → String → Outcome (List String)
  | 0, _ => Outcome.timeout
  | fuel + 1, pos =>
    match href_lookup env (some pos) with
    | none => Outcome.ok []
    | some href =>
      match strstr pos href with
      | none => Outcome.ok [href]
      | some pos =>
        match dirlist_scan env fuel pos with
        | Outcome.ok hrefs => Outcome.ok (href :: hrefs)
        | Outcome.undefined => Outcome.undefined
        | Outcome.timeout => Outcome.timeout

/-- The href values `carddav_dirlist` collects from the 207 body `report`: the
lookup on the whole body positions the scan, the loop then collects. -/
def collected_hrefs (env : Env) (fuel : Nat) (report : String) : Outcome (List String) :=
  match href_lookup env (some report) with
  | none => Outcome.undefined
  | some href =>
    match strstr report href with
    | none => Outcome.ok []
    | some pos => dirlist_scan env fuel pos

/-- One href element of the multiget body, as line 165 of `carddav_dirlist`
prints it. -/
def href_element (href : String) : String :=
  " <D:href>" ++ href ++ "</D:href>\r\n"

/-- The href elements for a sequence of values: one element per value, in the
order of the sequence. -/
def href_elements : List String → String
  | [] => ""
  | href :: hrefs => href_element href ++ href_elements hrefs

/-- The `build_multiget_request` of the specification (section 4.2) for the
wire format of the library: the fixed header, one href element per value in
input order, the fixed footer and the line end line 232 adds. -/
def build_multiget_request (hrefs : List String) : String :=
  getall_request_header ++ href_elements hrefs ++ getall_request_footer ++ "\r\n"

/-- A runtime_info as an earlier MODIFY that found no object left it: the
ErrorDetail holds code 409 and "No object found". -/
def demo_stale_info : runtime_info :=
  { error := some { code := 409, str := some "No object found" },
    options := some { trace_ascii := 1, debug := 0, verify_ssl_certificate := 1,
                      use_locking := 1, custom_cacert := none } }

/-- The demo server when `get_curl` cannot prepare a handle. -/
def demo_env_no_curl : Env :=
  { demo_env 204 (some "opaquelocktoken:1", { code := 0, str := none }) with
    get_curl := fun _ => none }

/-- A runtime_info whose two pointers are still `NULL`. -/
def demo_blank_info : runtime_info := { error := none, options := none }

/-- A runtime_info holding a zeroed ErrorDetail and the default options of
`init_runtime`. -/
def demo_zeroed_info : runtime_info :=
  { error := some { code := 0, str := none },
    options := some { trace_ascii := 1, debug := 0, verify_ssl_certificate := 1,
                      use_locking := 1, custom_cacert := none } }

/-! ## The tag lookup of carddav-utils.h, from the specification -/

/-- The text after the first occurrence of the character `c`, if there is
one. -/
def after_char (c : Char) : List Char → Option (List Char)
  | [] => none
  | x :: xs => if x = c then some xs else after_char c xs

/-- The text before the first occurrence of `needle`, if there is one. -/
def take_until (needle : List Char) : List Char → Option (List Char)
  | [] => if needle = [] then some [] else none
  | x :: xs =>
    if needle.isPrefixOf (x :: xs) then some []
    else (take_until needle xs).map (fun t => x :: t)

/-- The tag lookup on character lists: find the first `<tag`, skip to the end
of that opening tag (the next `>`), and take the text up to the first `</tag>`
that follows. -/
def get_tag_chars (tag text : List Char) : Option (List Char) :=
  match strstr_chars text ('<' :: tag) with
  | none => none
  | some opening =>
    match after_char '>' opening with
    | none => none
    | some content => take_until ('<' :: '/' :: tag ++ ['>']) content

/-- Modelled from the spec: `get_tag` is declared in carddav-utils.h and no file
of the sources defines it.  Section 4.1 has `extract_tag(tag_name, text)`
return "the text strictly between the first `<tag_name...>` and matching
`</tag_name>` (attributes on the opening tag ignored)", and "absence of an
expected tag returns not found"; a `NULL` text has no tag. -/
def get_tag (tag : String) (text : Option String) : Option String :=
  match text with
  | none => none
  | some t => (get_tag_chars tag.data t.data).map String.mk

/-- The three spellings of the href tag, in the order `carddav_dirlist` tries
them. -/
def spellings : List String := ["href", "D:href", "d:href"]

/-- The spellings `carddav_dirlist` tries before `tag`. -/
def earlier_spellings (tag : String) : List String :=
  spellings.takeWhile (fun t => t != tag)

/-- The first occurrence of `needle` in `hay` starts at offset `n`: `needle`
is a prefix of what is left after `n` characters, and of none of the `n`
longer suffixes. -/
def first_at (needle hay : List Char) (n : Nat) : Prop :=
  ((hay.tails.take n).all (fun s => !needle.isPrefixOf s)) = true ∧
  needle.isPrefixOf (hay.drop n) = true

/-- The text `needle` does not occur in `hay`: it is a prefix of no suffix. -/
def absent (needle hay : List Char) : Prop :=
  (hay.tails.all (fun s => !needle.isPrefixOf s)) = true

/-- The opening tag `<tag>`. -/
def open_tag (tag : String) : List Char := '<' :: tag.data ++ ['>']

/-- The closing tag `</tag>`. -/
def close_tag (tag : String) : List Char := '<' :: '/' :: tag.data ++ ['>']

/-- A listing body whose href elements are all spelled `tag`: for each item
`(gap, text)` the text `gap`, then the element `<tag>text</tag>`; after the
last element the text `trailer`. -/
def listing_chars (tag : String) : List (String × String) → String → List Char
  | [], trailer => trailer.data
  | (gap, text) :: items, trailer =>
    gap.data ++ (open_tag tag ++ (text.data ++ (close_tag tag ++
      listing_chars tag items trailer)))

/-- The listing body as a string. -/
def listing_body (tag : String) (items : List (String × String)) (trailer : String) :
    String :=
  String.mk (listing_chars tag items trailer)

/-- The scan of `carddav_dirlist` finds its way through a listing whose
elements are spelled `tag`, standing at `pre` followed by the items still
ahead: no spelling tried before `tag` occurs in what is left; the next `<tag`
is the opening tag of the next element; the element's text ends at its own
closing tag; the element's text occurs in what is left no earlier than in its
own element; and so on from the text found.  Behind the last element none of the
three spellings is opened again. -/
def scan_ok (tag : String) : List Char → List (String × String) → String → Prop
  | pre, [], trailer =>
    ∀ t ∈ spellings, absent ('<' :: t.data) (pre ++ trailer.data)
  | pre, (gap, text) :: items, trailer =>
    (∀ t ∈ earlier_spellings tag,
      absent ('<' :: t.data) (pre ++ listing_chars tag ((gap, text) :: items) trailer)) ∧
    first_at ('<' :: tag.data) (pre ++ listing_chars tag ((gap, text) :: items) trailer)
      (pre ++ gap.data).length ∧
    first_at (close_tag tag)
      (text.data ++ (close_tag tag ++ listing_chars tag items trailer)) text.data.length ∧
    first_at text.data (pre ++ listing_chars tag ((gap, text) :: items) trailer)
      (pre ++ gap.data ++ open_tag tag).length ∧
    scan_ok tag (text.data ++ close_tag tag) items trailer

/-- The 207 answer to the PROPFIND of `carddav_dirlist` carries `body`, and the
tag lookup of the environment is the one of the specification. -/
def answers_listing (env : Env) (settings : carddav_settings) (body : String) : Prop :=
  env.get_tag = get_tag ∧
  ∃ curl, env.get_curl settings = some curl ∧
    (env.curl_easy_perform (dirlist_propfind_request curl)).res = 0 ∧
    (env.curl_easy_perform (dirlist_propfind_request curl)).code = 207 ∧
    (env.curl_easy_perform (dirlist_propfind_request curl)).chunk = some body

/-- The demo server with the tag lookup of the specification, answering every
PROPFIND and REPORT with status 207 and `body`. -/
def listing_env (body : String) : Env :=
  { demo_env 204 (some "opaquelocktoken:1", { code := 0, str := none }) with
    get_tag := get_tag,
    curl_easy_perform := fun _ =>
      { res := 0, error_buf := "", code := 207, chunk := some body, headers := none } }

/-- The items of the demo listing: the collection itself and two cards, each
in its own response element. -/
def demo_items : List (String × String) :=
  [("<multistatus><response>", "/book/"),
   ("</response><response>", "/book/1.vcf"),
   ("</response><response>", "/book/2.vcf")]

/-- The 207 body of a PROPFIND on the demo collection, elements spelled
`href`. -/
def demo_listing : String := listing_body "href" demo_items "</response></multistatus>"

/-- The demo server answering the PROPFIND with status 200. -/
def demo_env_listing_200 : Env :=
  { demo_env 204 (some "opaquelocktoken:1", { code := 0, str := none }) with
    curl_easy_perform := fun _ =>
      { res := 0, error_buf := "", code := 200, chunk := some demo_body, headers := none } }

/-- Whether a first occurrence is at a given offset can be computed. -/
instance first_at_decidable (needle hay : List Char) (n : Nat) :
    Decidable (first_at needle hay n) :=
  inferInstanceAs (Decidable (_ ∧ _))

/-- Whether a text is absent can be computed. -/
instance absent_decidable (needle hay : List Char) : Decidable (absent needle hay) :=
  inferInstanceAs (Decidable (_ = true))

/-- Whether the scan finds its way through a listing can be computed. -/
def scan_ok_decidable (tag : String) (trailer : String) :
    (items : List (String × String)) → (pre : List Char) →
      Decidable (scan_ok tag pre items trailer)
  | [], pre =>
    inferInstanceAs (Decidable (∀ t ∈ spellings, absent ('<' :: t.data) (pre ++ trailer.data)))
  | (_, text) :: items, _ =>
    have := scan_ok_decidable tag trailer items (text.data ++ close_tag tag)
    inferInstanceAs (Decidable (_ ∧ _ ∧ _ ∧ _ ∧ _))

/-- The instance for `scan_ok`. -/
instance scan_ok_instance (tag : String) (pre : List Char) (items : List (String × String))
    (trailer : String) : Decidable (scan_ok tag pre items trailer) :=
  scan_ok_decidable tag trailer items pre

/-- A listing with three elements in mixed spelling. -/
def demo_mixed_listing : String :=
  "<D:href>/book/</D:href><D:href>/book/1.vcf</D:href><href>/book/2.vcf</href>"

/-- The items of a listing with the collection `/x` and one card called `d`. -/
def demo_short_items : List (String × String) := [("", "/x"), ("", "d")]

/-- The demo server for a card whose UID holds markup characters. -/
def demo_env_markup_uid : Env :=
  { demo_env 204 (some "opaquelocktoken:1", { code := 0, str := none }) with
    get_response_header := fun _ text _ => text.map (fun _ => "a<b>&\"c\"") }

/-- Apply a function to what a call returns. -/
def Outcome.map {α β : Type} (f : α → β) : Outcome α → Outcome β
  | Outcome.ok a => Outcome.ok (f a)
  | Outcome.undefined => Outcome.undefined
  | Outcome.timeout => Outcome.timeout

/-- The result `r` of a handler with the ErrorDetail of a successful run
replaced by `error`; a failed run is left as it is. -/
def reenter (error : carddav_error) (r : CallResult) : CallResult :=
  if r.result then r else { r with error := error }

/-- The result `d` of `carddav_dirlist` with the ErrorDetail of a run that gave
a listing replaced by `error`; a run that gave `NULL` is left as it is. -/
def reenter_dirlist (error : carddav_error) (d : DirlistResult) : DirlistResult :=
  match d.all_href with
  | none => d
  | some _ => { d with error := error }

/-- The environment `env` with another `carddav_unlock_object`: everything
else, the transport included, answers as before. -/
def with_unlock (env : Env)
    (unlock : String → String → carddav_settings → carddav_error → Bool × carddav_error) :
    Env :=
  { env with carddav_unlock_object := unlock }

/-- A card that carries neither a UID nor a URI property. -/
def demo_card_bare : String := "BEGIN:VCARD\nFN:Nobody\nEND:VCARD"

/-- The demo server with a property lookup that finds nothing in the card. -/
def demo_env_no_property : Env :=
  { demo_env 204 (some "opaquelocktoken:1", { code := 0, str := none }) with
    get_response_header := fun _ _ _ => none }

/-- The demo server with a `carddav_unlock_object` that fails and reports 500. -/
def demo_failing_unlock :
    String → String → carddav_settings → carddav_error → Bool × carddav_error :=
  fun _ _ _ _ => (false, { code := 500, str := some "unlock failed" })

/-- Settings for a MODIFY of the card without UID and URI. -/
def demo_settings_bare : carddav_settings :=
  { demo_settings with file := some demo_card_bare }

/-- Settings for a MODIFY by URI of the card without UID and URI. -/
def demo_settings_bare_by_uri : carddav_settings :=
  { demo_settings with file := some demo_card_bare, use_uri := 1 }

/-- The demo server when the PUT fails in the transport: `curl_easy_perform`
returns `CURLE_COULDNT_CONNECT` (7) and no status is obtained. -/
def demo_env_put_fault : Env :=
  { demo_env 204 (some "opaquelocktoken:1", { code := 0, str := none }) with
    curl_easy_perform := fun c =>
      if c.customrequest = some "PUT" then
        { res := 7, error_buf := "Couldn't connect to server", code := 0,
          chunk := c.writedata, headers := none }
      else
        { res := 0, error_buf := "", code := 207, chunk := some demo_body, headers := none } }

/-! ## The two probes of carddav.c and the glib string helpers they use -/

/-- What `carddav_enabled_resource` returns (`value`) and leaves in `*info`,
with the steps it performed. -/
structure EnabledResult where
  value : Int
  info : runtime_info
  trace : List Event
  deriving Repr

/-- The function `carddav_enabled_resource` (carddav.c:673-710), for a caller
that passes an `info` that is not `NULL`.  `TRUE` is 1.  The debug options the
function sets on the handle (lines 700-704) are not part of `CURL`; the probe
is `test_carddav_enabled`, inlined. -/
def carddav_enabled_resource (env : Env) (URL : Option String) (info : runtime_info) :
    EnabledResult :=
  let error := init_error info
  let options := init_options info
  let settings := parse_url env env.init_carddav_settings URL
  match env.get_curl settings with
  | none =>
    { value := 1,
      info := { error := some { code := -1, str := some "Could not initialize libcurl" },
                options := some options },
      trace := [] }
  | some curl =>
    let settings : carddav_settings :=
      { settings with use_locking := decide (options.use_locking ≠ 0) }
    let probe := env.carddav_getoptions curl settings none error true
    let res := probe.1
    let error := probe.2.2
    { value := if res && (error.code == 0 || error.code == 200) then 1 else 0,
      info := { error := some error, options := some options },
      trace := [Event.getoptions] }

/-- The settings `carddav_enabled_resource` and `carddav_get_server_options`
hand to `carddav_getoptions`. -/
def probe_settings (env : Env) (URL : Option String) (info : runtime_info) :
    carddav_settings :=
  { parse_url env env.init_carddav_settings URL with
    use_locking := decide ((init_options info).use_locking ≠ 0) }

/-- A 207 listing in which the same href text comes twice. -/
def demo_repeated_listing : String := "<href>/a</href><href>/a</href>"

/-- A 207 listing in which the second href text is empty. -/
def demo_empty_href_listing : String := "<href>/a</href><href></href>"

/-- A 207 listing in which the second href text begins the first. -/
def demo_overlapping_listing : String := "<href>/ab</href><href>/a</href>"

/-! ## Well-formed listings -/

/-- No occurrence of `needle` in `x ++ y` starts inside `x`. -/
def starts_nowhere (needle : List Char) : List Char → List Char → Prop
  | [], _ => True
  | c :: x, y => needle.isPrefixOf (c :: (x ++ y)) = false ∧ starts_nowhere needle x y

/-- The items and the trailer are those of a listing whose href elements are
the listed ones: the text of an element is character data (it holds no `<`),
and neither the text between two elements nor the text behind the last one
opens an href tag in any of the three spellings. -/
def well_formed_listing (items : List (String × String)) (trailer : String) : Prop :=
  (∀ item ∈ items, '<' ∉ item.2.data ∧ ∀ t ∈ spellings, absent ('<' :: t.data) item.1.data) ∧
  ∀ t ∈ spellings, absent ('<' :: t.data) trailer.data

/-- No text of a listed element occurs anywhere in the body before the content
of its own element: with `before` the part of the body in front of the items
still ahead, the first occurrence of each text in the whole body is where its
element has it. -/
def own_content_first (tag : String) (trailer : String) :
    List Char → List (String × String) → Prop
  | _, [] => True
  | before, (gap, text) :: items =>
    first_at text.data (before ++ listing_chars tag ((gap, text) :: items) trailer)
      (before ++ gap.data ++ open_tag tag).length ∧
    own_content_first tag trailer
      (before ++ gap.data ++ open_tag tag ++ text.data ++ close_tag tag) items

/-- Whether a listing is well formed can be computed. -/
instance well_formed_listing_decidable (items : List (String × String)) (trailer : String) :
    Decidable (well_formed_listing items trailer) :=
  inferInstanceAs (Decidable (_ ∧ _))

/-- Whether each text first occurs in its own element can be computed. -/
def own_content_first_decidable (tag : String) (trailer : String) :
    (items : List (String × String)) → (before : List Char) →
      Decidable (own_content_first tag trailer before items)
  | [], _ => inferInstanceAs (Decidable True)
  | (gap, text) :: items, before =>
    have := own_content_first_decidable tag trailer items
      (before ++ gap.data ++ open_tag tag ++ text.data ++ close_tag tag)
    inferInstanceAs (Decidable (_ ∧ _))

/-- The instance for `own_content_first`. -/
instance own_content_first_instance (tag : String) (trailer : String) (before : List Char)
    (items : List (String × String)) : Decidable (own_content_first tag trailer before items) :=
  own_content_first_decidable tag trailer items before

/-- The items of a listing that holds the collection alone. -/
def demo_single_items : List (String × String) := [("<multistatus><response>", "/book/")]

/-- A runtime_info as an earlier call that was refused left it: the
ErrorDetail holds code 403. -/
def demo_forbidden_info : runtime_info :=
  { error := some { code := 403, str := some "Forbidden" },
    options := some { trace_ascii := 1, debug := 0, verify_ssl_certificate := 1,
                      use_locking := 1, custom_cacert := none } }

/-! ## Theorems -/

/-- The switch every public verb ends with satisfies the status table. -/
theorem switch_spec (failed : Bool) (c : Int) :
    ErrorMapper_spec failed c
      (if failed then
        (if c > 0 then
          if c = 403 then CARDDAV_RESPONSE.FORBIDDEN
          else if c = 409 then CARDDAV_RESPONSE.CONFLICT
          else if c = 423 then CARDDAV_RESPONSE.LOCKED
          else if c = 501 then CARDDAV_RESPONSE.NOTIMPLEMENTED
          else CARDDAV_RESPONSE.CONFLICT
        else CARDDAV_RESPONSE.CONFLICT)
      else CARDDAV_RESPONSE.OK) := by
  unfold ErrorMapper_spec
  cases failed
  · simp
  · by_cases h403 : c = 403
    · subst h403; simp
    by_cases h409 : c = 409
    · subst h409; simp
    by_cases h423 : c = 423
    · subst h423; simp
    by_cases h501 : c = 501
    · subst h501; simp
    by_cases hpos : c > 0 <;> simp [h403, h409, h423, h501, hpos]

/-- C1. Every public verb (add, delete, delete-by-uri, modify, modify-by-uri,
get, getall, getall-by-uri, get-displayname) returns exactly when its underlying
`make_carddav_call` returns, and then maps the outcome by the status table: OK
exactly when the call reported no failure, otherwise FORBIDDEN for code 403,
CONFLICT for 409, LOCKED for 423, NOTIMPLEMENTED for 501 and CONFLICT for every
other code (positive, zero or negative). -/
theorem C1_error_mapping (env : Env) (fuel : Nat) (object URL : Option String)
    (start end_ : Int) (info : runtime_info) :
    let maps := fun (c : CallResult) (p : PublicResult) =>
      ErrorMapper_spec c.result c.error.code p.response
    Outcome.rel maps
      (make_carddav_call env fuel
        (carddav_add_object_settings env object URL (init_options info)) (init_runtime info))
      (carddav_add_object env fuel object URL info) ∧
    Outcome.rel maps
      (make_carddav_call env fuel
        (carddav_delete_object_settings env object URL (init_options info)) (init_runtime info))
      (carddav_delete_object env fuel object URL info) ∧
    Outcome.rel maps
      (make_carddav_call env fuel
        (carddav_delete_object_by_uri_settings env object URL (init_options info))
        (init_runtime info))
      (carddav_delete_object_by_uri env fuel object URL info) ∧
    Outcome.rel maps
      (make_carddav_call env fuel
        (carddav_modify_object_settings env object URL (init_options info)) (init_runtime info))
      (carddav_modify_object env fuel object URL info) ∧
    Outcome.rel maps
      (make_carddav_call env fuel
        (carddav_modify_object_by_uri_settings env object URL (init_options info))
        (init_runtime info))
      (carddav_modify_object_by_uri env fuel object URL info) ∧
    Outcome.rel maps
      (make_carddav_call env fuel
        (carddav_get_object_settings env start end_ URL (init_options info)) (init_runtime info))
      (carddav_get_object env fuel start end_ URL info) ∧
    Outcome.rel maps
      (make_carddav_call env fuel
        (carddav_getall_object_settings env URL (init_options info)) (init_runtime info))
      (carddav_getall_object env fuel URL info) ∧
    Outcome.rel maps
      (make_carddav_call env fuel
        (carddav_getall_object_by_uri_settings env URL (init_options info)) (init_runtime info))
      (carddav_getall_object_by_uri env fuel URL info) ∧
    Outcome.rel maps
      (make_carddav_call env fuel
        (carddav_get_displayname_settings env URL (init_options info)) (init_runtime info))
      (carddav_get_displayname env fuel URL info) := by
  intro maps
  have key : ∀ (call : Outcome CallResult) (msg : CallResult → Option String),
      Outcome.rel maps call
        (match call with
        | Outcome.undefined => Outcome.undefined
        | Outcome.timeout => Outcome.timeout
        | Outcome.ok call =>
          if call.result then
            Outcome.ok
              { response :=
                  if call.error.code > 0 then
                    if call.error.code = 403 then CARDDAV_RESPONSE.FORBIDDEN
                    else if call.error.code = 409 then CARDDAV_RESPONSE.CONFLICT
                    else if call.error.code = 423 then CARDDAV_RESPONSE.LOCKED
                    else if call.error.code = 501 then CARDDAV_RESPONSE.NOTIMPLEMENTED
                    else CARDDAV_RESPONSE.CONFLICT
                  else CARDDAV_RESPONSE.CONFLICT,
                info := { init_runtime info with error := some call.error },
                msg := none, trace := call.trace }
          else
            Outcome.ok
              { response := CARDDAV_RESPONSE.OK,
                info := { init_runtime info with error := some call.error },
                msg := msg call, trace := call.trace }) := by
    intro call msg
    cases call with
    | undefined => exact trivial
    | timeout => exact trivial
    | ok c =>
      have hs := switch_spec c.result c.error.code
      cases hr : c.result <;> rw [hr] at hs <;> simpa [Outcome.rel, maps, hr] using hs
  refine ⟨?_, ?_, ?_, ?_, ?_, ?_, ?_, ?_, ?_⟩
  · exact key _ (fun _ => none)
  · exact key _ (fun _ => none)
  · exact key _ (fun _ => none)
  · exact key _ (fun _ => none)
  · exact key _ (fun _ => none)
  · exact key _ (fun c => g_strdup c.settings.file)
  · exact key _ (fun c => g_strdup c.settings.file)
  · exact key _ (fun c => g_strdup c.settings.file)
  · exact key _ (fun c => g_strdup c.settings.file)

/-- The verdict keeps the steps it is given. -/
theorem modify_verdict_trace (settings : carddav_settings) (error : carddav_error)
    (res : Nat) (lock : Int) (lock_error : carddav_error) (code last_code : Int)
    (chunk : Option String) (trace : List Event) :
    (modify_verdict settings error res lock lock_error code last_code chunk trace).trace
      = trace := by
  unfold modify_verdict
  split_ifs <;> rfl

/-- The verdict is a success exactly when nothing failed and the handle's last
status is 204. -/
theorem modify_verdict_result (settings : carddav_settings) (error : carddav_error)
    (res : Nat) (lock : Int) (lock_error : carddav_error) (code last_code : Int)
    (chunk : Option String) (trace : List Event) :
    (modify_verdict settings error res lock lock_error code last_code chunk trace).result
        = false ↔ (res = 0 ∧ ¬ lock < 0 ∧ last_code = 204) := by
  unfold modify_verdict
  split_ifs with h1 h2 h3
  · simp only [Bool.true_eq_false, false_iff, not_and]
    intro hr hl
    rcases h1 with h | h
    · exact absurd hr h
    · exact absurd h hl
  · simp only [Bool.true_eq_false, false_iff, not_and]
    intro hr hl
    rcases h1 with h | h
    · exact absurd hr h
    · exact absurd h hl
  · simp only [Bool.true_eq_false, false_iff, not_and]
    intro _ _
    exact h3
  · simp only [true_iff]
    push_neg at h1 h3
    exact ⟨h1.1, not_lt.2 h1.2, h3⟩

/-- The verdict on a transfer that went through with a status other than 204
carries that status. -/
theorem modify_verdict_status (settings : carddav_settings) (error : carddav_error)
    (lock : Int) (lock_error : carddav_error) (code last_code : Int)
    (chunk : Option String) (trace : List Event) (hlock : ¬ lock < 0)
    (hlast : last_code ≠ 204) :
    (modify_verdict settings error 0 lock lock_error code last_code chunk trace).result = true ∧
    (modify_verdict settings error 0 lock lock_error code last_code chunk trace).error.code
      = last_code := by
  unfold modify_verdict
  simp [hlock, hlast]

/-- Releasing the lock performs no transfer on the handle. -/
theorem release_lock_no_perform (env : Env) (settings : carddav_settings) (url : String)
    (LOCKSUPPORT : Bool) (lock_token : Option String) (lock_error : carddav_error)
    (c : CURL) (t : Transfer) :
    Event.perform c t ∉ (release_lock env settings url LOCKSUPPORT lock_token lock_error).2 := by
  unfold release_lock
  split <;> simp

/-- The PUT in a list of steps that had none before it. -/
theorem put_sent_append (trace rest : List Event) (put : CURL) (tp : Transfer)
    (hno : ∀ c t, ¬ put_sent trace c t)
    (hrest : ∀ c t, Event.perform c t ∉ rest)
    (hput : put.customrequest = some "PUT") (c : CURL) (t : Transfer) :
    put_sent (trace ++ Event.perform put tp :: rest) c t ↔ (c = put ∧ t = tp) := by
  unfold put_sent at hno ⊢
  constructor
  · rintro ⟨hm, hc⟩
    rcases List.mem_append.1 hm with h | h
    · exact absurd ⟨h, hc⟩ (hno c t)
    · rcases List.mem_cons.1 h with h | h
      · injection h with h1 h2
        exact ⟨h1, h2⟩
      · exact absurd h (hrest c t)
  · rintro ⟨rfl, rfl⟩
    exact ⟨by simp, hput⟩

/-- The PUT phase, entered with no PUT sent so far, `res = 0`, a handle whose
last status is not 204, and `lock < 0` only when there is no token: it returns,
and it succeeds exactly when its PUT went through with status 204. -/
theorem modify_put_success_iff (env : Env) (settings : carddav_settings)
    (error : carddav_error) (curl : CURL) (url card : String) (hdr : List String)
    (LOCKSUPPORT : Bool) (lock_token : Option String) (lock : Int)
    (lock_error : carddav_error)
    (code last_code : Int) (chunk headers : Option String) (trace : List Event)
    (hfile : settings.file = some card)
    (hno : ∀ c t, ¬ put_sent trace c t)
    (hlast : last_code ≠ 204)
    (hinv : lock = 0 ∨ (lock < 0 ∧ LOCKSUPPORT = true ∧ lock_token = none)) :
    ∃ r, modify_put env settings error curl url hdr LOCKSUPPORT lock_token lock lock_error
          0 code last_code chunk headers trace = Outcome.ok r ∧
      (r.result = false ↔ ∃ c t, put_sent r.trace c t ∧ t.res = 0 ∧ t.code = 204) ∧
      (∀ c t, put_sent r.trace c t → t.res = 0 → t.code ≠ 204 →
        r.result = true ∧ r.error.code = t.code) ∧
      (∀ c t, put_sent r.trace c t → t = env.curl_easy_perform c) := by
  unfold modify_put
  split_ifs with hcond
  · have hlock : lock = 0 := by
      rcases hinv with h | ⟨_, h1, h2⟩
      · exact h
      · subst h1 h2; simp at hcond
    subst hlock
    simp only [hfile]
    refine ⟨_, rfl, ?_, ?_, ?_⟩
    · rw [modify_verdict_result, modify_verdict_trace]
      constructor
      · rintro ⟨h1, _, h3⟩
        refine ⟨_, _, (put_sent_append _ _ _ _ hno (release_lock_no_perform _ _ _ _ _ _) rfl
          _ _).2 ⟨rfl, rfl⟩, h1, h3⟩
      · rintro ⟨c, t, hp, h1, h3⟩
        obtain ⟨rfl, rfl⟩ := (put_sent_append _ _ _ _ hno
          (release_lock_no_perform _ _ _ _ _ _) rfl _ _).1 hp
        exact ⟨h1, by simp, h3⟩
    · intro c t hp h1 h3
      rw [modify_verdict_trace] at hp
      obtain ⟨rfl, rfl⟩ := (put_sent_append _ _ _ _ hno
        (release_lock_no_perform _ _ _ _ _ _) rfl _ _).1 hp
      rw [h1]
      exact modify_verdict_status _ _ _ _ _ _ _ _ (by simp) h3
    · intro c t hp
      rw [modify_verdict_trace] at hp
      obtain ⟨rfl, rfl⟩ := (put_sent_append _ _ _ _ hno
        (release_lock_no_perform _ _ _ _ _ _) rfl _ _).1 hp
      rfl
  · refine ⟨_, rfl, ?_, ?_, ?_⟩
    · rw [modify_verdict_result, modify_verdict_trace]
      constructor
      · rintro ⟨_, _, h3⟩
        exact absurd h3 hlast
      · rintro ⟨c, t, hp, _⟩
        exact absurd hp (hno c t)
    · intro c t hp
      rw [modify_verdict_trace] at hp
      exact absurd hp (hno c t)
    · intro c t hp
      rw [modify_verdict_trace] at hp
      exact absurd hp (hno c t)

/-- The lock phase always ends in the PUT phase, having added lock steps only,
with the `If` header of the acquired token appended to the header list, and
with `lock < 0` only when there is no token. -/
theorem modify_lock_cases (env : Env) (settings : carddav_settings)
    (error : carddav_error) (curl : CURL) (url : String) (hdr : List String) (res : Nat)
    (code last_code : Int) (chunk headers : Option String) (trace : List Event) :
    ∃ LOCKSUPPORT lock_token lock lock_error steps,
      modify_lock env settings error curl url hdr res code last_code chunk headers trace
        = modify_put env settings error curl url
            (hdr ++ token_header (acquired_token env settings url))
            LOCKSUPPORT lock_token lock lock_error
            res code last_code chunk headers (trace ++ steps) ∧
      (∀ c t, Event.perform c t ∉ steps) ∧
      (lock = 0 ∨ (lock < 0 ∧ LOCKSUPPORT = true ∧ lock_token = none)) := by
  unfold modify_lock acquired_token
  by_cases hl : settings.use_locking = true
  · simp only [hl, if_true, true_and]
    by_cases hs : (env.carddav_lock_support settings env.uninit_lock_error).1 = true
    · simp only [hs, if_true]
      cases ht : (env.carddav_lock_object url settings
          (env.carddav_lock_support settings env.uninit_lock_error).2).1 with
      | some tok =>
        exact ⟨_, _, _, _, [Event.lock_support, Event.lock_object url], rfl, by simp,
          Or.inl rfl⟩
      | none =>
        simp only [token_header, List.append_nil]
        split_ifs
        · exact ⟨_, _, _, _, [Event.lock_support, Event.lock_object url], rfl, by simp,
            Or.inr ⟨by decide, rfl, rfl⟩⟩
        · exact ⟨_, _, _, _, [Event.lock_support, Event.lock_object url], rfl, by simp,
            Or.inl rfl⟩
        · exact ⟨_, _, _, _, [Event.lock_support, Event.lock_object url], rfl, by simp,
            Or.inr ⟨by decide, rfl, rfl⟩⟩
    · rw [Bool.not_eq_true] at hs
      simp only [hs, Bool.false_eq_true, if_false, token_header, List.append_nil]
      exact ⟨_, _, _, _, [Event.lock_support], rfl, by simp, Or.inl rfl⟩
  · rw [Bool.not_eq_true] at hl
    simp only [hl, Bool.false_eq_true, if_false, false_and, token_header, List.append_nil]
    exact ⟨false, none, 0, env.uninit_lock_error, [], by rw [List.append_nil], by simp,
      Or.inl rfl⟩

/-- The lock-and-PUT phase shared by both MODIFY variants, entered with no PUT
sent so far, `res = 0` and a handle whose last status is not 204: it returns,
and it succeeds exactly when its PUT went through with status 204. -/
theorem modify_lock_success_iff (env : Env) (settings : carddav_settings)
    (error : carddav_error) (curl : CURL) (url card : String) (hdr : List String)
    (code last_code : Int) (chunk headers : Option String) (trace : List Event)
    (hfile : settings.file = some card)
    (hno : ∀ c t, ¬ put_sent trace c t)
    (hlast : last_code ≠ 204) :
    ∃ r, modify_lock env settings error curl url hdr 0 code last_code chunk headers trace
        = Outcome.ok r ∧
      (r.result = false ↔ ∃ c t, put_sent r.trace c t ∧ t.res = 0 ∧ t.code = 204) ∧
      (∀ c t, put_sent r.trace c t → t.res = 0 → t.code ≠ 204 →
        r.result = true ∧ r.error.code = t.code) ∧
      (∀ c t, put_sent r.trace c t → t = env.curl_easy_perform c) := by
  obtain ⟨ls, tok, lock, le, steps, heq, hsteps, hinv⟩ :=
    modify_lock_cases env settings error curl url hdr 0 code last_code chunk headers trace
  rw [heq]
  refine modify_put_success_iff env settings error curl url card _ ls tok lock le code
    last_code chunk headers (trace ++ steps) hfile ?_ hlast hinv
  rintro c t ⟨hm, hc⟩
  rcases List.mem_append.1 hm with h | h
  · exact hno c t ⟨h, hc⟩
  · exact hsteps c t h

/-- A call that failed without sending a PUT agrees with `put_decides`. -/
theorem put_decides_of_failed (env : Env) (r : CallResult) (hres : r.result = true)
    (hno : ∀ c t, ¬ put_sent r.trace c t) : put_decides env r := by
  refine ⟨?_, ?_, ?_⟩
  · rw [hres]
    constructor
    · intro h; cases h
    · rintro ⟨c, t, hp, _⟩
      exact absurd hp (hno c t)
  · intro c t hp
    exact absurd hp (hno c t)
  · intro c t hp
    exact absurd hp (hno c t)

/-- A REPORT or PROPFIND alone is no PUT. -/
theorem no_put_single (curl : CURL) (t : Transfer) (h : curl.customrequest ≠ some "PUT") :
    ∀ c t', ¬ put_sent [Event.perform curl t] c t' := by
  rintro c t' ⟨hm, hc⟩
  rcases List.mem_singleton.1 hm with hm
  injection hm with h1 h2
  exact h (h1 ▸ hc)

/-- Nothing was sent in an empty list of steps. -/
theorem no_put_nil : ∀ c t, ¬ put_sent [] c t := by
  rintro c t ⟨hm, _⟩
  cases hm

/-- C2. With a card text present, `carddav_modify` and `carddav_modify_by_uri`
return, and report success if and only if a PUT was issued, the transport
reported no fault for it and its HTTP status was exactly 204; a PUT that went
through with any other status (200, 201, 412, ...) makes the call fail with
ErrorDetail code equal to that status. -/
theorem C2_modify_success_iff_put_204 (env : Env) (settings : carddav_settings)
    (error : carddav_error) (card : String) (hfile : settings.file = some card) :
    (∃ r, carddav_modify env settings error = Outcome.ok r ∧ put_decides env r) ∧
    (∃ r, carddav_modify_by_uri env settings error = Outcome.ok r ∧ put_decides env r) := by
  constructor
  · unfold carddav_modify
    cases hc : env.get_curl settings with
    | none => exact ⟨_, rfl, put_decides_of_failed env _ rfl no_put_nil⟩
    | some curl =>
      cases hu : env.get_response_header "uid" (g_strdup settings.file) false with
      | none => exact ⟨_, rfl, put_decides_of_failed env _ rfl no_put_nil⟩
      | some uid =>
        have hrep : (modify_report_request curl uid).customrequest ≠ some "PUT" := by
          simp [modify_report_request]
        dsimp only
        split_ifs with hres hcode
        · exact ⟨_, rfl, put_decides_of_failed env _ rfl (no_put_single _ _ hrep)⟩
        · exact ⟨_, rfl, put_decides_of_failed env _ rfl (no_put_single _ _ hrep)⟩
        · rw [not_not] at hcode
          cases hh : env.get_url (env.curl_easy_perform (modify_report_request curl uid)).chunk with
          | none => exact ⟨_, rfl, put_decides_of_failed env _ rfl (no_put_single _ _ hrep)⟩
          | some href =>
            cases he : env.get_etag
                (env.curl_easy_perform (modify_report_request curl uid)).chunk with
            | none => exact ⟨_, rfl, put_decides_of_failed env _ rfl (no_put_single _ _ hrep)⟩
            | some etag =>
              cases hho : env.get_host settings.url with
              | none =>
                exact ⟨_, rfl, put_decides_of_failed env _ rfl (no_put_single _ _ hrep)⟩
              | some host =>
                exact modify_lock_success_iff env settings error _ _ card _ _ _ _ _ _ hfile
                  (no_put_single _ _ hrep) (by rw [hcode]; decide)
  · unfold carddav_modify_by_uri
    cases hc : env.get_curl settings with
    | none => exact ⟨_, rfl, put_decides_of_failed env _ rfl no_put_nil⟩
    | some curl =>
      cases hu : env.get_response_header "uri" (g_strdup settings.file) false with
      | none => exact ⟨_, rfl, put_decides_of_failed env _ rfl no_put_nil⟩
      | some uid =>
        cases hho : env.get_host settings.url with
        | none => exact ⟨_, rfl, put_decides_of_failed env _ rfl no_put_nil⟩
        | some host =>
          exact modify_lock_success_iff env settings error _ _ card _ _ _ _ _ _ hfile
            no_put_nil (by decide)

/-- C2 on the demo server: a MODIFY of the demo card, answered 204. -/
theorem C2_modify_success_iff_put_204_witness :
    demo_settings.file = some demo_card ∧
    (∃ r, carddav_modify (demo_env 204 demo_token) demo_settings demo_error = Outcome.ok r ∧
      put_decides (demo_env 204 demo_token) r) ∧
    (∃ r, carddav_modify_by_uri (demo_env 204 demo_token) demo_settings demo_error
        = Outcome.ok r ∧ put_decides (demo_env 204 demo_token) r) :=
  ⟨rfl, C2_modify_success_iff_put_204 (demo_env 204 demo_token) demo_settings demo_error
    demo_card rfl⟩

/-- Once discovery has found the object, `carddav_modify` is its lock phase. -/
theorem carddav_modify_found (env : Env) (settings : carddav_settings)
    (error : carddav_error) (curl : CURL) (uid href etag host : String)
    (h : discovery_finds env settings curl uid href etag host) :
    carddav_modify env settings error =
      modify_lock env settings error (modify_report_request curl uid) (host ++ href)
        (modify_put_headers etag) 0 207 207
        (env.curl_easy_perform (modify_report_request curl uid)).chunk
        (env.curl_easy_perform (modify_report_request curl uid)).headers
        [Event.perform (modify_report_request curl uid)
          (env.curl_easy_perform (modify_report_request curl uid))] := by
  obtain ⟨hcurl, huid, hres, hcode, hhref, hetag, hhost⟩ := h
  unfold carddav_modify
  simp only [hcurl, huid, hres, hcode, hhref, hetag, hhost, ne_eq, not_true_eq_false,
    if_false]

/-- Once the URI and the host are there, `carddav_modify_by_uri` is its lock
phase. -/
theorem carddav_modify_by_uri_found (env : Env) (settings : carddav_settings)
    (error : carddav_error) (curl : CURL) (uri host : String)
    (h : uri_resolves env settings curl uri host) :
    carddav_modify_by_uri env settings error =
      modify_lock env settings error (modify_by_uri_handle curl) (host ++ uri)
        (modify_by_uri_put_headers none) 0 env.uninit_code 0 none none [] := by
  obtain ⟨hcurl, huri, hhost⟩ := h
  unfold carddav_modify_by_uri
  simp only [hcurl, huri, hhost]

/-- When the probe passes, `carddav_modify_object` returns whenever
`carddav_modify` does, with the ErrorDetail of `carddav_modify`, its steps after
the probe, and the value the status table gives. -/
theorem carddav_modify_object_of_modify (env : Env) (fuel : Nat)
    (object URL : Option String) (info : runtime_info) (curl : CURL)
    (error : carddav_error) (r : CallResult)
    (hprobe : probe_passes env
      (carddav_modify_object_settings env object URL (init_options info)) curl
      (init_error info) error)
    (hmod : carddav_modify env
      (carddav_modify_object_settings env object URL (init_options info)) error
        = Outcome.ok r) :
    ∃ p, carddav_modify_object env fuel object URL info = Outcome.ok p ∧
      p.info.error = some r.error ∧ p.trace = Event.getoptions :: r.trace ∧
      ErrorMapper_spec r.result r.error.code p.response := by
  obtain ⟨hcurl, hp1, hp2⟩ := hprobe
  have hA : (carddav_modify_object_settings env object URL (init_options info)).ACTION
      = CARDDAV_ACTION.MODIFY := rfl
  have hU : (carddav_modify_object_settings env object URL (init_options info)).use_uri
      = 0 := rfl
  have hs := switch_spec r.result r.error.code
  unfold carddav_modify_object
  simp only [init_runtime, make_carddav_call, hcurl, hp1, hp2, hA, hU, hmod, with_trace,
    Bool.not_true, Bool.false_eq_true, if_false, if_true]
  cases hr : r.result
  · rw [hr] at hs
    exact ⟨_, rfl, rfl, rfl, by simpa using hs⟩
  · rw [hr] at hs
    exact ⟨_, rfl, rfl, rfl, by simpa using hs⟩

/-- Steps without a transfer add no PUT. -/
theorem no_put_append (trace steps : List Event) (hno : ∀ c t, ¬ put_sent trace c t)
    (hsteps : ∀ c t, Event.perform c t ∉ steps) : ∀ c t, ¬ put_sent (trace ++ steps) c t := by
  rintro c t ⟨hm, hc⟩
  rcases List.mem_append.1 hm with h | h
  · exact hno c t ⟨h, hc⟩
  · exact hsteps c t h

/-- Any PUT the PUT phase sends is the request `put_request` builds from the
header list it was given, carrying the card text. -/
theorem modify_put_request (env : Env) (settings : carddav_settings)
    (error : carddav_error) (curl : CURL) (url : String) (hdr : List String)
    (LOCKSUPPORT : Bool) (lock_token : Option String) (lock : Int)
    (lock_error : carddav_error) (res : Nat)
    (code last_code : Int) (chunk headers : Option String) (trace : List Event)
    (hno : ∀ c t, ¬ put_sent trace c t) (r : CallResult)
    (hr : modify_put env settings error curl url hdr LOCKSUPPORT lock_token lock lock_error
          res code last_code chunk headers trace = Outcome.ok r)
    (c : CURL) (t : Transfer) (hp : put_sent r.trace c t) :
    ∃ card, settings.file = some card ∧
      c = put_request env settings curl url hdr card chunk headers := by
  unfold modify_put at hr
  split_ifs at hr with hcond
  · cases hf : settings.file with
    | none => simp only [hf] at hr; cases hr
    | some card =>
      simp only [hf] at hr
      injection hr with hr
      subst hr
      rw [modify_verdict_trace] at hp
      obtain ⟨rfl, -⟩ := (put_sent_append _ _ _ _ hno
        (release_lock_no_perform _ _ _ _ _ _) rfl _ _).1 hp
      exact ⟨card, rfl, rfl⟩
  · injection hr with hr
    subst hr
    rw [modify_verdict_trace] at hp
    exact absurd hp (hno c t)

/-- Any PUT the lock phase sends carries the header list it was given, followed
by the `If` header of the acquired token when there is one, and the card
text. -/
theorem modify_lock_request (env : Env) (settings : carddav_settings)
    (error : carddav_error) (curl : CURL) (url : String) (hdr : List String) (res : Nat)
    (code last_code : Int) (chunk headers : Option String) (trace : List Event)
    (hno : ∀ c t, ¬ put_sent trace c t) (r : CallResult)
    (hr : modify_lock env settings error curl url hdr res code last_code chunk headers trace
        = Outcome.ok r)
    (c : CURL) (t : Transfer) (hp : put_sent r.trace c t) :
    ∃ card, settings.file = some card ∧
      c = put_request env settings curl url
        (hdr ++ token_header (acquired_token env settings url)) card chunk headers := by
  obtain ⟨ls, tok, lock, le, steps, heq, hsteps, -⟩ :=
    modify_lock_cases env settings error curl url hdr res code last_code chunk headers trace
  rw [heq] at hr
  exact modify_put_request env settings error curl url _ ls tok lock le res code last_code
    chunk headers (trace ++ steps) (no_put_append _ _ hno hsteps) r hr c t hp

/-- When the lock is refused with a status other than 501, the lock phase ends
at once with the verdict for `lock = -1`: no PUT, no release. -/
theorem modify_lock_refused (env : Env) (settings : carddav_settings)
    (error : carddav_error) (curl : CURL) (url : String) (hdr : List String) (res : Nat)
    (code last_code : Int) (chunk headers : Option String) (trace : List Event)
    (lock_error : carddav_error)
    (h : lock_attempt env settings url none lock_error) (h501 : lock_error.code ≠ 501) :
    modify_lock env settings error curl url hdr res code last_code chunk headers trace =
      Outcome.ok (modify_verdict settings error res (-1) lock_error code last_code chunk
        (trace ++ [Event.lock_support, Event.lock_object url])) := by
  obtain ⟨h1, h2, h3⟩ := h
  unfold modify_lock
  simp only [h1, h2, h3, if_true]
  by_cases h423 : lock_error.code = 423
  · simp [h423, modify_put]
  · simp [h423, h501, modify_put]

/-- The verdict for a refused lock is a failure; it carries the lock error
unless that error is 423, in which case it carries the function-level `code`
and the contents of `chunk.memory`. -/
theorem modify_verdict_refused (settings : carddav_settings) (error : carddav_error)
    (res : Nat) (lock_error : carddav_error) (code last_code : Int)
    (chunk : Option String) (trace : List Event) :
    (modify_verdict settings error res (-1) lock_error code last_code chunk trace).result
      = true ∧
    (lock_error.code = 423 →
      (modify_verdict settings error res (-1) lock_error code last_code chunk trace).error
        = { code := code, str := chunk }) ∧
    (lock_error.code ≠ 423 →
      (modify_verdict settings error res (-1) lock_error code last_code chunk trace).error
        = lock_error) := by
  unfold modify_verdict
  refine ⟨?_, ?_, ?_⟩
  · simp
    split_ifs <;> rfl
  · intro h
    simp [h, g_strdup]
  · intro h
    simp [h, g_strdup]

/-- When the lock is refused with status 501, the lock phase goes on with the
empty token: it sends the PUT with the header list unchanged, releases the
empty token, and gives the verdict on the PUT. -/
theorem modify_lock_501 (env : Env) (settings : carddav_settings)
    (error : carddav_error) (curl : CURL) (url card : String) (hdr : List String)
    (res : Nat) (code last_code : Int) (chunk headers : Option String) (trace : List Event)
    (lock_error : carddav_error)
    (h : lock_attempt env settings url none lock_error) (h501 : lock_error.code = 501)
    (hfile : settings.file = some card) :
    modify_lock env settings error curl url hdr res code last_code chunk headers trace =
      Outcome.ok (modify_verdict settings error
        (env.curl_easy_perform (put_request env settings curl url hdr card chunk headers)).res
        0 (env.carddav_unlock_object "" url settings lock_error).2 code
        (env.curl_easy_perform (put_request env settings curl url hdr card chunk headers)).code
        (env.curl_easy_perform (put_request env settings curl url hdr card chunk headers)).chunk
        (trace ++ [Event.lock_support, Event.lock_object url,
          Event.perform (put_request env settings curl url hdr card chunk headers)
            (env.curl_easy_perform (put_request env settings curl url hdr card chunk headers)),
          Event.unlock_object "" url])) := by
  obtain ⟨h1, h2, h3⟩ := h
  unfold modify_lock
  simp [h1, h2, h3, h501, modify_put, hfile, release_lock, g_strdup]

/-- A discovery REPORT alone is no lock traffic. -/
theorem no_lock_traffic_single (curl : CURL) (t : Transfer) :
    no_lock_traffic [Event.perform curl t] := by
  unfold no_lock_traffic
  simp

/-- The probe before a verb adds no PUT. -/
theorem no_put_cons_getoptions (trace : List Event) (hno : ∀ c t, ¬ put_sent trace c t) :
    ∀ c t, ¬ put_sent (Event.getoptions :: trace) c t := by
  rintro c t ⟨hm, hc⟩
  rcases List.mem_cons.1 hm with h | h
  · cases h
  · exact hno c t ⟨h, hc⟩

/-- The probe before a verb adds no lock traffic. -/
theorem no_lock_traffic_cons_getoptions (trace : List Event) (h : no_lock_traffic trace) :
    no_lock_traffic (Event.getoptions :: trace) := by
  unfold no_lock_traffic at h ⊢
  obtain ⟨h1, h2, h3⟩ := h
  simp [h1, h2, h3]

/-- C3. For every card text carrying a UID, when the discovery REPORT returns
207 and no href can be extracted from its body, `carddav_modify` fails with
ErrorDetail code 409 and message "No object found", issues no PUT and no lock
traffic; and `carddav_modify_object`, whose probe passed, returns CONFLICT with
that ErrorDetail, again without PUT or lock traffic. -/
theorem C3_no_href_conflict (env : Env) (settings : carddav_settings)
    (error : carddav_error) (curl : CURL) (uid : String)
    (hcurl : env.get_curl settings = some curl)
    (huid : env.get_response_header "uid" (g_strdup settings.file) false = some uid)
    (hres : (env.curl_easy_perform (modify_report_request curl uid)).res = 0)
    (hcode : (env.curl_easy_perform (modify_report_request curl uid)).code = 207)
    (hhref : env.get_url (env.curl_easy_perform (modify_report_request curl uid)).chunk
      = none) :
    (∃ r, carddav_modify env settings error = Outcome.ok r ∧ r.result = true ∧
      r.error = { code := 409, str := some "No object found" } ∧
      (∀ c t, ¬ put_sent r.trace c t) ∧ no_lock_traffic r.trace) ∧
    (∀ (fuel : Nat) (object URL : Option String) (info : runtime_info),
      carddav_modify_object_settings env object URL (init_options info) = settings →
      probe_passes env settings curl (init_error info) error →
      ∃ p, carddav_modify_object env fuel object URL info = Outcome.ok p ∧
        p.response = CARDDAV_RESPONSE.CONFLICT ∧
        p.info.error = some { code := 409, str := some "No object found" } ∧
        (∀ c t, ¬ put_sent p.trace c t) ∧ no_lock_traffic p.trace) := by
  have hrep : (modify_report_request curl uid).customrequest ≠ some "PUT" := by
    simp [modify_report_request]
  have hmod : carddav_modify env settings error = Outcome.ok
      { result := true, settings := settings,
        error := { code := 409, str := some "No object found" },
        trace := [Event.perform (modify_report_request curl uid)
          (env.curl_easy_perform (modify_report_request curl uid))] } := by
    unfold carddav_modify
    simp only [hcurl, huid, hres, hcode, hhref, ne_eq, not_true_eq_false, if_false]
  refine ⟨⟨_, hmod, rfl, rfl, no_put_single _ _ hrep, no_lock_traffic_single _ _⟩, ?_⟩
  intro fuel object URL info hset hprobe
  subst hset
  obtain ⟨p, hp, herr, htrace, hspec⟩ :=
    carddav_modify_object_of_modify env fuel object URL info curl error _ hprobe hmod
  refine ⟨p, hp, (hspec.2 rfl).2.1 rfl, herr, ?_, ?_⟩
  · rw [htrace]
    exact no_put_cons_getoptions _ (no_put_single _ _ hrep)
  · rw [htrace]
    exact no_lock_traffic_cons_getoptions _ (no_lock_traffic_single _ _)

/-- C3 on the demo server when no href can be extracted. -/
theorem C3_no_href_conflict_witness :
    (∃ r, carddav_modify demo_env_no_href demo_settings demo_error = Outcome.ok r ∧
      r.result = true ∧
      r.error = { code := 409, str := some "No object found" } ∧
      (∀ c t, ¬ put_sent r.trace c t) ∧ no_lock_traffic r.trace) ∧
    (∃ p, carddav_modify_object demo_env_no_href 0 (some demo_card)
        (some "http://example.org/book/") demo_info = Outcome.ok p ∧
      p.response = CARDDAV_RESPONSE.CONFLICT ∧
      p.info.error = some { code := 409, str := some "No object found" } ∧
      (∀ c t, ¬ put_sent p.trace c t) ∧ no_lock_traffic p.trace) :=
  ⟨(C3_no_href_conflict demo_env_no_href demo_settings demo_error demo_curl "42"
      rfl rfl rfl rfl rfl).1,
   (C3_no_href_conflict demo_env_no_href demo_settings demo_error demo_curl "42"
      rfl rfl rfl rfl rfl).2 0 (some demo_card) (some "http://example.org/book/") demo_info
      rfl ⟨rfl, rfl, rfl⟩⟩

/-- The discovery REPORT of `carddav_modify` is no PUT. -/
theorem modify_report_request_no_put (curl : CURL) (uid : String) :
    (modify_report_request curl uid).customrequest ≠ some "PUT" := by
  simp [modify_report_request]

/-- Lock steps after a list of steps without PUT leave it without PUT. -/
theorem no_put_lock_steps (trace : List Event) (url : String)
    (hno : ∀ c t, ¬ put_sent trace c t) :
    ∀ c t, ¬ put_sent (trace ++ [Event.lock_support, Event.lock_object url]) c t :=
  no_put_append _ _ hno (by simp)

/-- C4 as the code has it. When discovery finds the object, locking is enabled
and supported, and `carddav_lock_object` fails with status 423, `carddav_modify`
fails without PUT, but the ErrorDetail code it leaves is 207, the status of the
discovery REPORT, and `carddav_modify_object` returns CONFLICT, not LOCKED. -/
theorem C4_lock_423_returns_conflict (env : Env) (settings : carddav_settings)
    (error : carddav_error) (curl : CURL) (uid href etag host : String)
    (lock_error : carddav_error)
    (hfind : discovery_finds env settings curl uid href etag host)
    (hlock : lock_attempt env settings (host ++ href) none lock_error)
    (h423 : lock_error.code = 423) :
    (∃ r, carddav_modify env settings error = Outcome.ok r ∧ r.result = true ∧
      r.error.code = 207 ∧ (∀ c t, ¬ put_sent r.trace c t)) ∧
    (∀ (fuel : Nat) (object URL : Option String) (info : runtime_info),
      carddav_modify_object_settings env object URL (init_options info) = settings →
      probe_passes env settings curl (init_error info) error →
      ∃ p, carddav_modify_object env fuel object URL info = Outcome.ok p ∧
        p.response = CARDDAV_RESPONSE.CONFLICT ∧ p.response ≠ CARDDAV_RESPONSE.LOCKED) := by
  have hmod := carddav_modify_found env settings error curl uid href etag host hfind
  rw [modify_lock_refused env settings error _ _ _ _ _ _ _ _ _ lock_error hlock
    (by rw [h423]; decide)] at hmod
  have hv := modify_verdict_refused settings error 0 lock_error 207 207
    (env.curl_easy_perform (modify_report_request curl uid)).chunk
    ([Event.perform (modify_report_request curl uid)
        (env.curl_easy_perform (modify_report_request curl uid))] ++
      [Event.lock_support, Event.lock_object (host ++ href)])
  have hcode := congrArg carddav_error.code (hv.2.1 h423)
  simp only at hcode
  refine ⟨⟨_, hmod, hv.1, hcode, ?_⟩, ?_⟩
  · rw [modify_verdict_trace]
    exact no_put_lock_steps _ _ (no_put_single _ _ (modify_report_request_no_put _ _))
  · intro fuel object URL info hset hprobe
    subst hset
    obtain ⟨p, hp, -, -, hspec⟩ :=
      carddav_modify_object_of_modify env fuel object URL info curl error _ hprobe hmod
    have hresp : p.response = CARDDAV_RESPONSE.CONFLICT := by
      refine (hspec.2 hv.1).2.2.2.2 ?_ ?_ ?_ ?_ <;> rw [hcode] <;> decide
    exact ⟨p, hp, hresp, by rw [hresp]; decide⟩

/-- C4 on the demo server refusing the lock with 423: the caller gets CONFLICT. -/
theorem C4_lock_423_returns_conflict_witness :
    (∃ r, carddav_modify (demo_env 204 (demo_refusal 423)) demo_settings demo_error
        = Outcome.ok r ∧ r.result = true ∧
      r.error.code = 207 ∧ (∀ c t, ¬ put_sent r.trace c t)) ∧
    (∃ p, carddav_modify_object (demo_env 204 (demo_refusal 423)) 0 (some demo_card)
        (some "http://example.org/book/") demo_info = Outcome.ok p ∧
      p.response = CARDDAV_RESPONSE.CONFLICT ∧ p.response ≠ CARDDAV_RESPONSE.LOCKED) :=
  ⟨(C4_lock_423_returns_conflict (demo_env 204 (demo_refusal 423)) demo_settings demo_error
      demo_curl "42" "/book/42.vcf" "e1" "example.org"
      { code := 423, str := some "lock refused" }
      ⟨rfl, rfl, rfl, rfl, rfl, rfl, rfl⟩ ⟨rfl, rfl, rfl⟩ rfl).1,
   (C4_lock_423_returns_conflict (demo_env 204 (demo_refusal 423)) demo_settings demo_error
      demo_curl "42" "/book/42.vcf" "e1" "example.org"
      { code := 423, str := some "lock refused" }
      ⟨rfl, rfl, rfl, rfl, rfl, rfl, rfl⟩ ⟨rfl, rfl, rfl⟩ rfl).2
      0 (some demo_card) (some "http://example.org/book/") demo_info rfl ⟨rfl, rfl, rfl⟩⟩

/-- C5. For every MODIFY, by identifier or by URI, in which locking is enabled
and supported and `carddav_lock_object` returns no token with a status other
than 501 (423 or any other failure), the call returns, reports failure, and has
issued no PUT. -/
theorem C5_refused_lock_no_put (env : Env) (settings : carddav_settings)
    (error : carddav_error) (curl : CURL) (lock_error : carddav_error)
    (h501 : lock_error.code ≠ 501) :
    (∀ uid href etag host, discovery_finds env settings curl uid href etag host →
      lock_attempt env settings (host ++ href) none lock_error →
      ∃ r, carddav_modify env settings error = Outcome.ok r ∧ r.result = true ∧
        (∀ c t, ¬ put_sent r.trace c t)) ∧
    (∀ uri host, uri_resolves env settings curl uri host →
      lock_attempt env settings (host ++ uri) none lock_error →
      ∃ r, carddav_modify_by_uri env settings error = Outcome.ok r ∧ r.result = true ∧
        (∀ c t, ¬ put_sent r.trace c t)) := by
  constructor
  · intro uid href etag host hfind hlock
    have hmod := carddav_modify_found env settings error curl uid href etag host hfind
    rw [modify_lock_refused env settings error _ _ _ _ _ _ _ _ _ lock_error hlock h501]
      at hmod
    refine ⟨_, hmod, (modify_verdict_refused _ _ _ _ _ _ _ _).1, ?_⟩
    rw [modify_verdict_trace]
    exact no_put_lock_steps _ _ (no_put_single _ _ (modify_report_request_no_put _ _))
  · intro uri host hres hlock
    have hmod := carddav_modify_by_uri_found env settings error curl uri host hres
    rw [modify_lock_refused env settings error _ _ _ _ _ _ _ _ _ lock_error hlock h501]
      at hmod
    refine ⟨_, hmod, (modify_verdict_refused _ _ _ _ _ _ _ _).1, ?_⟩
    rw [modify_verdict_trace]
    exact no_put_lock_steps _ _ no_put_nil

/-- C5 on the demo server refusing the lock with 423, for both variants. -/
theorem C5_refused_lock_no_put_witness :
    (∃ r, carddav_modify (demo_env 204 (demo_refusal 423)) demo_settings demo_error
        = Outcome.ok r ∧ r.result = true ∧ (∀ c t, ¬ put_sent r.trace c t)) ∧
    (∃ r, carddav_modify_by_uri (demo_env 204 (demo_refusal 423)) demo_settings demo_error
        = Outcome.ok r ∧ r.result = true ∧ (∀ c t, ¬ put_sent r.trace c t)) :=
  ⟨(C5_refused_lock_no_put (demo_env 204 (demo_refusal 423)) demo_settings demo_error
      demo_curl { code := 423, str := some "lock refused" } (by decide)).1
      "42" "/book/42.vcf" "e1" "example.org" ⟨rfl, rfl, rfl, rfl, rfl, rfl, rfl⟩
      ⟨rfl, rfl, rfl⟩,
   (C5_refused_lock_no_put (demo_env 204 (demo_refusal 423)) demo_settings demo_error
      demo_curl { code := 423, str := some "lock refused" } (by decide)).2
      "/book/42.vcf" "example.org" ⟨rfl, rfl, rfl⟩ ⟨rfl, rfl, rfl⟩⟩

/-- The header list built for the PUT of `carddav_modify` has one `If-Match`
line, with the etag, and neither a `Depth` nor an `If` line. -/
theorem modify_put_headers_names (etag : String) :
    (modify_put_headers etag).filter (fun line => header_name line = "If-Match")
      = ["If-Match: " ++ etag] ∧
    (modify_put_headers etag).filter (fun line => header_name line = "Depth") = [] ∧
    (modify_put_headers etag).filter (fun line => header_name line = "If") = [] := by
  simp [modify_put_headers, header_name, String.data_append, List.filter]

/-- The `If` header of a token is named `If`. -/
theorem token_header_names (token : Option String) :
    (token_header token).filter (fun line => header_name line = "If-Match") = [] ∧
    (token_header token).filter (fun line => header_name line = "Depth") = [] ∧
    (token_header token).filter (fun line => header_name line = "If") = token_header token := by
  cases token <;> simp [token_header, header_name, String.data_append, List.filter]

/-- C6. For every MODIFY in which discovery finds the object, locking is enabled
and supported, and `carddav_lock_object` returns no token with status 501,
`carddav_modify` goes on with the empty token (the token it releases after the
PUT is the empty string), issues the PUT with the header list built from the
etag and no `If` header, and reports success, leaving ErrorDetail and settings
untouched, when the PUT answers 204. -/
theorem C6_lock_501_proceeds (env : Env) (settings : carddav_settings)
    (error : carddav_error) (curl : CURL) (uid href etag host card : String)
    (lock_error : carddav_error)
    (hfind : discovery_finds env settings curl uid href etag host)
    (hlock : lock_attempt env settings (host ++ href) none lock_error)
    (h501 : lock_error.code = 501)
    (hfile : settings.file = some card) :
    let report := modify_report_request curl uid
    let t := env.curl_easy_perform report
    let put := put_request env settings report (host ++ href) (modify_put_headers etag) card
      t.chunk t.headers
    ∃ r, carddav_modify env settings error = Outcome.ok r ∧
      r.trace = [Event.perform report t, Event.lock_support, Event.lock_object (host ++ href),
        Event.perform put (env.curl_easy_perform put),
        Event.unlock_object "" (host ++ href)] ∧
      put.customrequest = some "PUT" ∧
      put.httpheader = modify_put_headers etag ∧
      headers_named "If" put = [] ∧
      ((env.curl_easy_perform put).res = 0 → (env.curl_easy_perform put).code = 204 →
        r.result = false ∧ r.error = error ∧ r.settings = settings) := by
  intro report t put
  have hmod := carddav_modify_found env settings error curl uid href etag host hfind
  rw [modify_lock_501 env settings error _ _ card _ _ _ _ _ _ _ lock_error hlock h501 hfile]
    at hmod
  refine ⟨_, hmod, ?_, rfl, rfl, (modify_put_headers_names etag).2.2, ?_⟩
  · rw [modify_verdict_trace]
    rfl
  · intro hres hcode
    have h1 : (env.curl_easy_perform (put_request env settings (modify_report_request curl uid)
        (host ++ href) (modify_put_headers etag) card
        (env.curl_easy_perform (modify_report_request curl uid)).chunk
        (env.curl_easy_perform (modify_report_request curl uid)).headers)).res = 0 := hres
    have h2 : (env.curl_easy_perform (put_request env settings (modify_report_request curl uid)
        (host ++ href) (modify_put_headers etag) card
        (env.curl_easy_perform (modify_report_request curl uid)).chunk
        (env.curl_easy_perform (modify_report_request curl uid)).headers)).code = 204 := hcode
    rw [h1, h2]
    simp [modify_verdict]

/-- C6 on the demo server answering the lock request with 501 and the PUT with
204. -/
theorem C6_lock_501_proceeds_witness :
    ∃ r, carddav_modify (demo_env 204 (demo_refusal 501)) demo_settings demo_error
        = Outcome.ok r ∧
      r.result = false ∧ r.error = demo_error ∧
      Event.unlock_object "" "example.org/book/42.vcf" ∈ r.trace := by
  obtain ⟨r, hr, htrace, -, -, -, hok⟩ :=
    C6_lock_501_proceeds (demo_env 204 (demo_refusal 501)) demo_settings demo_error
      demo_curl "42" "/book/42.vcf" "e1" "example.org" demo_card
      { code := 501, str := some "lock refused" }
      ⟨rfl, rfl, rfl, rfl, rfl, rfl, rfl⟩ ⟨rfl, rfl, rfl⟩ rfl rfl
  refine ⟨r, hr, (hok rfl rfl).1, (hok rfl rfl).2.1, ?_⟩
  rw [htrace]
  simp

/-- C7. For every MODIFY, by identifier or by URI, in which locking is enabled
and supported and `carddav_lock_object` returns no token with a status that is
neither 423 nor 501, the call fails and its ErrorDetail is the lock failure's
code and message, unchanged. -/
theorem C7_lock_failure_surfaces (env : Env) (settings : carddav_settings)
    (error : carddav_error) (curl : CURL) (lock_error : carddav_error)
    (h423 : lock_error.code ≠ 423) (h501 : lock_error.code ≠ 501) :
    (∀ uid href etag host, discovery_finds env settings curl uid href etag host →
      lock_attempt env settings (host ++ href) none lock_error →
      ∃ r, carddav_modify env settings error = Outcome.ok r ∧ r.result = true ∧
        r.error.code = lock_error.code ∧ r.error.str = lock_error.str) ∧
    (∀ uri host, uri_resolves env settings curl uri host →
      lock_attempt env settings (host ++ uri) none lock_error →
      ∃ r, carddav_modify_by_uri env settings error = Outcome.ok r ∧ r.result = true ∧
        r.error.code = lock_error.code ∧ r.error.str = lock_error.str) := by
  constructor
  · intro uid href etag host hfind hlock
    have hmod := carddav_modify_found env settings error curl uid href etag host hfind
    rw [modify_lock_refused env settings error _ _ _ _ _ _ _ _ _ lock_error hlock h501]
      at hmod
    have hv := modify_verdict_refused settings error 0 lock_error 207 207
      (env.curl_easy_perform (modify_report_request curl uid)).chunk
      ([Event.perform (modify_report_request curl uid)
          (env.curl_easy_perform (modify_report_request curl uid))] ++
        [Event.lock_support, Event.lock_object (host ++ href)])
    exact ⟨_, hmod, hv.1, by rw [hv.2.2 h423], by rw [hv.2.2 h423]⟩
  · intro uri host hres hlock
    have hmod := carddav_modify_by_uri_found env settings error curl uri host hres
    rw [modify_lock_refused env settings error _ _ _ _ _ _ _ _ _ lock_error hlock h501]
      at hmod
    have hv := modify_verdict_refused settings error 0 lock_error env.uninit_code 0 none
      ([] ++ [Event.lock_support, Event.lock_object (host ++ uri)])
    exact ⟨_, hmod, hv.1, by rw [hv.2.2 h423], by rw [hv.2.2 h423]⟩

/-- C7 on the demo server refusing the lock with 500 "lock refused". -/
theorem C7_lock_failure_surfaces_witness :
    (∃ r, carddav_modify (demo_env 204 (demo_refusal 500)) demo_settings demo_error
        = Outcome.ok r ∧ r.result = true ∧
      r.error.code = 500 ∧ r.error.str = some "lock refused") ∧
    (∃ r, carddav_modify_by_uri (demo_env 204 (demo_refusal 500)) demo_settings demo_error
        = Outcome.ok r ∧ r.result = true ∧
      r.error.code = 500 ∧ r.error.str = some "lock refused") :=
  ⟨(C7_lock_failure_surfaces (demo_env 204 (demo_refusal 500)) demo_settings demo_error
      demo_curl { code := 500, str := some "lock refused" } (by decide) (by decide)).1
      "42" "/book/42.vcf" "e1" "example.org" ⟨rfl, rfl, rfl, rfl, rfl, rfl, rfl⟩
      ⟨rfl, rfl, rfl⟩,
   (C7_lock_failure_surfaces (demo_env 204 (demo_refusal 500)) demo_settings demo_error
      demo_curl { code := 500, str := some "lock refused" } (by decide) (by decide)).2
      "/book/42.vcf" "example.org" ⟨rfl, rfl, rfl⟩ ⟨rfl, rfl, rfl⟩⟩

/-- The headers of a PUT request are the list handed to `put_request`, and its
body is the card text. -/
theorem put_request_fields (env : Env) (settings : carddav_settings) (curl : CURL)
    (url : String) (hdr : List String) (card : String) (chunk headers : Option String) :
    (put_request env settings curl url hdr card chunk headers).httpheader = hdr ∧
    (put_request env settings curl url hdr card chunk headers).postfields = some card :=
  ⟨rfl, rfl⟩

/-- C8. Whenever `carddav_modify` issues its PUT, discovery has found the
object, and the PUT's header list has exactly one `If-Match` line,
`If-Match: <etag>` with the etag extracted from the discovery REPORT body, no
`Depth` line, and as its `If` lines exactly `If: (<token>)` when
`carddav_lock_object` returned a token and none otherwise; the PUT body is the
caller's card text. -/
theorem C8_put_headers (env : Env) (settings : carddav_settings) (error : carddav_error)
    (r : CallResult) (c : CURL) (t : Transfer)
    (hr : carddav_modify env settings error = Outcome.ok r)
    (hp : put_sent r.trace c t) :
    ∃ curl uid href etag host, discovery_finds env settings curl uid href etag host ∧
      headers_named "If-Match" c = ["If-Match: " ++ etag] ∧
      headers_named "Depth" c = [] ∧
      headers_named "If" c = token_header (acquired_token env settings (host ++ href)) ∧
      c.postfields = settings.file := by
  have hfail : ∀ (q : CallResult), Outcome.ok q = Outcome.ok r →
      (∀ c t, ¬ put_sent q.trace c t) → False := by
    intro q hq hno
    injection hq with hq
    subst hq
    exact hno c t hp
  unfold carddav_modify at hr
  cases hc : env.get_curl settings with
  | none =>
    rw [hc] at hr
    exact (hfail _ hr no_put_nil).elim
  | some curl =>
    rw [hc] at hr
    cases hu : env.get_response_header "uid" (g_strdup settings.file) false with
    | none =>
      rw [hu] at hr
      exact (hfail _ hr no_put_nil).elim
    | some uid =>
      rw [hu] at hr
      have hrep := modify_report_request_no_put curl uid
      dsimp only at hr
      split_ifs at hr with hres hcode
      · exact (hfail _ hr (no_put_single _ _ hrep)).elim
      · exact (hfail _ hr (no_put_single _ _ hrep)).elim
      · rw [not_not] at hres hcode
        cases hh : env.get_url (env.curl_easy_perform (modify_report_request curl uid)).chunk with
        | none =>
          rw [hh] at hr
          exact (hfail _ hr (no_put_single _ _ hrep)).elim
        | some href =>
          rw [hh] at hr
          cases he : env.get_etag
              (env.curl_easy_perform (modify_report_request curl uid)).chunk with
          | none =>
            rw [he] at hr
            exact (hfail _ hr (no_put_single _ _ hrep)).elim
          | some etag =>
            rw [he] at hr
            cases hho : env.get_host settings.url with
            | none =>
              rw [hho] at hr
              exact (hfail _ hr (no_put_single _ _ hrep)).elim
            | some host =>
              rw [hho] at hr
              obtain ⟨card, hfile, hreq⟩ := modify_lock_request env settings error _ _ _ _ _ _
                _ _ _ (no_put_single _ _ hrep) r hr c t hp
              refine ⟨curl, uid, href, etag, host, ⟨hc, hu, hres, hcode, hh, he, hho⟩, ?_⟩
              have hn := modify_put_headers_names etag
              have ht := token_header_names (acquired_token env settings (host ++ href))
              subst hreq
              unfold headers_named
              simp only [(put_request_fields _ _ _ _ _ _ _ _).1,
                (put_request_fields _ _ _ _ _ _ _ _).2, List.filter_append, hn.1, hn.2.1,
                hn.2.2, ht.1, ht.2.1, ht.2.2, hfile, List.append_nil, List.nil_append,
                and_self]

/-- C8 on the demo server: the PUT of a locked MODIFY of the demo card. -/
theorem C8_put_headers_witness :
    ∃ curl uid href etag host,
      discovery_finds (demo_env 204 demo_token) demo_settings curl uid href etag host ∧
      headers_named "If-Match" demo_put = ["If-Match: " ++ etag] ∧
      headers_named "Depth" demo_put = [] ∧
      headers_named "If" demo_put =
        token_header (acquired_token (demo_env 204 demo_token) demo_settings (host ++ href)) ∧
      demo_put.postfields = demo_settings.file := by
  have h : ∃ r, carddav_modify (demo_env 204 demo_token) demo_settings demo_error
      = Outcome.ok r ∧
      put_sent r.trace demo_put ((demo_env 204 demo_token).curl_easy_perform demo_put) :=
    ⟨_, rfl, by decide, rfl⟩
  obtain ⟨r, hr, hp⟩ := h
  exact C8_put_headers (demo_env 204 demo_token) demo_settings demo_error r demo_put _ hr hp

/-- The header list built for the PUT of `carddav_modify_by_uri` has one
`If-Match` line, and its value is the text printed for a `NULL` etag. -/
theorem modify_by_uri_put_headers_names :
    (modify_by_uri_put_headers none).filter (fun line => header_name line = "If-Match")
      = ["If-Match: (null)"] := by
  decide

/-- C9 as the code has it. Every PUT `carddav_modify_by_uri` issues carries
exactly one `If-Match` line, and that line is `If-Match: (null)`: the local
`etag` is never assigned, so the header holds no entity tag of the addressed
resource, whatever the server, the card and the URL are. -/
theorem C9_by_uri_if_match_is_null (env : Env) (settings : carddav_settings)
    (error : carddav_error) (r : CallResult) (c : CURL) (t : Transfer)
    (hr : carddav_modify_by_uri env settings error = Outcome.ok r)
    (hp : put_sent r.trace c t) :
    headers_named "If-Match" c = ["If-Match: (null)"] := by
  have hfail : ∀ (q : CallResult), Outcome.ok q = Outcome.ok r →
      (∀ c t, ¬ put_sent q.trace c t) → False := by
    intro q hq hno
    injection hq with hq
    subst hq
    exact hno c t hp
  unfold carddav_modify_by_uri at hr
  cases hc : env.get_curl settings with
  | none =>
    rw [hc] at hr
    exact (hfail _ hr no_put_nil).elim
  | some curl =>
    rw [hc] at hr
    cases hu : env.get_response_header "uri" (g_strdup settings.file) false with
    | none =>
      rw [hu] at hr
      exact (hfail _ hr no_put_nil).elim
    | some uri =>
      rw [hu] at hr
      cases hho : env.get_host settings.url with
      | none =>
        rw [hho] at hr
        exact (hfail _ hr no_put_nil).elim
      | some host =>
        rw [hho] at hr
        obtain ⟨card, -, hreq⟩ := modify_lock_request env settings error _ _ _ _ _ _
          _ _ _ no_put_nil r hr c t hp
        have ht := token_header_names (acquired_token env settings (host ++ uri))
        subst hreq
        unfold headers_named
        simp only [(put_request_fields _ _ _ _ _ _ _ _).1, List.filter_append,
          modify_by_uri_put_headers_names, ht.1, List.append_nil]

/-- C9 on the demo server: the PUT of a MODIFY by URI of the demo card, whose
etag on the server is `e1`, says `If-Match: (null)`. -/
theorem C9_by_uri_if_match_is_null_witness :
    headers_named "If-Match" demo_put_by_uri = ["If-Match: (null)"] := by
  have h : ∃ r, carddav_modify_by_uri (demo_env 204 demo_token) demo_settings demo_error
      = Outcome.ok r ∧
      put_sent r.trace demo_put_by_uri
        ((demo_env 204 demo_token).curl_easy_perform demo_put_by_uri) :=
    ⟨_, rfl, by decide, rfl⟩
  obtain ⟨r, hr, hp⟩ := h
  exact C9_by_uri_if_match_is_null (demo_env 204 demo_token) demo_settings demo_error r
    demo_put_by_uri _ hr hp

/-- C10 as stated fails: on the demo server whose discovery REPORT returns 207
with an href and a body but no extractable etag, `carddav_modify` does not end
with ErrorDetail code 409 and message "No object found"; it ends with code 207
and the REPORT body. -/
theorem C10_counterexample :
    demo_env_no_etag.get_url (some demo_body) = some "/book/42.vcf" ∧
    demo_env_no_etag.get_etag (some demo_body) = none ∧
    carddav_modify demo_env_no_etag demo_settings demo_error = Outcome.ok
      { result := true, settings := demo_settings,
        error := { code := 207, str := some demo_body },
        trace := [Event.perform (modify_report_request demo_curl "42")
          (demo_env_no_etag.curl_easy_perform (modify_report_request demo_curl "42"))] } ∧
    ¬ ∃ r, carddav_modify demo_env_no_etag demo_settings demo_error = Outcome.ok r ∧
      r.error = { code := 409, str := some "No object found" } := by
  refine ⟨rfl, rfl, rfl, ?_⟩
  rintro ⟨r, hr, he⟩
  have h0 : carddav_modify demo_env_no_etag demo_settings demo_error = Outcome.ok
      { result := true, settings := demo_settings,
        error := { code := 207, str := some demo_body },
        trace := [Event.perform (modify_report_request demo_curl "42")
          (demo_env_no_etag.curl_easy_perform (modify_report_request demo_curl "42"))] } := rfl
  rw [h0] at hr
  injection hr with hr
  subst hr
  have hcode := congrArg carddav_error.code he
  revert hcode
  decide

/-- C10, amended. When the discovery REPORT returns 207 with an href but no
etag can be extracted, or no host can be derived, `carddav_modify` issues no PUT
and no lock traffic and fails with ErrorDetail code 207, the status of the
REPORT; the message is the REPORT body, and "No object found" only when there
is no body. `carddav_modify_object`, whose probe passed, returns CONFLICT. -/
theorem C10_no_etag_or_host (env : Env) (settings : carddav_settings)
    (error : carddav_error) (curl : CURL) (uid href : String)
    (hcurl : env.get_curl settings = some curl)
    (huid : env.get_response_header "uid" (g_strdup settings.file) false = some uid)
    (hres : (env.curl_easy_perform (modify_report_request curl uid)).res = 0)
    (hcode : (env.curl_easy_perform (modify_report_request curl uid)).code = 207)
    (hhref : env.get_url (env.curl_easy_perform (modify_report_request curl uid)).chunk
      = some href)
    (hmiss : env.get_etag (env.curl_easy_perform (modify_report_request curl uid)).chunk
        = none ∨ env.get_host settings.url = none) :
    (∃ r, carddav_modify env settings error = Outcome.ok r ∧ r.result = true ∧
      r.error.code = 207 ∧
      r.error.str =
        (match (env.curl_easy_perform (modify_report_request curl uid)).chunk with
          | some body => some body
          | none => some "No object found") ∧
      (∀ c t, ¬ put_sent r.trace c t) ∧ no_lock_traffic r.trace) ∧
    (∀ (fuel : Nat) (object URL : Option String) (info : runtime_info),
      carddav_modify_object_settings env object URL (init_options info) = settings →
      probe_passes env settings curl (init_error info) error →
      ∃ p, carddav_modify_object env fuel object URL info = Outcome.ok p ∧
        p.response = CARDDAV_RESPONSE.CONFLICT ∧
        (∀ c t, ¬ put_sent p.trace c t) ∧ no_lock_traffic p.trace) := by
  have hrep := modify_report_request_no_put curl uid
  have hmod : carddav_modify env settings error = Outcome.ok
      (modify_not_found settings 207
        (env.curl_easy_perform (modify_report_request curl uid)).chunk
        [Event.perform (modify_report_request curl uid)
          (env.curl_easy_perform (modify_report_request curl uid))]) := by
    unfold carddav_modify
    simp only [hcurl, huid, hres, hcode, hhref, ne_eq, not_true_eq_false, if_false]
    rcases hmiss with he | hh
    · simp only [he]
    · simp only [hh]
      cases env.get_etag (env.curl_easy_perform (modify_report_request curl uid)).chunk <;> rfl
  refine ⟨⟨_, hmod, rfl, rfl, rfl, no_put_single _ _ hrep, no_lock_traffic_single _ _⟩, ?_⟩
  intro fuel object URL info hset hprobe
  subst hset
  obtain ⟨p, hp, -, htrace, hspec⟩ :=
    carddav_modify_object_of_modify env fuel object URL info curl error _ hprobe hmod
  refine ⟨p, hp, ?_, ?_, ?_⟩
  · have h207 : ∀ n : Int, (207 : Int) ≠ n → (modify_not_found
        (carddav_modify_object_settings env object URL (init_options info)) 207
        (env.curl_easy_perform (modify_report_request curl uid)).chunk
        [Event.perform (modify_report_request curl uid)
          (env.curl_easy_perform (modify_report_request curl uid))]).error.code ≠ n :=
      fun _ h => h
    exact (hspec.2 rfl).2.2.2.2 (h207 403 (by decide)) (h207 409 (by decide))
      (h207 423 (by decide)) (h207 501 (by decide))
  · rw [htrace]
    exact no_put_cons_getoptions _ (no_put_single _ _ hrep)
  · rw [htrace]
    exact no_lock_traffic_cons_getoptions _ (no_lock_traffic_single _ _)

/-- C10 amended, on the demo server whose REPORT yields no etag. -/
theorem C10_no_etag_or_host_witness :
    (∃ r, carddav_modify demo_env_no_etag demo_settings demo_error = Outcome.ok r ∧
      r.result = true ∧ r.error.code = 207 ∧ r.error.str = some demo_body ∧
      (∀ c t, ¬ put_sent r.trace c t) ∧ no_lock_traffic r.trace) ∧
    (∃ p, carddav_modify_object demo_env_no_etag 0 (some demo_card)
        (some "http://example.org/book/") demo_info = Outcome.ok p ∧
      p.response = CARDDAV_RESPONSE.CONFLICT ∧
      (∀ c t, ¬ put_sent p.trace c t) ∧ no_lock_traffic p.trace) :=
  ⟨(C10_no_etag_or_host demo_env_no_etag demo_settings demo_error demo_curl "42"
      "/book/42.vcf" rfl rfl rfl rfl rfl (Or.inl rfl)).1,
   (C10_no_etag_or_host demo_env_no_etag demo_settings demo_error demo_curl "42"
      "/book/42.vcf" rfl rfl rfl rfl rfl (Or.inl rfl)).2 0 (some demo_card)
      (some "http://example.org/book/") demo_info rfl ⟨rfl, rfl, rfl⟩⟩

/-- C11. For every verb dispatched through `make_carddav_call` (every ACTION and
either addressing mode), once a handle is there and the capability probe
answers false (not CardDAV-enabled, or the probe failed), the call returns
failure with the ErrorDetail the probe left and the card text dropped, and its
only step is the probe: no verb handler runs, so none of the verb's own
PROPFIND, REPORT, PUT, DELETE or LOCK traffic is issued. -/
theorem C11_probe_fails_no_handler (env : Env) (fuel : Nat) (settings : carddav_settings)
    (info : runtime_info) (error : carddav_error) (curl : CURL)
    (herr : info.error = some error)
    (hcurl : env.get_curl settings = some curl)
    (hprobe : (env.carddav_getoptions curl settings none error true).1 = false) :
    ∃ r, make_carddav_call env fuel settings info = Outcome.ok r ∧
      r.result = true ∧
      r.trace = [Event.getoptions] ∧
      (∀ e ∈ r.trace, e = Event.getoptions) ∧
      r.error = (env.carddav_getoptions curl settings none error true).2.2 ∧
      r.settings = { settings with file := none } := by
  unfold make_carddav_call
  simp only [herr, hcurl, hprobe, Bool.not_false, if_true]
  exact ⟨_, rfl, rfl, rfl, by simp, rfl, rfl⟩

/-- C11 on the demo server whose probe answers false, for a MODIFY. -/
theorem C11_probe_fails_no_handler_witness :
    ∃ r, make_carddav_call demo_env_not_enabled 0 demo_settings demo_info = Outcome.ok r ∧
      r.result = true ∧
      r.trace = [Event.getoptions] ∧
      (∀ e ∈ r.trace, e = Event.getoptions) ∧
      r.error = { code := 405, str := some "Method Not Allowed" } ∧
      r.settings = { demo_settings with file := none } :=
  C11_probe_fails_no_handler demo_env_not_enabled 0 demo_settings demo_info demo_error
    demo_curl rfl rfl rfl

/-- Every public verb is `make_carddav_call` on its settings, after
`init_runtime`, followed by the common tail. -/
theorem public_verbs_eq_tail (env : Env) (fuel : Nat) (object URL : Option String)
    (start end_ : Int) (info : runtime_info) :
    carddav_add_object env fuel object URL info =
      public_tail false (init_runtime info) (make_carddav_call env fuel
        (carddav_add_object_settings env object URL (init_options info)) (init_runtime info)) ∧
    carddav_delete_object env fuel object URL info =
      public_tail false (init_runtime info) (make_carddav_call env fuel
        (carddav_delete_object_settings env object URL (init_options info))
        (init_runtime info)) ∧
    carddav_delete_object_by_uri env fuel object URL info =
      public_tail false (init_runtime info) (make_carddav_call env fuel
        (carddav_delete_object_by_uri_settings env object URL (init_options info))
        (init_runtime info)) ∧
    carddav_modify_object env fuel object URL info =
      public_tail false (init_runtime info) (make_carddav_call env fuel
        (carddav_modify_object_settings env object URL (init_options info))
        (init_runtime info)) ∧
    carddav_modify_object_by_uri env fuel object URL info =
      public_tail false (init_runtime info) (make_carddav_call env fuel
        (carddav_modify_object_by_uri_settings env object URL (init_options info))
        (init_runtime info)) ∧
    carddav_get_object env fuel start end_ URL info =
      public_tail true (init_runtime info) (make_carddav_call env fuel
        (carddav_get_object_settings env start end_ URL (init_options info))
        (init_runtime info)) ∧
    carddav_getall_object env fuel URL info =
      public_tail true (init_runtime info) (make_carddav_call env fuel
        (carddav_getall_object_settings env URL (init_options info)) (init_runtime info)) ∧
    carddav_getall_object_by_uri env fuel URL info =
      public_tail true (init_runtime info) (make_carddav_call env fuel
        (carddav_getall_object_by_uri_settings env URL (init_options info))
        (init_runtime info)) ∧
    carddav_get_displayname env fuel URL info =
      public_tail true (init_runtime info) (make_carddav_call env fuel
        (carddav_get_displayname_settings env URL (init_options info)) (init_runtime info)) :=
  ⟨rfl, rfl, rfl, rfl, rfl, rfl, rfl, rfl, rfl⟩

/-- The common tail returns exactly when the call did, hands on its steps and
ErrorDetail, and answers OK exactly when the call reported no failure. -/
theorem public_tail_ok (retrieval : Bool) (info : runtime_info) (call : Outcome CallResult)
    (p : PublicResult) (h : public_tail retrieval info call = Outcome.ok p) :
    ∃ c, call = Outcome.ok c ∧ p.info.error = some c.error ∧ p.trace = c.trace ∧
      (p.response = CARDDAV_RESPONSE.OK ↔ c.result = false) ∧
      (c.result = false → p.msg = if retrieval then g_strdup c.settings.file else none) := by
  cases call with
  | undefined => cases h
  | timeout => cases h
  | ok c =>
    refine ⟨c, rfl, ?_⟩
    have hs := (switch_spec c.result c.error.code).1
    unfold public_tail at h
    cases hr : c.result
    · simp only [hr, Bool.false_eq_true, if_false] at h
      injection h with h
      subst h
      exact ⟨rfl, rfl, by simp, fun _ => rfl⟩
    · rw [hr] at hs
      simp only [hr, if_true] at h hs
      injection h with h
      subst h
      refine ⟨rfl, rfl, ?_, fun h => by cases h⟩
      simpa using hs

/-- A successful verdict leaves ErrorDetail and settings as they were. -/
theorem modify_verdict_success (settings : carddav_settings) (error : carddav_error)
    (res : Nat) (lock : Int) (lock_error : carddav_error) (code last_code : Int)
    (chunk : Option String) (trace : List Event)
    (h : (modify_verdict settings error res lock lock_error code last_code chunk trace).result
      = false) :
    (modify_verdict settings error res lock lock_error code last_code chunk trace).error
      = error ∧
    (modify_verdict settings error res lock lock_error code last_code chunk trace).settings
      = settings := by
  unfold modify_verdict at h ⊢
  split_ifs at h ⊢
  exact ⟨rfl, rfl⟩

/-- A successful PUT phase leaves ErrorDetail and settings as they were. -/
theorem modify_put_success (env : Env) (settings : carddav_settings)
    (error : carddav_error) (curl : CURL) (url : String) (hdr : List String)
    (LOCKSUPPORT : Bool) (lock_token : Option String) (lock : Int)
    (lock_error : carddav_error) (res : Nat)
    (code last_code : Int) (chunk headers : Option String) (trace : List Event)
    (r : CallResult)
    (hr : modify_put env settings error curl url hdr LOCKSUPPORT lock_token lock lock_error
          res code last_code chunk headers trace = Outcome.ok r)
    (hres : r.result = false) : r.error = error ∧ r.settings = settings := by
  unfold modify_put at hr
  split_ifs at hr with hcond
  · cases hf : settings.file with
    | none => simp only [hf] at hr; cases hr
    | some card =>
      simp only [hf] at hr
      injection hr with hr
      subst hr
      exact modify_verdict_success _ _ _ _ _ _ _ _ _ hres
  · injection hr with hr
    subst hr
    exact modify_verdict_success _ _ _ _ _ _ _ _ _ hres

/-- A successful lock phase leaves ErrorDetail and settings as they were. -/
theorem modify_lock_success (env : Env) (settings : carddav_settings)
    (error : carddav_error) (curl : CURL) (url : String) (hdr : List String) (res : Nat)
    (code last_code : Int) (chunk headers : Option String) (trace : List Event)
    (r : CallResult)
    (hr : modify_lock env settings error curl url hdr res code last_code chunk headers trace
        = Outcome.ok r)
    (hres : r.result = false) : r.error = error ∧ r.settings = settings := by
  obtain ⟨ls, tok, lock, le, steps, heq, -, -⟩ :=
    modify_lock_cases env settings error curl url hdr res code last_code chunk headers trace
  rw [heq] at hr
  exact modify_put_success env settings error curl url _ ls tok lock le res code last_code
    chunk headers (trace ++ steps) r hr hres

/-- A `carddav_modify` that reports success has left the ErrorDetail and the
settings as it found them. -/
theorem carddav_modify_success (env : Env) (settings : carddav_settings)
    (error : carddav_error) (r : CallResult)
    (hr : carddav_modify env settings error = Outcome.ok r) (hres : r.result = false) :
    r.error = error ∧ r.settings = settings := by
  have hfail : ∀ (q : CallResult), Outcome.ok q = Outcome.ok r → q.result = true →
      r.error = error ∧ r.settings = settings := by
    intro q hq hq'
    injection hq with hq
    subst hq
    rw [hq'] at hres
    cases hres
  unfold carddav_modify at hr
  cases hc : env.get_curl settings with
  | none => rw [hc] at hr; exact hfail _ hr rfl
  | some curl =>
    rw [hc] at hr
    cases hu : env.get_response_header "uid" (g_strdup settings.file) false with
    | none => rw [hu] at hr; exact hfail _ hr rfl
    | some uid =>
      rw [hu] at hr
      dsimp only at hr
      split_ifs at hr with h1 h2
      · exact hfail _ hr rfl
      · exact hfail _ hr rfl
      · cases hh : env.get_url (env.curl_easy_perform (modify_report_request curl uid)).chunk with
        | none => rw [hh] at hr; exact hfail _ hr rfl
        | some href =>
          rw [hh] at hr
          cases he : env.get_etag
              (env.curl_easy_perform (modify_report_request curl uid)).chunk with
          | none => rw [he] at hr; exact hfail _ hr rfl
          | some etag =>
            rw [he] at hr
            cases hho : env.get_host settings.url with
            | none => rw [hho] at hr; exact hfail _ hr rfl
            | some host =>
              rw [hho] at hr
              exact modify_lock_success env settings error _ _ _ _ _ _ _ _ _ r hr hres

/-- A `carddav_modify_by_uri` that reports success has left the ErrorDetail and
the settings as it found them. -/
theorem carddav_modify_by_uri_success (env : Env) (settings : carddav_settings)
    (error : carddav_error) (r : CallResult)
    (hr : carddav_modify_by_uri env settings error = Outcome.ok r)
    (hres : r.result = false) :
    r.error = error ∧ r.settings = settings := by
  have hfail : ∀ (q : CallResult), Outcome.ok q = Outcome.ok r → q.result = true →
      r.error = error ∧ r.settings = settings := by
    intro q hq hq'
    injection hq with hq
    subst hq
    rw [hq'] at hres
    cases hres
  unfold carddav_modify_by_uri at hr
  cases hc : env.get_curl settings with
  | none => rw [hc] at hr; exact hfail _ hr rfl
  | some curl =>
    rw [hc] at hr
    cases hu : env.get_response_header "uri" (g_strdup settings.file) false with
    | none => rw [hu] at hr; exact hfail _ hr rfl
    | some uri =>
      rw [hu] at hr
      cases hho : env.get_host settings.url with
      | none => rw [hho] at hr; exact hfail _ hr rfl
      | some host =>
        rw [hho] at hr
        exact modify_lock_success env settings error _ _ _ _ _ _ _ _ _ r hr hres

/-- The loop of `carddav_dirlist` prints, after what it was given, one href
element for each value the scan lists, in the order of the scan, and ends as
the scan ends. -/
theorem dirlist_loop_eq_scan (env : Env) (fuel : Nat) (pos all_href : String) :
    dirlist_loop env fuel pos all_href =
      match dirlist_scan env fuel pos with
      | Outcome.ok hrefs => Outcome.ok (all_href ++ href_elements hrefs)
      | Outcome.undefined => Outcome.undefined
      | Outcome.timeout => Outcome.timeout := by
  induction fuel generalizing pos all_href with
  | zero => rfl
  | succ n ih =>
    unfold dirlist_loop dirlist_scan
    cases hl : href_lookup env (some pos) with
    | none => simp [href_elements]
    | some href =>
      cases hs : strstr pos href with
      | none =>
        simp only [hs]
        simp [href_elements, href_element, String.append_assoc]
      | some pos' =>
        simp only [hs, ih]
        cases dirlist_scan env n pos' with
        | ok hrefs => simp [href_elements, href_element, String.append_assoc]
        | undefined => rfl
        | timeout => rfl

/-- What `carddav_dirlist` gives once it returns: a failure without listing when
no handle is there, when the PROPFIND faulted, or when its status is not 207
(the status then being the ErrorDetail code); otherwise the href elements of the
values collected from the 207 body, with ErrorDetail and settings untouched. -/
theorem carddav_dirlist_cases (env : Env) (fuel : Nat) (settings : carddav_settings)
    (error : carddav_error) (d : DirlistResult)
    (h : carddav_dirlist env fuel settings error = Outcome.ok d) :
    (env.get_curl settings = none ∧ d.all_href = none ∧ d.trace = [] ∧
      d.error = { code := -1, str := some "Could not initialize libcurl" }) ∨
    (∃ curl, env.get_curl settings = some curl ∧
      d.trace = [Event.perform (dirlist_propfind_request curl)
        (env.curl_easy_perform (dirlist_propfind_request curl))] ∧
      (((env.curl_easy_perform (dirlist_propfind_request curl)).res ≠ 0 ∧
          d.all_href = none ∧ d.error.code = -1) ∨
        ((env.curl_easy_perform (dirlist_propfind_request curl)).res = 0 ∧
          (env.curl_easy_perform (dirlist_propfind_request curl)).code ≠ 207 ∧
          d.all_href = none ∧
          d.error.code = (env.curl_easy_perform (dirlist_propfind_request curl)).code ∧
          d.settings = settings) ∨
        ((env.curl_easy_perform (dirlist_propfind_request curl)).res = 0 ∧
          (env.curl_easy_perform (dirlist_propfind_request curl)).code = 207 ∧
          d.error = error ∧ d.settings = settings ∧
          ∃ report hrefs,
            (env.curl_easy_perform (dirlist_propfind_request curl)).chunk = some report ∧
            collected_hrefs env fuel report = Outcome.ok hrefs ∧
            d.all_href = some (href_elements hrefs)))) := by
  unfold carddav_dirlist at h
  unfold dirlist_propfind_request
  cases hc : env.get_curl settings with
  | none =>
    rw [hc] at h
    injection h with h
    subst h
    exact Or.inl ⟨rfl, rfl, rfl, rfl⟩
  | some curl =>
    rw [hc] at h
    refine Or.inr ⟨curl, rfl, ?_⟩
    dsimp only [g_strdup] at h
    split_ifs at h with h1 h2
    · injection h with h
      subst h
      exact ⟨rfl, Or.inl ⟨h1, rfl, rfl⟩⟩
    · rw [not_not] at h1
      injection h with h
      subst h
      exact ⟨rfl, Or.inr (Or.inl ⟨h1, h2, rfl, rfl, rfl⟩)⟩
    · rw [not_not] at h1 h2
      generalize hb : (env.curl_easy_perform
        { url := curl.url, httpheader := xml_request_headers,
          postfields := some dirlist_request, customrequest := some "PROPFIND",
          writedata := none, writeheader := none }).chunk = body at h ⊢
      cases body with
      | none => cases h
      | some report =>
        cases hl : href_lookup env (some report) with
        | none =>
          rw [hl] at h
          cases h
        | some href =>
          rw [hl] at h
          dsimp only at h
          cases hs : strstr report href with
          | none =>
            rw [hs] at h
            injection h with h
            subst h
            refine ⟨rfl, Or.inr (Or.inr ⟨h1, h2, rfl, rfl, report, [], rfl, ?_, rfl⟩)⟩
            simp [collected_hrefs, hl, hs]
          | some pos =>
            rw [hs] at h
            dsimp only at h
            rw [dirlist_loop_eq_scan] at h
            cases hsc : dirlist_scan env fuel pos with
            | undefined => rw [hsc] at h; cases h
            | timeout => rw [hsc] at h; cases h
            | ok hrefs =>
              rw [hsc] at h
              injection h with h
              subst h
              refine ⟨rfl, Or.inr (Or.inr ⟨h1, h2, rfl, rfl, report, hrefs, rfl, ?_, ?_⟩)⟩
              · simp [collected_hrefs, hl, hs, hsc]
              · simp

/-- The two retrieval handlers have the same text, hence the same value. -/
theorem getall_by_uri_unfold (env : Env) (fuel : Nat) (settings : carddav_settings)
    (error : carddav_error) :
    carddav_getall_by_uri env fuel settings error = carddav_getall env fuel settings error :=
  rfl

/-- What `carddav_getall` gives once it returns: the failure of the listing,
with the PROPFIND as only step; or, after a 207 listing, the multiget REPORT for
the collected values as second step, and then a failure with code -1 (transport
fault) or the REPORT's status (not 207), or a success with the parse of the
REPORT body as payload and the ErrorDetail untouched. -/
theorem carddav_getall_cases (env : Env) (fuel : Nat) (settings : carddav_settings)
    (error : carddav_error) (r : CallResult)
    (h : carddav_getall env fuel settings error = Outcome.ok r) :
    (env.get_curl settings = none ∧ r.result = true ∧ r.trace = []) ∨
    (∃ curl, env.get_curl settings = some curl ∧
      ((r.trace = [Event.perform (dirlist_propfind_request curl)
            (env.curl_easy_perform (dirlist_propfind_request curl))] ∧
          r.result = true ∧
          (((env.curl_easy_perform (dirlist_propfind_request curl)).res ≠ 0 ∧
              r.error.code = -1) ∨
            ((env.curl_easy_perform (dirlist_propfind_request curl)).res = 0 ∧
              (env.curl_easy_perform (dirlist_propfind_request curl)).code ≠ 207 ∧
              r.error.code = (env.curl_easy_perform (dirlist_propfind_request curl)).code))) ∨
        ((env.curl_easy_perform (dirlist_propfind_request curl)).res = 0 ∧
          (env.curl_easy_perform (dirlist_propfind_request curl)).code = 207 ∧
          ∃ report hrefs,
            (env.curl_easy_perform (dirlist_propfind_request curl)).chunk = some report ∧
            collected_hrefs env fuel report = Outcome.ok hrefs ∧
            r.trace = [Event.perform (dirlist_propfind_request curl)
                (env.curl_easy_perform (dirlist_propfind_request curl)),
              Event.perform (getall_report_request curl (href_elements hrefs))
                (env.curl_easy_perform (getall_report_request curl (href_elements hrefs)))] ∧
            (((env.curl_easy_perform (getall_report_request curl (href_elements hrefs))).res
                  ≠ 0 ∧ r.result = true ∧ r.error.code = -1) ∨
              ((env.curl_easy_perform (getall_report_request curl (href_elements hrefs))).res
                  = 0 ∧
                (env.curl_easy_perform (getall_report_request curl (href_elements hrefs))).code
                  ≠ 207 ∧ r.result = true ∧
                r.error.code =
                  (env.curl_easy_perform
                    (getall_report_request curl (href_elements hrefs))).code) ∨
              ((env.curl_easy_perform (getall_report_request curl (href_elements hrefs))).res
                  = 0 ∧
                (env.curl_easy_perform (getall_report_request curl (href_elements hrefs))).code
                  = 207 ∧ r.result = false ∧ r.error = error ∧
                r.settings =
                  { settings with
                    file := env.parse_carddav_report
                      (env.curl_easy_perform
                        (getall_report_request curl (href_elements hrefs))).chunk
                      "address-data" "VCARD" }))))) := by
  unfold carddav_getall at h
  cases hd : carddav_dirlist env fuel settings error with
  | undefined => rw [hd] at h; cases h
  | timeout => rw [hd] at h; cases h
  | ok d =>
    rw [hd] at h
    dsimp only at h
    rcases carddav_dirlist_cases env fuel settings error d hd with
      ⟨hc, hall, htr, -⟩ | ⟨curl, hc, htr, hcase⟩
    · rw [hall] at h
      injection h with h
      subst h
      exact Or.inl ⟨hc, rfl, htr⟩
    · refine Or.inr ⟨curl, hc, ?_⟩
      rcases hcase with ⟨h1, hall, hcode⟩ | ⟨h1, h2, hall, hcode, -⟩ |
        ⟨h1, h2, herr, hset, report, hrefs, hb, hcol, hall⟩
      · rw [hall] at h
        injection h with h
        subst h
        exact Or.inl ⟨htr, rfl, Or.inl ⟨h1, hcode⟩⟩
      · rw [hall] at h
        injection h with h
        subst h
        exact Or.inl ⟨htr, rfl, Or.inr ⟨h1, h2, hcode⟩⟩
      · refine Or.inr ⟨h1, h2, report, hrefs, hb, hcol, ?_⟩
        rw [hall] at h
        dsimp only at h
        rw [hset, hc] at h
        dsimp only [g_strdup] at h
        unfold getall_report_request
        split_ifs at h with h3 h4
        · injection h with h
          subst h
          exact ⟨by rw [htr]; rfl, Or.inl ⟨h3, rfl, rfl⟩⟩
        · rw [not_not] at h3
          injection h with h
          subst h
          exact ⟨by rw [htr]; rfl, Or.inr (Or.inl ⟨h3, h4, rfl, rfl⟩)⟩
        · rw [not_not] at h3 h4
          injection h with h
          subst h
          exact ⟨by rw [htr]; rfl, Or.inr (Or.inr ⟨h3, h4, rfl, herr, rfl⟩)⟩

/-- A handler whose steps were prefixed returned what the handler returned. -/
theorem with_trace_ok (trace : List Event) (x : Outcome CallResult) (r : CallResult)
    (h : with_trace trace x = Outcome.ok r) :
    ∃ c, x = Outcome.ok c ∧ r.result = c.result ∧ r.error = c.error ∧
      r.settings = c.settings ∧ r.trace = trace ++ c.trace := by
  cases x with
  | undefined => cases h
  | timeout => cases h
  | ok c =>
    injection h with h
    subst h
    exact ⟨c, rfl, rfl, rfl, rfl, rfl⟩

/-- A `carddav_getall` that reports success has left the ErrorDetail as it found
it. -/
theorem carddav_getall_success (env : Env) (fuel : Nat) (settings : carddav_settings)
    (error : carddav_error) (r : CallResult)
    (h : carddav_getall env fuel settings error = Outcome.ok r) (hres : r.result = false) :
    r.error = error := by
  rcases carddav_getall_cases env fuel settings error r h with
    ⟨-, h1, -⟩ | ⟨curl, -, ⟨-, h1, -⟩ | ⟨-, -, report, hrefs, -, -, -, hcase⟩⟩
  · rw [h1] at hres; cases hres
  · rw [h1] at hres; cases hres
  · rcases hcase with ⟨-, h1, -⟩ | ⟨-, -, h1, -⟩ | ⟨-, -, -, herr, -⟩
    · rw [h1] at hres; cases hres
    · rw [h1] at hres; cases hres
    · exact herr

/-- When `make_carddav_call` reports success for a verb whose handler is in the
sources (or that has none), the probe passed and the ErrorDetail is the one the
probe left: the handler did not write it. -/
theorem make_carddav_call_success (env : Env) (fuel : Nat) (settings : carddav_settings)
    (info : runtime_info) (error : carddav_error) (r : CallResult)
    (herr : info.error = some error)
    (hact : handler_in_sources settings.ACTION)
    (h : make_carddav_call env fuel settings info = Outcome.ok r)
    (hres : r.result = false) :
    ∃ curl, env.get_curl settings = some curl ∧
      (env.carddav_getoptions curl settings none error true).1 = true ∧
      r.error = (env.carddav_getoptions curl settings none error true).2.2 := by
  obtain ⟨hadd, hdel, hname⟩ := hact
  have hfail : ∀ (q : CallResult), Outcome.ok q = Outcome.ok r → q.result = true → False := by
    intro q hq hq'
    injection hq with hq
    subst hq
    rw [hq'] at hres
    cases hres
  unfold make_carddav_call at h
  rw [herr] at h
  cases hc : env.get_curl settings with
  | none => rw [hc] at h; exact (hfail _ h rfl).elim
  | some curl =>
    rw [hc] at h
    refine ⟨curl, rfl, ?_⟩
    dsimp only at h
    cases hp : (env.carddav_getoptions curl settings none error true).1 with
    | false =>
      simp only [hp, Bool.not_false, if_true] at h
      exact (hfail _ h rfl).elim
    | true =>
      refine ⟨rfl, ?_⟩
      simp only [hp, Bool.not_true, Bool.false_eq_true, if_false] at h
      have hmod : ∀ x : Outcome CallResult,
          with_trace [Event.getoptions] x = Outcome.ok r →
          (∀ c, x = Outcome.ok c → c.result = false →
            c.error = (env.carddav_getoptions curl settings none error true).2.2) →
          r.error = (env.carddav_getoptions curl settings none error true).2.2 := by
        intro x hx hsucc
        obtain ⟨c, hxc, h1, h2, -, -⟩ := with_trace_ok _ _ _ hx
        rw [h2]
        exact hsucc c hxc (by rw [← h1]; exact hres)
      have hskip : ∀ q : CallResult, Outcome.ok q = Outcome.ok r →
          q.error = (env.carddav_getoptions curl settings none error true).2.2 →
          r.error = (env.carddav_getoptions curl settings none error true).2.2 := by
        intro q hq he
        injection hq with hq
        subst hq
        exact he
      split_ifs at h with huri
      · cases ha : settings.ACTION <;> rw [ha] at h hadd hdel hname <;>
          first
          | exact absurd rfl hadd
          | exact absurd rfl hdel
          | exact absurd rfl hname
          | exact hskip _ h rfl
          | exact hmod _ h (fun c hc hr => carddav_getall_success _ _ _ _ c hc hr)
          | exact hmod _ h (fun c hc hr => (carddav_modify_success _ _ _ c hc hr).1)
      · cases ha : settings.ACTION <;> rw [ha] at h hadd hdel hname <;>
          first
          | exact absurd rfl hadd
          | exact absurd rfl hdel
          | exact absurd rfl hname
          | exact hskip _ h rfl
          | exact hmod _ h (fun c hc hr =>
              carddav_getall_success _ _ _ _ c ((getall_by_uri_unfold _ _ _ _).symm.trans hc) hr)
          | exact hmod _ h (fun c hc hr => (carddav_modify_by_uri_success _ _ _ c hc hr).1)

/-- What a verb that returns OK leaves in the ErrorDetail.  For modify,
modify-by-uri, get, getall and getall-by-uri and every prior state of the
caller's runtime_info: if the call returns OK, a handle was there and the
ErrorDetail on return is the one `carddav_getoptions` left when started from the
ErrorDetail found on entry (a zeroed one if the runtime_info had none); neither
`init_runtime` nor `make_carddav_call` nor the handler has written it.  Whether
it is empty is for `carddav_getoptions` to decide. -/
theorem ok_leaves_probe_error (env : Env) (fuel : Nat) (object URL : Option String)
    (start end_ : Int) (info : runtime_info) :
    let left := fun (settings : carddav_settings) (p : PublicResult) =>
      p.response = CARDDAV_RESPONSE.OK →
        ∃ curl, env.get_curl settings = some curl ∧
          p.info.error =
            some (env.carddav_getoptions curl settings none (init_error info) true).2.2
    (∀ p, carddav_modify_object env fuel object URL info = Outcome.ok p →
      left (carddav_modify_object_settings env object URL (init_options info)) p) ∧
    (∀ p, carddav_modify_object_by_uri env fuel object URL info = Outcome.ok p →
      left (carddav_modify_object_by_uri_settings env object URL (init_options info)) p) ∧
    (∀ p, carddav_get_object env fuel start end_ URL info = Outcome.ok p →
      left (carddav_get_object_settings env start end_ URL (init_options info)) p) ∧
    (∀ p, carddav_getall_object env fuel URL info = Outcome.ok p →
      left (carddav_getall_object_settings env URL (init_options info)) p) ∧
    (∀ p, carddav_getall_object_by_uri env fuel URL info = Outcome.ok p →
      left (carddav_getall_object_by_uri_settings env URL (init_options info)) p) := by
  intro left
  have key : ∀ (retrieval : Bool) (settings : carddav_settings) (p : PublicResult),
      handler_in_sources settings.ACTION →
      public_tail retrieval (init_runtime info)
        (make_carddav_call env fuel settings (init_runtime info)) = Outcome.ok p →
      left settings p := by
    intro retrieval settings p hact hp hok
    obtain ⟨c, hc, herr, -, hiff, -⟩ := public_tail_ok _ _ _ _ hp
    obtain ⟨curl, hcurl, -, he⟩ := make_carddav_call_success env fuel settings
      (init_runtime info) (init_error info) c rfl hact hc (hiff.1 hok)
    exact ⟨curl, hcurl, by rw [herr, he]⟩
  have hv := public_verbs_eq_tail env fuel object URL start end_ info
  have hM : handler_in_sources CARDDAV_ACTION.MODIFY := ⟨by decide, by decide, by decide⟩
  have hG : handler_in_sources CARDDAV_ACTION.GET := ⟨by decide, by decide, by decide⟩
  have hA : handler_in_sources CARDDAV_ACTION.GETALL := ⟨by decide, by decide, by decide⟩
  refine ⟨?_, ?_, ?_, ?_, ?_⟩
  · intro p hp
    rw [hv.2.2.2.1] at hp
    exact key _ _ p hM hp
  · intro p hp
    rw [hv.2.2.2.2.1] at hp
    exact key _ _ p hM hp
  · intro p hp
    rw [hv.2.2.2.2.2.1] at hp
    exact key _ _ p hG hp
  · intro p hp
    rw [hv.2.2.2.2.2.2.1] at hp
    exact key _ _ p hA hp
  · intro p hp
    rw [hv.2.2.2.2.2.2.2.1] at hp
    exact key _ _ p hA hp

/-- C14 as the code has it. `make_carddav_call` has no case for the ACTION GET
that `carddav_get_object` sets: once the probe has passed, `carddav_get_object`
returns OK having performed nothing but the probe (no directory listing, no
multiget), and the payload it hands out is `settings.file` as
`init_carddav_settings` left it, not a retrieved card text. -/
theorem C14_get_object_retrieves_nothing (env : Env) (fuel : Nat) (start end_ : Int)
    (URL : Option String) (info : runtime_info) (curl : CURL) (error : carddav_error)
    (hprobe : probe_passes env
      (carddav_get_object_settings env start end_ URL (init_options info)) curl
      (init_error info) error) :
    ∃ p, carddav_get_object env fuel start end_ URL info = Outcome.ok p ∧
      p.response = CARDDAV_RESPONSE.OK ∧
      p.trace = [Event.getoptions] ∧
      p.msg = env.init_carddav_settings.file := by
  obtain ⟨hcurl, hp1, -⟩ := hprobe
  have hA : (carddav_get_object_settings env start end_ URL (init_options info)).ACTION
      = CARDDAV_ACTION.GET := rfl
  have hF : (carddav_get_object_settings env start end_ URL (init_options info)).file
      = env.init_carddav_settings.file := rfl
  unfold carddav_get_object
  simp only [init_runtime, make_carddav_call, hcurl, hp1, hA, Bool.not_true,
    Bool.false_eq_true, if_false, ite_self]
  exact ⟨_, rfl, rfl, rfl, hF⟩

/-- C14 on the demo server: `carddav_get_object` answers OK with no payload and
no retrieval traffic. -/
theorem C14_get_object_retrieves_nothing_witness :
    ∃ p, carddav_get_object (demo_env 204 demo_token) 5 0 0
        (some "http://example.org/book/") demo_info = Outcome.ok p ∧
      p.response = CARDDAV_RESPONSE.OK ∧
      p.trace = [Event.getoptions] ∧
      p.msg = none :=
  C14_get_object_retrieves_nothing (demo_env 204 demo_token) 5 0 0
    (some "http://example.org/book/") demo_info demo_curl demo_error ⟨rfl, rfl, rfl⟩

/-- C15. Once `carddav_getall` returns: a multiget REPORT among its steps comes
second, after a PROPFIND that went through with status 207; the call reports
success if and only if its steps are a PROPFIND and a REPORT that both went
through with status 207, and the payload is then the parse of the REPORT body;
a request that went through with a status other than 207 (200 included) makes
the call fail with that status as ErrorDetail code; each recorded outcome is the
transport's answer to that request. And whenever the PROPFIND faults or answers
another status than 207, the call does return, with the PROPFIND as its only
step: no REPORT is sent. -/
theorem C15_getall_needs_two_207 (env : Env) (fuel : Nat) (settings : carddav_settings)
    (error : carddav_error) :
    (∀ r, carddav_getall env fuel settings error = Outcome.ok r →
      (∀ c t, Event.perform c t ∈ r.trace → c.customrequest = some "REPORT" →
        ∃ cp tp, r.trace = [Event.perform cp tp, Event.perform c t] ∧
          cp.customrequest = some "PROPFIND" ∧ tp.res = 0 ∧ tp.code = 207) ∧
      (r.result = false ↔
        ∃ cp tp c t, r.trace = [Event.perform cp tp, Event.perform c t] ∧
          cp.customrequest = some "PROPFIND" ∧ c.customrequest = some "REPORT" ∧
          tp.res = 0 ∧ tp.code = 207 ∧ t.res = 0 ∧ t.code = 207) ∧
      (r.result = false →
        ∃ c t, Event.perform c t ∈ r.trace ∧ c.customrequest = some "REPORT" ∧
          r.settings.file = env.parse_carddav_report t.chunk "address-data" "VCARD") ∧
      (∀ c t, Event.perform c t ∈ r.trace → t.res = 0 → t.code ≠ 207 →
        r.result = true ∧ r.error.code = t.code) ∧
      (∀ c t, Event.perform c t ∈ r.trace → t = env.curl_easy_perform c)) ∧
    (∀ curl, env.get_curl settings = some curl →
      ((env.curl_easy_perform (dirlist_propfind_request curl)).res ≠ 0 ∨
        (env.curl_easy_perform (dirlist_propfind_request curl)).code ≠ 207) →
      ∃ r, carddav_getall env fuel settings error = Outcome.ok r ∧ r.result = true ∧
        r.trace = [Event.perform (dirlist_propfind_request curl)
          (env.curl_easy_perform (dirlist_propfind_request curl))]) := by
  have hPF : ∀ curl, (dirlist_propfind_request curl).customrequest = some "PROPFIND" :=
    fun _ => rfl
  have hRP : ∀ curl l, (getall_report_request curl l).customrequest = some "REPORT" :=
    fun _ _ => rfl
  constructor
  · intro r h
    rcases carddav_getall_cases env fuel settings error r h with
      ⟨-, hres, htr⟩ | ⟨curl, -, ⟨htr, hres, hcase⟩ |
        ⟨h1, h2, report, hrefs, -, -, htr, hcase⟩⟩
    · -- no handle
      rw [htr, hres]
      refine ⟨?_, ?_, ?_, ?_, ?_⟩
      · intro c t hm; cases hm
      · constructor
        · intro hf; cases hf
        · rintro ⟨cp, tp, c, t, ht, -⟩; cases ht
      · intro hf; cases hf
      · intro c t hm; cases hm
      · intro c t hm; cases hm
    · -- the listing failed
      rw [htr, hres]
      refine ⟨?_, ?_, ?_, ?_, ?_⟩
      · intro c t hm hc
        rcases List.mem_singleton.1 hm with hm
        injection hm with hm1 hm2
        rw [hm1, hPF] at hc
        exact absurd hc (by decide)
      · constructor
        · intro hf; cases hf
        · rintro ⟨cp, tp, c, t, ht, -⟩; cases ht
      · intro hf; cases hf
      · intro c t hm hr hc
        rcases List.mem_singleton.1 hm with hm
        injection hm with hm1 hm2
        subst hm1 hm2
        rcases hcase with ⟨h1, -⟩ | ⟨-, -, hcode⟩
        · exact absurd hr h1
        · exact ⟨rfl, hcode⟩
      · intro c t hm
        rcases List.mem_singleton.1 hm with hm
        injection hm with hm1 hm2
        rw [hm1, hm2]
    · -- the listing went through
      have hmem : ∀ c t, Event.perform c t ∈ r.trace →
          (c = dirlist_propfind_request curl ∧
            t = env.curl_easy_perform (dirlist_propfind_request curl)) ∨
          (c = getall_report_request curl (href_elements hrefs) ∧
            t = env.curl_easy_perform (getall_report_request curl (href_elements hrefs))) := by
        intro c t hm
        rw [htr] at hm
        rcases List.mem_cons.1 hm with hm | hm
        · injection hm with hm1 hm2
          exact Or.inl ⟨hm1, hm2⟩
        · rcases List.mem_singleton.1 hm with hm
          injection hm with hm1 hm2
          exact Or.inr ⟨hm1, hm2⟩
      refine ⟨?_, ?_, ?_, ?_, ?_⟩
      · intro c t hm hc
        rcases hmem c t hm with ⟨hc1, -⟩ | ⟨hc1, ht1⟩
        · rw [hc1, hPF] at hc
          exact absurd hc (by decide)
        · exact ⟨_, _, by rw [htr, hc1, ht1], hPF curl, h1, h2⟩
      · constructor
        · intro hf
          rcases hcase with ⟨-, hres, -⟩ | ⟨-, -, hres, -⟩ | ⟨h3, h4, -, -, -⟩
          · rw [hres] at hf; cases hf
          · rw [hres] at hf; cases hf
          · exact ⟨_, _, _, _, htr, hPF curl, hRP curl _, h1, h2, h3, h4⟩
        · rintro ⟨cp, tp, c, t, ht, -, -, -, -, h3, h4⟩
          rw [htr] at ht
          injection ht with ht1 ht2
          injection ht2 with ht2 _
          injection ht2 with hc1 hc2
          subst hc1 hc2
          rcases hcase with ⟨h3', -⟩ | ⟨-, h4', -⟩ | ⟨-, -, hres, -, -⟩
          · exact absurd h3 h3'
          · exact absurd h4 h4'
          · exact hres
      · intro hf
        rcases hcase with ⟨-, hres, -⟩ | ⟨-, -, hres, -⟩ | ⟨-, -, -, -, hset⟩
        · rw [hres] at hf; cases hf
        · rw [hres] at hf; cases hf
        · exact ⟨getall_report_request curl (href_elements hrefs),
            env.curl_easy_perform (getall_report_request curl (href_elements hrefs)),
            by rw [htr]; simp, hRP curl _, by rw [hset]⟩
      · intro c t hm hr hc
        rcases hmem c t hm with ⟨-, ht1⟩ | ⟨-, ht1⟩
        · rw [ht1] at hc
          exact absurd h2 hc
        · subst ht1
          rcases hcase with ⟨h3', -⟩ | ⟨-, -, hres, hcode⟩ | ⟨-, h4, -⟩
          · exact absurd hr h3'
          · exact ⟨hres, hcode⟩
          · exact absurd h4 hc
      · intro c t hm
        rcases hmem c t hm with ⟨hc1, ht1⟩ | ⟨hc1, ht1⟩
        · rw [hc1, ht1]
        · rw [hc1, ht1]
  · intro curl hc hbad
    unfold carddav_getall carddav_dirlist
    unfold dirlist_propfind_request at hbad ⊢
    simp only [hc]
    by_cases h1 : (env.curl_easy_perform
        { url := curl.url, httpheader := xml_request_headers,
          postfields := some dirlist_request, customrequest := some "PROPFIND",
          writedata := none, writeheader := none }).res = 0
    · have h2 : (env.curl_easy_perform
          { url := curl.url, httpheader := xml_request_headers,
            postfields := some dirlist_request, customrequest := some "PROPFIND",
            writedata := none, writeheader := none }).code ≠ 207 := by
        rcases hbad with h | h
        · exact absurd h1 h
        · exact h
      simp only [h1, h2, ne_eq, not_true_eq_false, not_false_eq_true, if_true, if_false]
      exact ⟨_, rfl, rfl, rfl⟩
    · simp only [h1, ne_eq, not_false_eq_true, if_true]
      exact ⟨_, rfl, rfl, rfl⟩

/-- `strstr` returns the text from the first occurrence of the needle on. -/
theorem strstr_chars_first_at (needle : List Char) :
    ∀ (n : Nat) (hay : List Char), first_at needle hay n →
      strstr_chars hay needle = some (hay.drop n) := by
  intro n
  induction n with
  | zero =>
    intro hay h
    have hp : needle.isPrefixOf hay = true := h.2
    cases hay with
    | nil =>
      have : needle = [] := by
        cases needle with
        | nil => rfl
        | cons a l => simp [List.isPrefixOf] at hp
      simp [strstr_chars, this]
    | cons c hay => simp [strstr_chars, hp]
  | succ n ih =>
    intro hay h
    obtain ⟨h1, h2⟩ := h
    cases hay with
    | nil =>
      simp [List.tails] at h1 h2
      rw [h2] at h1
      simp at h1
    | cons c hay =>
      simp only [List.tails, List.take_succ_cons, List.all_cons, Bool.and_eq_true,
        Bool.not_eq_true'] at h1
      simp only [List.drop_succ_cons] at h2 ⊢
      simp only [strstr_chars, h1.1]
      exact ih hay ⟨h1.2, h2⟩

/-- `strstr` finds nothing when the needle does not occur. -/
theorem strstr_chars_absent (needle : List Char) :
    ∀ (hay : List Char), absent needle hay → strstr_chars hay needle = none := by
  intro hay
  induction hay with
  | nil =>
    intro h
    unfold absent at h
    simp [List.tails] at h
    cases needle with
    | nil => simp at h
    | cons a l => simp [strstr_chars]
  | cons c hay ih =>
    intro h
    unfold absent at h
    simp only [List.tails, List.all_cons, Bool.and_eq_true, Bool.not_eq_true'] at h
    simp only [strstr_chars, h.1]
    exact ih h.2

/-- `take_until` returns the text before the first occurrence of the needle. -/
theorem take_until_first_at (needle : List Char) :
    ∀ (n : Nat) (hay : List Char), first_at needle hay n →
      take_until needle hay = some (hay.take n) := by
  intro n
  induction n with
  | zero =>
    intro hay h
    have hp : needle.isPrefixOf hay = true := h.2
    cases hay with
    | nil =>
      have : needle = [] := by
        cases needle with
        | nil => rfl
        | cons a l => simp [List.isPrefixOf] at hp
      simp [take_until, this]
    | cons c hay => simp [take_until, hp]
  | succ n ih =>
    intro hay h
    obtain ⟨h1, h2⟩ := h
    cases hay with
    | nil =>
      simp [List.tails] at h1 h2
      rw [h2] at h1
      simp at h1
    | cons c hay =>
      simp only [List.tails, List.take_succ_cons, List.all_cons, Bool.and_eq_true,
        Bool.not_eq_true'] at h1
      simp only [List.drop_succ_cons] at h2
      simp only [take_until, h1.1, List.take_succ_cons]
      rw [ih hay ⟨h1.2, h2⟩]
      rfl

/-- `after_char` returns what follows the first occurrence of the character. -/
theorem after_char_append (c : Char) (rest : List Char) :
    ∀ (a : List Char), c ∉ a → after_char c (a ++ c :: rest) = some rest := by
  intro a
  induction a with
  | nil => intro _; simp [after_char]
  | cons x a ih =>
    intro h
    have hx : x ≠ c := fun e => h (by simp [e])
    have ha : c ∉ a := fun e => h (by simp [e])
    simp [after_char, hx, ih ha]

/-- The tag lookup returns the text of the element whose opening tag comes
first, when that text ends at the element's own closing tag. -/
theorem get_tag_chars_element (tag pre text rest : List Char) (hgt : '>' ∉ tag)
    (hopen : first_at ('<' :: tag)
      (pre ++ (('<' :: tag ++ ['>']) ++ (text ++ (('<' :: '/' :: tag ++ ['>']) ++ rest))))
      pre.length)
    (hclose : first_at ('<' :: '/' :: tag ++ ['>'])
      (text ++ (('<' :: '/' :: tag ++ ['>']) ++ rest)) text.length) :
    get_tag_chars tag
      (pre ++ (('<' :: tag ++ ['>']) ++ (text ++ (('<' :: '/' :: tag ++ ['>']) ++ rest))))
      = some text := by
  unfold get_tag_chars
  rw [strstr_chars_first_at _ _ _ hopen, List.drop_left]
  have ha : after_char '>'
      (('<' :: tag ++ ['>']) ++ (text ++ (('<' :: '/' :: tag ++ ['>']) ++ rest)))
      = some (text ++ (('<' :: '/' :: tag ++ ['>']) ++ rest)) := by
    have := after_char_append '>' (text ++ (('<' :: '/' :: tag ++ ['>']) ++ rest))
      ('<' :: tag) (by simp [hgt])
    simpa using this
  simp only [ha]
  rw [take_until_first_at _ _ _ hclose, List.take_left]

/-- The tag lookup finds nothing when no opening tag occurs. -/
theorem get_tag_chars_absent (tag text : List Char) (h : absent ('<' :: tag) text) :
    get_tag_chars tag text = none := by
  unfold get_tag_chars
  rw [strstr_chars_absent _ _ h]

/-- None of the three spellings contains the character that ends a tag. -/
theorem spellings_no_gt (tag : String) (htag : tag ∈ spellings) : '>' ∉ tag.data := by
  unfold spellings at htag
  simp only [List.mem_cons, List.mem_singleton, List.not_mem_nil, or_false] at htag
  rcases htag with h | h | h <;> subst h <;> decide

/-- The spec lookup of a spelling that is never opened finds nothing. -/
theorem get_tag_absent (tag pos : String) (h : absent ('<' :: tag.data) pos.data) :
    get_tag tag (some pos) = none := by
  unfold get_tag
  simp only [get_tag_chars_absent _ _ h, Option.map_none']

/-- The lookup of `carddav_dirlist` returns what the spec lookup of `tag` finds,
when the spellings tried before `tag` are never opened. -/
theorem href_lookup_spelled (env : Env) (henv : env.get_tag = get_tag) (tag pos h : String)
    (htag : tag ∈ spellings)
    (hearlier : ∀ t ∈ earlier_spellings tag, absent ('<' :: t.data) pos.data)
    (hget : get_tag tag (some pos) = some h) :
    href_lookup env (some pos) = some h := by
  unfold href_lookup ELEM_HREF
  rw [henv]
  unfold spellings at htag
  simp only [List.mem_cons, List.mem_singleton, List.not_mem_nil, or_false] at htag
  rcases htag with ht | ht | ht
  · subst ht
    simp only [hget]
  · subst ht
    have h1 : get_tag "href" (some pos) = none :=
      get_tag_absent _ _ (hearlier "href" (by decide))
    simp only [h1, hget]
  · subst ht
    have h1 : get_tag "href" (some pos) = none :=
      get_tag_absent _ _ (hearlier "href" (by decide))
    have h2 : get_tag "D:href" (some pos) = none :=
      get_tag_absent _ _ (hearlier "D:href" (by decide))
    simp only [h1, h2, hget]

/-- The lookup of `carddav_dirlist` finds nothing when none of the three
spellings is opened. -/
theorem href_lookup_none (env : Env) (henv : env.get_tag = get_tag) (pos : String)
    (h : ∀ t ∈ spellings, absent ('<' :: t.data) pos.data) :
    href_lookup env (some pos) = none := by
  unfold href_lookup ELEM_HREF
  rw [henv]
  have h1 : get_tag "href" (some pos) = none := get_tag_absent _ _ (h "href" (by decide))
  have h2 : get_tag "D:href" (some pos) = none := get_tag_absent _ _ (h "D:href" (by decide))
  have h3 : get_tag "d:href" (some pos) = none := get_tag_absent _ _ (h "d:href" (by decide))
  simp only [h1, h2, h3]

/-- One step of the scan through a listing spelled `tag`: the lookup finds the
text of the next element, and `strstr` moves the scan to that text. -/
theorem scan_step (env : Env) (henv : env.get_tag = get_tag) (tag : String)
    (htag : tag ∈ spellings) (pre : List Char) (gap text : String)
    (items : List (String × String)) (trailer : String)
    (h : scan_ok tag pre ((gap, text) :: items) trailer) :
    href_lookup env (some (String.mk (pre ++ listing_chars tag ((gap, text) :: items) trailer)))
      = some text ∧
    strstr (String.mk (pre ++ listing_chars tag ((gap, text) :: items) trailer)) text
      = some (String.mk ((text.data ++ close_tag tag) ++ listing_chars tag items trailer)) := by
  obtain ⟨hearlier, hopen, hclose, htext, -⟩ := h
  have hshape : pre ++ listing_chars tag ((gap, text) :: items) trailer =
      (pre ++ gap.data) ++ (('<' :: tag.data ++ ['>']) ++ (text.data ++
        (('<' :: '/' :: tag.data ++ ['>']) ++ listing_chars tag items trailer))) := by
    simp [listing_chars, open_tag, close_tag]
  have hshape' : pre ++ listing_chars tag ((gap, text) :: items) trailer =
      (pre ++ gap.data ++ open_tag tag) ++ (text.data ++
        (close_tag tag ++ listing_chars tag items trailer)) := by
    simp [listing_chars]
  constructor
  · refine href_lookup_spelled env henv tag _ text htag hearlier ?_
    unfold get_tag
    have hg : get_tag_chars tag.data
        (pre ++ listing_chars tag ((gap, text) :: items) trailer) = some text.data := by
      rw [hshape]
      refine get_tag_chars_element tag.data (pre ++ gap.data) text.data _
        (spellings_no_gt tag htag) ?_ ?_
      · rw [← hshape]
        exact hopen
      · exact hclose
    simp only [hg, Option.map_some']
  · unfold strstr
    simp only [strstr_chars_first_at _ _ _ htext]
    rw [hshape', List.drop_left]
    simp

/-- The scan of `carddav_dirlist` through a listing spelled `tag` lists the
texts of the elements ahead, once each and in document order, when it has one
unit of fuel more than there are elements. -/
theorem dirlist_scan_uniform (env : Env) (henv : env.get_tag = get_tag) (tag : String)
    (htag : tag ∈ spellings) (trailer : String) :
    ∀ (items : List (String × String)) (pre : List Char) (fuel : Nat),
      scan_ok tag pre items trailer → items.length < fuel →
      dirlist_scan env fuel (String.mk (pre ++ listing_chars tag items trailer))
        = Outcome.ok (items.map Prod.snd) := by
  intro items
  induction items with
  | nil =>
    intro pre fuel h hf
    cases fuel with
    | zero => cases hf
    | succ n =>
      unfold dirlist_scan
      have hl := href_lookup_none env henv (String.mk (pre ++ trailer.data)) h
      simp only [listing_chars, hl, List.map_nil]
  | cons item items ih =>
    intro pre fuel h hf
    obtain ⟨gap, text⟩ := item
    cases fuel with
    | zero => cases hf
    | succ n =>
      obtain ⟨hl, hs⟩ := scan_step env henv tag htag pre gap text items trailer h
      unfold dirlist_scan
      simp only [hl, hs]
      rw [ih (text.data ++ close_tag tag) n h.2.2.2.2
        (Nat.lt_of_succ_lt_succ hf)]
      rfl

/-- From the 207 body of a listing spelled `tag`, `carddav_dirlist` collects the
texts of the elements after the first, once each and in document order. -/
theorem collected_hrefs_uniform (env : Env) (henv : env.get_tag = get_tag) (tag : String)
    (htag : tag ∈ spellings) (gap text : String) (items : List (String × String))
    (trailer : String) (fuel : Nat)
    (h : scan_ok tag [] ((gap, text) :: items) trailer) (hf : items.length < fuel) :
    collected_hrefs env fuel (listing_body tag ((gap, text) :: items) trailer)
      = Outcome.ok (items.map Prod.snd) := by
  obtain ⟨hl, hs⟩ := scan_step env henv tag htag [] gap text items trailer h
  simp only [List.nil_append] at hl hs
  unfold collected_hrefs listing_body
  simp only [hl, hs]
  exact dirlist_scan_uniform env henv tag htag trailer items _ fuel h.2.2.2.2 hf

/-- When the PROPFIND is answered 207 with `body` and the scan of `body`
collects `hrefs`, `carddav_dirlist` returns the href elements of `hrefs`, with
the PROPFIND as only step and ErrorDetail and settings untouched. -/
theorem carddav_dirlist_of_collected (env : Env) (fuel : Nat) (settings : carddav_settings)
    (error : carddav_error) (curl : CURL) (body : String) (hrefs : List String)
    (hcurl : env.get_curl settings = some curl)
    (hres : (env.curl_easy_perform (dirlist_propfind_request curl)).res = 0)
    (hcode : (env.curl_easy_perform (dirlist_propfind_request curl)).code = 207)
    (hbody : (env.curl_easy_perform (dirlist_propfind_request curl)).chunk = some body)
    (hcol : collected_hrefs env fuel body = Outcome.ok hrefs) :
    carddav_dirlist env fuel settings error = Outcome.ok
      { all_href := some (href_elements hrefs), settings := settings, error := error,
        trace := [Event.perform (dirlist_propfind_request curl)
          (env.curl_easy_perform (dirlist_propfind_request curl))] } := by
  unfold carddav_dirlist
  unfold dirlist_propfind_request at hres hcode hbody ⊢
  unfold collected_hrefs at hcol
  simp only [hcurl, hres, hcode, hbody, g_strdup, ne_eq, not_true_eq_false, if_false]
  cases hl : href_lookup env (some body) with
  | none => rw [hl] at hcol; cases hcol
  | some href =>
    rw [hl] at hcol
    dsimp only at hcol ⊢
    cases hs : strstr body href with
    | none =>
      rw [hs] at hcol
      injection hcol with hcol
      subst hcol
      rfl
    | some pos =>
      rw [hs] at hcol
      dsimp only at hcol ⊢
      rw [dirlist_loop_eq_scan, hcol]
      simp

/-- C15 on the demo server: a listing and a multiget that both answer 207 give
success with the REPORT body as payload, and a PROPFIND answered 200 gives a
failure with the PROPFIND as only step. -/
theorem C15_getall_needs_two_207_witness :
    (∃ r, carddav_getall (listing_env demo_listing) 3 demo_settings demo_error = Outcome.ok r ∧
      (r.result = false ↔
        ∃ cp tp c t, r.trace = [Event.perform cp tp, Event.perform c t] ∧
          cp.customrequest = some "PROPFIND" ∧ c.customrequest = some "REPORT" ∧
          tp.res = 0 ∧ tp.code = 207 ∧ t.res = 0 ∧ t.code = 207) ∧
      r.result = false ∧ r.settings.file = some demo_listing) ∧
    (∃ r, carddav_getall demo_env_listing_200 3 demo_settings demo_error = Outcome.ok r ∧
      r.result = true ∧
      r.trace = [Event.perform (dirlist_propfind_request demo_curl)
        (demo_env_listing_200.curl_easy_perform (dirlist_propfind_request demo_curl))]) :=
  ⟨⟨_, rfl, ((C15_getall_needs_two_207 (listing_env demo_listing) 3 demo_settings
      demo_error).1 _ rfl).2.1, rfl, rfl⟩,
   (C15_getall_needs_two_207 demo_env_listing_200 3 demo_settings demo_error).2 demo_curl
      rfl (Or.inr (by decide))⟩

/-- The href elements of a sequence are the elements of its values, one per
value, joined in the order of the sequence. -/
theorem href_elements_eq_foldr (hrefs : List String) :
    href_elements hrefs =
      (hrefs.map (fun href => " <D:href>" ++ href ++ "</D:href>\r\n")).foldr
        (fun element rest => element ++ rest) "" := by
  induction hrefs with
  | nil => rfl
  | cons href hrefs ih =>
    simp only [href_elements, href_element, List.map_cons, List.foldr_cons, ih]

/-- C17. The multiget REPORT `carddav_getall` sends carries, for the sequence of
href values collected from the listing (of any length, zero included), the body
of `build_multiget_request`: the fixed addressbook-multiget header, then one
element ` <D:href>h</D:href>` with its line end per collected value `h`, in
collection order and with repeated values kept, then the fixed footer and a
line end. Conversely, whenever the listing is answered 207 and the scan collects
a sequence, the call returns having sent the REPORT with that body. -/
theorem C17_multiget_body (env : Env) (fuel : Nat) (settings : carddav_settings)
    (error : carddav_error) :
    (∀ r c t, carddav_getall env fuel settings error = Outcome.ok r →
      Event.perform c t ∈ r.trace → c.customrequest = some "REPORT" →
      ∃ curl report hrefs, env.get_curl settings = some curl ∧
        (env.curl_easy_perform (dirlist_propfind_request curl)).chunk = some report ∧
        collected_hrefs env fuel report = Outcome.ok hrefs ∧
        c.postfields = some (build_multiget_request hrefs)) ∧
    (∀ curl report hrefs, env.get_curl settings = some curl →
      (env.curl_easy_perform (dirlist_propfind_request curl)).res = 0 →
      (env.curl_easy_perform (dirlist_propfind_request curl)).code = 207 →
      (env.curl_easy_perform (dirlist_propfind_request curl)).chunk = some report →
      collected_hrefs env fuel report = Outcome.ok hrefs →
      ∃ r c t, carddav_getall env fuel settings error = Outcome.ok r ∧
        Event.perform c t ∈ r.trace ∧ c.customrequest = some "REPORT" ∧
        c.postfields = some (build_multiget_request hrefs)) ∧
    (∀ hrefs, build_multiget_request hrefs =
      getall_request_header ++
        (hrefs.map (fun href => " <D:href>" ++ href ++ "</D:href>\r\n")).foldr
          (fun element rest => element ++ rest) "" ++
        getall_request_footer ++ "\r\n") := by
  refine ⟨?_, ?_, ?_⟩
  · intro r c t h hm hc
    rcases carddav_getall_cases env fuel settings error r h with
      ⟨-, -, htr⟩ | ⟨curl, hcurl, ⟨htr, -, -⟩ | ⟨-, -, report, hrefs, hb, hcol, htr, -⟩⟩
    · rw [htr] at hm; cases hm
    · rw [htr] at hm
      rcases List.mem_singleton.1 hm with hm
      injection hm with hm1 hm2
      rw [hm1] at hc
      exact absurd (show some "PROPFIND" = some "REPORT" from hc) (by decide)
    · refine ⟨curl, report, hrefs, hcurl, hb, hcol, ?_⟩
      rw [htr] at hm
      rcases List.mem_cons.1 hm with hm | hm
      · injection hm with hm1 hm2
        rw [hm1] at hc
        exact absurd (show some "PROPFIND" = some "REPORT" from hc) (by decide)
      · rcases List.mem_singleton.1 hm with hm
        injection hm with hm1 hm2
        rw [hm1]
        rfl
  · intro curl report hrefs hcurl hres hcode hbody hcol
    have hd := carddav_dirlist_of_collected env fuel settings error curl report hrefs hcurl
      hres hcode hbody hcol
    have hg : ∃ r, carddav_getall env fuel settings error = Outcome.ok r ∧
        Event.perform (getall_report_request curl (href_elements hrefs))
          (env.curl_easy_perform (getall_report_request curl (href_elements hrefs)))
          ∈ r.trace := by
      unfold carddav_getall
      unfold getall_report_request
      simp only [hd, hcurl]
      split_ifs
      · exact ⟨_, rfl, by simp⟩
      · exact ⟨_, rfl, by simp⟩
      · exact ⟨_, rfl, by simp⟩
    obtain ⟨r, hr, hm⟩ := hg
    exact ⟨r, _, _, hr, hm, rfl, rfl⟩
  · intro hrefs
    unfold build_multiget_request
    rw [href_elements_eq_foldr]

/-- C17 on the demo server: for the demo listing the two collected values give
two elements in order, and for a listing with the collection alone the body
holds no element. -/
theorem C17_multiget_body_witness :
    (∃ r c t, carddav_getall (listing_env demo_listing) 3 demo_settings demo_error
        = Outcome.ok r ∧
      Event.perform c t ∈ r.trace ∧ c.customrequest = some "REPORT" ∧
      c.postfields = some (build_multiget_request ["/book/1.vcf", "/book/2.vcf"])) ∧
    (∃ r c t, carddav_getall (listing_env "<href>/book/</href>") 3 demo_settings demo_error
        = Outcome.ok r ∧
      Event.perform c t ∈ r.trace ∧ c.customrequest = some "REPORT" ∧
      c.postfields = some (build_multiget_request [])) :=
  ⟨(C17_multiget_body (listing_env demo_listing) 3 demo_settings demo_error).2.1
      demo_curl demo_listing ["/book/1.vcf", "/book/2.vcf"] rfl rfl rfl rfl rfl,
   (C17_multiget_body (listing_env "<href>/book/</href>") 3 demo_settings demo_error).2.1
      demo_curl "<href>/book/</href>" [] rfl rfl rfl rfl rfl⟩

/-- C18 as stated fails. From the demo listing, whose three href elements are
all spelled `href`, `carddav_dirlist` collects the second and third only: the
first, `/book/`, is in the body and not in the listing. From a listing in mixed
spelling it collects nothing at all, the unprefixed third element being looked
up first. -/
theorem C18_counterexample :
    get_tag "href" (some demo_listing) = some "/book/" ∧
    collected_hrefs (listing_env demo_listing) 3 demo_listing
      = Outcome.ok ["/book/1.vcf", "/book/2.vcf"] ∧
    (∃ d, carddav_dirlist (listing_env demo_listing) 3 demo_settings demo_error
        = Outcome.ok d ∧
      d.all_href = some " <D:href>/book/1.vcf</D:href>\r\n <D:href>/book/2.vcf</D:href>\r\n") ∧
    collected_hrefs (listing_env demo_mixed_listing) 3 demo_mixed_listing = Outcome.ok [] ∧
    (∃ d, carddav_dirlist (listing_env demo_mixed_listing) 3 demo_settings demo_error
        = Outcome.ok d ∧ d.all_href = some "") :=
  ⟨rfl, rfl, ⟨_, rfl, rfl⟩, rfl, ⟨_, rfl, rfl⟩⟩

/-- C18, amended. For every 207 PROPFIND body whose href elements all use one
of the spellings `href`, `D:href`, `d:href` and through which the scan finds its
way (`scan_ok`: opening tags, closing tags and element texts first occur where
their own element has them), `carddav_dirlist`, given one unit of fuel per
element, returns, and collects every href element after the first, exactly once
each and in document order; the first element only positions the scan. -/
theorem C18_uniform_listing_collected (env : Env) (fuel : Nat) (settings : carddav_settings)
    (error : carddav_error) (tag gap text : String) (items : List (String × String))
    (trailer : String)
    (htag : tag ∈ spellings)
    (hbody : answers_listing env settings (listing_body tag ((gap, text) :: items) trailer))
    (hscan : scan_ok tag [] ((gap, text) :: items) trailer)
    (hfuel : items.length < fuel) :
    collected_hrefs env fuel (listing_body tag ((gap, text) :: items) trailer)
      = Outcome.ok (items.map Prod.snd) ∧
    ∃ d, carddav_dirlist env fuel settings error = Outcome.ok d ∧
      d.all_href = some (href_elements (items.map Prod.snd)) := by
  obtain ⟨henv, curl, hcurl, hres, hcode, hchunk⟩ := hbody
  have hcol := collected_hrefs_uniform env henv tag htag gap text items trailer fuel hscan
    hfuel
  exact ⟨hcol, _, carddav_dirlist_of_collected env fuel settings error curl _ _ hcurl hres
    hcode hchunk hcol, rfl⟩

/-- C18 amended, on the demo listing: the two cards after the collection are
collected, in order. -/
theorem C18_uniform_listing_collected_witness :
    collected_hrefs (listing_env demo_listing) 3 demo_listing
      = Outcome.ok ["/book/1.vcf", "/book/2.vcf"] ∧
    ∃ d, carddav_dirlist (listing_env demo_listing) 3 demo_settings demo_error
        = Outcome.ok d ∧
      d.all_href = some (href_elements ["/book/1.vcf", "/book/2.vcf"]) :=
  C18_uniform_listing_collected (listing_env demo_listing) 3 demo_settings demo_error
    "href" "<multistatus><response>" "/book/"
    [("</response><response>", "/book/1.vcf"), ("</response><response>", "/book/2.vcf")]
    "</response></multistatus>" (by decide) ⟨rfl, demo_curl, rfl, rfl, rfl, rfl⟩
    (by decide) (by decide)

/-- A scan that stands where the lookup finds a text the scan text begins with
never moves on: it runs out of every amount of fuel. -/
theorem dirlist_scan_stuck (env : Env) (pos href : String)
    (hl : href_lookup env (some pos) = some href) (hs : strstr pos href = some pos) :
    ∀ fuel, dirlist_scan env fuel pos = Outcome.timeout := by
  intro fuel
  induction fuel with
  | zero => rfl
  | succ n ih =>
    unfold dirlist_scan
    simp only [hl, hs, ih]

/-- When the PROPFIND is answered 207 with `body` and the scan of `body` runs
out of fuel, so does `carddav_dirlist`. -/
theorem carddav_dirlist_of_timeout (env : Env) (fuel : Nat) (settings : carddav_settings)
    (error : carddav_error) (curl : CURL) (body : String)
    (hcurl : env.get_curl settings = some curl)
    (hres : (env.curl_easy_perform (dirlist_propfind_request curl)).res = 0)
    (hcode : (env.curl_easy_perform (dirlist_propfind_request curl)).code = 207)
    (hbody : (env.curl_easy_perform (dirlist_propfind_request curl)).chunk = some body)
    (hcol : collected_hrefs env fuel body = Outcome.timeout) :
    carddav_dirlist env fuel settings error = Outcome.timeout := by
  unfold carddav_dirlist
  unfold dirlist_propfind_request at hres hcode hbody
  unfold collected_hrefs at hcol
  simp only [hcurl, hres, hcode, hbody, g_strdup, ne_eq, not_true_eq_false, if_false]
  cases hl : href_lookup env (some body) with
  | none => rw [hl] at hcol; cases hcol
  | some href =>
    rw [hl] at hcol
    dsimp only at hcol ⊢
    cases hs : strstr body href with
    | none => rw [hs] at hcol; cases hcol
    | some pos =>
      rw [hs] at hcol
      dsimp only at hcol ⊢
      rw [dirlist_loop_eq_scan, hcol]

/-- C19 as the code has it. Take the three bodies with the elements `/x` and
`d`, spelled `href`, `D:href` and `d:href`. With the first two spellings
`carddav_dirlist` returns the listing of `d`. With the third, the text `d` first
occurs in the closing tag `</d:href>` of the first element: `strstr (pos, href)`
gives the position the scan already stands at, the scan settles there, and
`carddav_dirlist` returns for no amount of fuel.  The three bodies do not give
the identical listing. -/
theorem C19_d_spelling_never_returns :
    collected_hrefs (listing_env (listing_body "href" demo_short_items "")) 3
      (listing_body "href" demo_short_items "") = Outcome.ok ["d"] ∧
    collected_hrefs (listing_env (listing_body "D:href" demo_short_items "")) 3
      (listing_body "D:href" demo_short_items "") = Outcome.ok ["d"] ∧
    (∃ d, carddav_dirlist (listing_env (listing_body "href" demo_short_items "")) 3
        demo_settings demo_error = Outcome.ok d ∧
      d.all_href = some " <D:href>d</D:href>\r\n") ∧
    (∀ fuel, collected_hrefs (listing_env (listing_body "d:href" demo_short_items "")) fuel
      (listing_body "d:href" demo_short_items "") = Outcome.timeout) ∧
    (∀ fuel, carddav_dirlist (listing_env (listing_body "d:href" demo_short_items "")) fuel
      demo_settings demo_error = Outcome.timeout) := by
  have hstuck : ∀ fuel,
      collected_hrefs (listing_env (listing_body "d:href" demo_short_items "")) fuel
        (listing_body "d:href" demo_short_items "") = Outcome.timeout := by
    intro fuel
    have h1 : href_lookup (listing_env (listing_body "d:href" demo_short_items ""))
        (some (listing_body "d:href" demo_short_items "")) = some "/x" := rfl
    have h2 : strstr (listing_body "d:href" demo_short_items "") "/x"
        = some "/x</d:href><d:href>d</d:href>" := rfl
    have h3 : href_lookup (listing_env (listing_body "d:href" demo_short_items ""))
        (some "/x</d:href><d:href>d</d:href>") = some "d" := rfl
    have h4 : strstr "/x</d:href><d:href>d</d:href>" "d"
        = some "d:href><d:href>d</d:href>" := rfl
    have h5 : href_lookup (listing_env (listing_body "d:href" demo_short_items ""))
        (some "d:href><d:href>d</d:href>") = some "d" := rfl
    have h6 : strstr "d:href><d:href>d</d:href>" "d" = some "d:href><d:href>d</d:href>" := rfl
    unfold collected_hrefs
    simp only [h1, h2]
    cases fuel with
    | zero => rfl
    | succ n =>
      unfold dirlist_scan
      simp only [h3, h4, dirlist_scan_stuck _ _ _ h5 h6 n]
  refine ⟨rfl, rfl, ⟨_, rfl, rfl⟩, hstuck, ?_⟩
  intro fuel
  exact carddav_dirlist_of_timeout _ fuel demo_settings demo_error demo_curl
    (listing_body "d:href" demo_short_items "") rfl rfl rfl rfl (hstuck fuel)

/-- Where the scan advances, the spellings agree.  For any three 207 listing
bodies that are identical except that every href element is spelled `href`,
`D:href` or `d:href` respectively, and through each of which the scan finds
its way (`scan_ok`: no spelling tried
earlier is opened, and opening tags, closing tags and element texts first occur
where their own element has them), the lookup of `carddav_dirlist` (unprefixed
first, then `D:`, then `d:`, first match wins) extracts the same values and
`carddav_dirlist`, given one unit of fuel per element, returns the identical
listing for all three. -/
theorem spellings_agree_when_scan_advances (env1 env2 env3 : Env) (fuel : Nat)
    (settings : carddav_settings) (error : carddav_error) (gap text : String)
    (items : List (String × String)) (trailer : String)
    (h1 : answers_listing env1 settings (listing_body "href" ((gap, text) :: items) trailer))
    (h2 : answers_listing env2 settings (listing_body "D:href" ((gap, text) :: items) trailer))
    (h3 : answers_listing env3 settings (listing_body "d:href" ((gap, text) :: items) trailer))
    (s1 : scan_ok "href" [] ((gap, text) :: items) trailer)
    (s2 : scan_ok "D:href" [] ((gap, text) :: items) trailer)
    (s3 : scan_ok "d:href" [] ((gap, text) :: items) trailer)
    (hfuel : items.length < fuel) :
    (href_lookup env1 (some (listing_body "href" ((gap, text) :: items) trailer)) = some text ∧
      href_lookup env2 (some (listing_body "D:href" ((gap, text) :: items) trailer))
        = some text ∧
      href_lookup env3 (some (listing_body "d:href" ((gap, text) :: items) trailer))
        = some text) ∧
    (collected_hrefs env1 fuel (listing_body "href" ((gap, text) :: items) trailer)
        = Outcome.ok (items.map Prod.snd) ∧
      collected_hrefs env2 fuel (listing_body "D:href" ((gap, text) :: items) trailer)
        = Outcome.ok (items.map Prod.snd) ∧
      collected_hrefs env3 fuel (listing_body "d:href" ((gap, text) :: items) trailer)
        = Outcome.ok (items.map Prod.snd)) ∧
    ∃ d1 d2 d3, carddav_dirlist env1 fuel settings error = Outcome.ok d1 ∧
      carddav_dirlist env2 fuel settings error = Outcome.ok d2 ∧
      carddav_dirlist env3 fuel settings error = Outcome.ok d3 ∧
      d1.all_href = d2.all_href ∧ d2.all_href = d3.all_href := by
  obtain ⟨e1, c1, hc1, hr1, hk1, hb1⟩ := h1
  obtain ⟨e2, c2, hc2, hr2, hk2, hb2⟩ := h2
  obtain ⟨e3, c3, hc3, hr3, hk3, hb3⟩ := h3
  have t1 : "href" ∈ spellings := by decide
  have t2 : "D:href" ∈ spellings := by decide
  have t3 : "d:href" ∈ spellings := by decide
  have l1 := (scan_step env1 e1 "href" t1 [] gap text items trailer s1).1
  have l2 := (scan_step env2 e2 "D:href" t2 [] gap text items trailer s2).1
  have l3 := (scan_step env3 e3 "d:href" t3 [] gap text items trailer s3).1
  simp only [List.nil_append] at l1 l2 l3
  have k1 := collected_hrefs_uniform env1 e1 "href" t1 gap text items trailer fuel s1 hfuel
  have k2 := collected_hrefs_uniform env2 e2 "D:href" t2 gap text items trailer fuel s2 hfuel
  have k3 := collected_hrefs_uniform env3 e3 "d:href" t3 gap text items trailer fuel s3 hfuel
  exact ⟨⟨l1, l2, l3⟩, ⟨k1, k2, k3⟩, _, _, _,
    carddav_dirlist_of_collected env1 fuel settings error c1 _ _ hc1 hr1 hk1 hb1 k1,
    carddav_dirlist_of_collected env2 fuel settings error c2 _ _ hc2 hr2 hk2 hb2 k2,
    carddav_dirlist_of_collected env3 fuel settings error c3 _ _ hc3 hr3 hk3 hb3 k3,
    rfl, rfl⟩

/-- The demo listing in its three spellings gives one and the same listing. -/
theorem spellings_agree_on_demo_listing :
    ∃ d1 d2 d3,
      carddav_dirlist (listing_env (listing_body "href" demo_items "</response></multistatus>"))
        3 demo_settings demo_error = Outcome.ok d1 ∧
      carddav_dirlist
        (listing_env (listing_body "D:href" demo_items "</response></multistatus>"))
        3 demo_settings demo_error = Outcome.ok d2 ∧
      carddav_dirlist
        (listing_env (listing_body "d:href" demo_items "</response></multistatus>"))
        3 demo_settings demo_error = Outcome.ok d3 ∧
      d1.all_href = d2.all_href ∧ d2.all_href = d3.all_href :=
  (spellings_agree_when_scan_advances
    (listing_env (listing_body "href" demo_items "</response></multistatus>"))
    (listing_env (listing_body "D:href" demo_items "</response></multistatus>"))
    (listing_env (listing_body "d:href" demo_items "</response></multistatus>"))
    3 demo_settings demo_error "<multistatus><response>" "/book/"
    [("</response><response>", "/book/1.vcf"), ("</response><response>", "/book/2.vcf")]
    "</response></multistatus>"
    ⟨rfl, demo_curl, rfl, rfl, rfl, rfl⟩ ⟨rfl, demo_curl, rfl, rfl, rfl, rfl⟩
    ⟨rfl, demo_curl, rfl, rfl, rfl, rfl⟩ (by decide) (by decide) (by decide)
    (by decide)).2.2

/-- The PUT phase keeps the steps made before it. -/
theorem modify_put_keeps_trace (env : Env) (settings : carddav_settings)
    (error : carddav_error) (curl : CURL) (url : String) (hdr : List String)
    (LOCKSUPPORT : Bool) (lock_token : Option String) (lock : Int)
    (lock_error : carddav_error) (res : Nat)
    (code last_code : Int) (chunk headers : Option String) (trace : List Event)
    (r : CallResult)
    (hr : modify_put env settings error curl url hdr LOCKSUPPORT lock_token lock lock_error
          res code last_code chunk headers trace = Outcome.ok r) :
    ∀ e ∈ trace, e ∈ r.trace := by
  intro e he
  unfold modify_put at hr
  split_ifs at hr with hcond
  · cases hf : settings.file with
    | none => simp only [hf] at hr; cases hr
    | some card =>
      simp only [hf] at hr
      injection hr with hr
      subst hr
      rw [modify_verdict_trace]
      exact List.mem_append_left _ he
  · injection hr with hr
    subst hr
    rw [modify_verdict_trace]
    exact he

/-- The lock phase keeps the steps made before it. -/
theorem modify_lock_keeps_trace (env : Env) (settings : carddav_settings)
    (error : carddav_error) (curl : CURL) (url : String) (hdr : List String) (res : Nat)
    (code last_code : Int) (chunk headers : Option String) (trace : List Event)
    (r : CallResult)
    (hr : modify_lock env settings error curl url hdr res code last_code chunk headers trace
        = Outcome.ok r) :
    ∀ e ∈ trace, e ∈ r.trace := by
  obtain ⟨ls, tok, lock, le, steps, heq, -, -⟩ :=
    modify_lock_cases env settings error curl url hdr res code last_code chunk headers trace
  rw [heq] at hr
  intro e he
  exact modify_put_keeps_trace env settings error curl url _ ls tok lock le res code
    last_code chunk headers (trace ++ steps) r hr e (List.mem_append_left _ he)

/-- With a card text present `carddav_modify` returns. -/
theorem carddav_modify_returns_with_card (env : Env) (settings : carddav_settings) (error : carddav_error)
    (card : String) (hfile : settings.file = some card) :
    ∃ r, carddav_modify env settings error = Outcome.ok r ∧ r.settings.url = settings.url := by
  have hk : ∀ q : CallResult, q.settings.url = settings.url →
      ∃ r, Outcome.ok q = Outcome.ok r ∧ r.settings.url = settings.url :=
    fun q h => ⟨q, rfl, h⟩
  unfold carddav_modify
  cases hc : env.get_curl settings with
  | none => exact hk _ rfl
  | some curl =>
    cases hu : env.get_response_header "uid" (g_strdup settings.file) false with
    | none => exact hk _ rfl
    | some uid =>
      dsimp only
      split_ifs with hres hcode
      · exact hk _ rfl
      · exact hk _ rfl
      · cases hh : env.get_url (env.curl_easy_perform (modify_report_request curl uid)).chunk with
        | none => exact hk _ rfl
        | some href =>
          cases he : env.get_etag
              (env.curl_easy_perform (modify_report_request curl uid)).chunk with
          | none => exact hk _ rfl
          | some etag =>
            cases hho : env.get_host settings.url with
            | none => exact hk _ rfl
            | some host =>
              dsimp only
              obtain ⟨ls, tok, lock, le, steps, heq, -, -⟩ :=
                modify_lock_cases env settings error (modify_report_request curl uid)
                  (host ++ href) (modify_put_headers etag) 0
                  (env.curl_easy_perform (modify_report_request curl uid)).code
                  (env.curl_easy_perform (modify_report_request curl uid)).code
                  (env.curl_easy_perform (modify_report_request curl uid)).chunk
                  (env.curl_easy_perform (modify_report_request curl uid)).headers
                  [Event.perform (modify_report_request curl uid)
                    (env.curl_easy_perform (modify_report_request curl uid))]
              rw [heq]
              unfold modify_put modify_verdict
              simp only [hfile]
              split_ifs <;> exact hk _ rfl

/-- C20. For every UID string `u` extracted from the card, the discovery REPORT
`carddav_modify` sends has as body exactly `search_head`, then the opening
`C:text-match` tag with collation `i;unicode-casemap`, negate-condition `no` and
match-type `exact`, then `u` verbatim, character for character whatever it
holds, then `</C:text-match>`, then `search_tail`; `search_head` ends in the
`anyof` filter and the prop-filter on name "UID", which `search_tail` closes.
Every REPORT among the steps of `carddav_modify` is that request, and with a
card text present the call returns with that REPORT among its steps. -/
theorem C20_uid_query_verbatim (env : Env) (settings : carddav_settings)
    (error : carddav_error) :
    (∀ r c t, carddav_modify env settings error = Outcome.ok r →
      Event.perform c t ∈ r.trace → c.customrequest = some "REPORT" →
      ∃ u, env.get_response_header "uid" (g_strdup settings.file) false = some u ∧
        c.postfields = some (search_head ++
          "<C:text-match collation=\"i;unicode-casemap\" negate-condition=\"no\" match-type=\"exact\">"
          ++ u ++ "</C:text-match>" ++ search_tail)) ∧
    (∀ curl u card, env.get_curl settings = some curl →
      env.get_response_header "uid" (g_strdup settings.file) false = some u →
      settings.file = some card →
      ∃ r c t, carddav_modify env settings error = Outcome.ok r ∧
        Event.perform c t ∈ r.trace ∧ c.customrequest = some "REPORT" ∧
        c.postfields = some (search_head ++
          "<C:text-match collation=\"i;unicode-casemap\" negate-condition=\"no\" match-type=\"exact\">"
          ++ u ++ "</C:text-match>" ++ search_tail) ∧
        ∀ body, c.postfields = some body →
          body.data = (search_head ++
            "<C:text-match collation=\"i;unicode-casemap\" negate-condition=\"no\" match-type=\"exact\">").data
            ++ u.data ++ ("</C:text-match>" ++ search_tail).data) ∧
    (∃ before, search_head =
      before ++ " <C:filter test=\"anyof\">" ++ "    <C:prop-filter name=\"UID\">") ∧
    (∃ after, search_tail = "    </C:prop-filter>" ++ " </C:filter>" ++ after) := by
  refine ⟨?_, ?_, ⟨_, rfl⟩, ⟨_, rfl⟩⟩
  · intro r c t hr hm hc
    have hnone : ∀ (q : CallResult), Outcome.ok q = Outcome.ok r → q.trace = [] → False := by
      intro q hq hq'
      injection hq with hq
      subst hq
      rw [hq'] at hm
      cases hm
    have hone : ∀ (q : CallResult) (curl : CURL) (u : String),
        Outcome.ok q = Outcome.ok r →
        q.trace = [Event.perform (modify_report_request curl u)
          (env.curl_easy_perform (modify_report_request curl u))] →
        c = modify_report_request curl u := by
      intro q curl u hq hq'
      injection hq with hq
      subst hq
      rw [hq'] at hm
      rcases List.mem_singleton.1 hm with hm
      injection hm with hm1 hm2
    unfold carddav_modify at hr
    cases hcu : env.get_curl settings with
    | none => rw [hcu] at hr; exact (hnone _ hr rfl).elim
    | some curl =>
      rw [hcu] at hr
      cases hu : env.get_response_header "uid" (g_strdup settings.file) false with
      | none => rw [hu] at hr; exact (hnone _ hr rfl).elim
      | some u =>
        rw [hu] at hr
        refine ⟨u, rfl, ?_⟩
        have hgoal : c = modify_report_request curl u := by
          dsimp only at hr
          split_ifs at hr with h1 h2
          · exact hone _ curl u hr rfl
          · exact hone _ curl u hr rfl
          · cases hh : env.get_url
                (env.curl_easy_perform (modify_report_request curl u)).chunk with
            | none => rw [hh] at hr; exact hone _ curl u hr rfl
            | some href =>
              rw [hh] at hr
              cases he : env.get_etag
                  (env.curl_easy_perform (modify_report_request curl u)).chunk with
              | none => rw [he] at hr; exact hone _ curl u hr rfl
              | some etag =>
                rw [he] at hr
                cases hho : env.get_host settings.url with
                | none => rw [hho] at hr; exact hone _ curl u hr rfl
                | some host =>
                  rw [hho] at hr
                  dsimp only at hr
                  obtain ⟨ls, tok, lock, le, steps, heq, hsteps, -⟩ :=
                    modify_lock_cases env settings error (modify_report_request curl u)
                      (host ++ href) (modify_put_headers etag) 0
                      (env.curl_easy_perform (modify_report_request curl u)).code
                      (env.curl_easy_perform (modify_report_request curl u)).code
                      (env.curl_easy_perform (modify_report_request curl u)).chunk
                      (env.curl_easy_perform (modify_report_request curl u)).headers
                      [Event.perform (modify_report_request curl u)
                        (env.curl_easy_perform (modify_report_request curl u))]
                  rw [heq] at hr
                  unfold modify_put at hr
                  split_ifs at hr with hcond
                  · cases hf : settings.file with
                    | none => simp only [hf] at hr; cases hr
                    | some card =>
                      simp only [hf] at hr
                      injection hr with hr
                      subst hr
                      rw [modify_verdict_trace] at hm
                      rcases List.mem_append.1 hm with hm | hm
                      · rcases List.mem_append.1 hm with hm | hm
                        · rcases List.mem_singleton.1 hm with hm
                          injection hm with hm1 hm2
                        · exact absurd hm (hsteps c t)
                      · rcases List.mem_cons.1 hm with hm | hm
                        · injection hm with hm1 hm2
                          rw [hm1] at hc
                          exact absurd (show some "PUT" = some "REPORT" from hc) (by decide)
                        · exact absurd hm (release_lock_no_perform _ _ _ _ _ _ c t)
                  · injection hr with hr
                    subst hr
                    rw [modify_verdict_trace] at hm
                    rcases List.mem_append.1 hm with hm | hm
                    · rcases List.mem_singleton.1 hm with hm
                      injection hm with hm1 hm2
                    · exact absurd hm (hsteps c t)
        rw [hgoal]
        rfl
  · intro curl u card hcu hu hfile
    obtain ⟨r, hr, -⟩ := (carddav_modify_returns_with_card env settings error card hfile)
    refine ⟨r, modify_report_request curl u,
      env.curl_easy_perform (modify_report_request curl u), hr, ?_, rfl, rfl, ?_⟩
    · unfold carddav_modify at hr
      rw [hcu, hu] at hr
      dsimp only at hr
      have hin : ∀ (q : CallResult), Outcome.ok q = Outcome.ok r →
          q.trace = [Event.perform (modify_report_request curl u)
            (env.curl_easy_perform (modify_report_request curl u))] →
          Event.perform (modify_report_request curl u)
            (env.curl_easy_perform (modify_report_request curl u)) ∈ r.trace := by
        intro q hq hq'
        injection hq with hq
        subst hq
        rw [hq']
        exact List.mem_singleton.2 rfl
      split_ifs at hr with h1 h2
      · exact hin _ hr rfl
      · exact hin _ hr rfl
      · cases hh : env.get_url
            (env.curl_easy_perform (modify_report_request curl u)).chunk with
        | none => rw [hh] at hr; exact hin _ hr rfl
        | some href =>
          rw [hh] at hr
          cases he : env.get_etag
              (env.curl_easy_perform (modify_report_request curl u)).chunk with
          | none => rw [he] at hr; exact hin _ hr rfl
          | some etag =>
            rw [he] at hr
            cases hho : env.get_host settings.url with
            | none => rw [hho] at hr; exact hin _ hr rfl
            | some host =>
              rw [hho] at hr
              dsimp only at hr
              exact modify_lock_keeps_trace env settings error _ _ _ _ _ _ _ _ _ r hr _
                (List.mem_singleton.2 rfl)
    · intro body hb
      have hb' : body = search_head ++
          "<C:text-match collation=\"i;unicode-casemap\" negate-condition=\"no\" match-type=\"exact\">"
          ++ u ++ "</C:text-match>" ++ search_tail := by
        have : (modify_report_request curl u).postfields = some (search_head ++
          "<C:text-match collation=\"i;unicode-casemap\" negate-condition=\"no\" match-type=\"exact\">"
          ++ u ++ "</C:text-match>" ++ search_tail) := rfl
        rw [this] at hb
        injection hb with hb
        exact hb.symm
      rw [hb']
      simp only [String.data_append, List.append_assoc]

/-- C20 on a card whose UID holds markup characters: the REPORT of the MODIFY
carries the UID between the `C:text-match` tags unchanged. -/
theorem C20_uid_query_verbatim_witness :
    ∃ r c t, carddav_modify demo_env_markup_uid demo_settings demo_error = Outcome.ok r ∧
      Event.perform c t ∈ r.trace ∧ c.customrequest = some "REPORT" ∧
      c.postfields = some (search_head ++
        "<C:text-match collation=\"i;unicode-casemap\" negate-condition=\"no\" match-type=\"exact\">"
        ++ "a<b>&\"c\"" ++ "</C:text-match>" ++ search_tail) := by
  obtain ⟨r, c, t, h1, h2, h3, h4, -⟩ :=
    (C20_uid_query_verbatim demo_env_markup_uid demo_settings demo_error).2.1
      demo_curl "a<b>&\"c\"" demo_card rfl rfl rfl
  exact ⟨r, c, t, h1, h2, h3, h4⟩

/-- The verdict reads the entry ErrorDetail on success only. -/
theorem modify_verdict_reenter (settings : carddav_settings) (e e' : carddav_error)
    (res : Nat) (lock : Int) (lock_error : carddav_error) (code last_code : Int)
    (chunk : Option String) (trace : List Event) :
    modify_verdict settings e' res lock lock_error code last_code chunk trace =
      reenter e' (modify_verdict settings e res lock lock_error code last_code chunk trace) := by
  unfold modify_verdict
  split_ifs <;> simp [reenter]

/-- The PUT phase reads the entry ErrorDetail on success only. -/
theorem modify_put_reenter (env : Env) (settings : carddav_settings)
    (e e' : carddav_error) (curl : CURL) (url : String) (hdr : List String)
    (LOCKSUPPORT : Bool) (lock_token : Option String) (lock : Int)
    (lock_error : carddav_error) (res : Nat)
    (code last_code : Int) (chunk headers : Option String) (trace : List Event) :
    modify_put env settings e' curl url hdr LOCKSUPPORT lock_token lock lock_error
        res code last_code chunk headers trace =
      Outcome.map (reenter e')
        (modify_put env settings e curl url hdr LOCKSUPPORT lock_token lock lock_error
          res code last_code chunk headers trace) := by
  unfold modify_put
  split_ifs
  · cases settings.file with
    | none => rfl
    | some card =>
      simp only [Outcome.map]
      rw [modify_verdict_reenter settings e e']
  · simp only [Outcome.map]
    rw [modify_verdict_reenter settings e e']

/-- The lock phase reads the entry ErrorDetail on success only. -/
theorem modify_lock_reenter (env : Env) (settings : carddav_settings)
    (e e' : carddav_error) (curl : CURL) (url : String) (hdr : List String) (res : Nat)
    (code last_code : Int) (chunk headers : Option String) (trace : List Event) :
    modify_lock env settings e' curl url hdr res code last_code chunk headers trace =
      Outcome.map (reenter e')
        (modify_lock env settings e curl url hdr res code last_code chunk headers trace) := by
  unfold modify_lock
  by_cases hl : settings.use_locking = true
  · simp only [hl, if_true]
    by_cases hs : (env.carddav_lock_support settings env.uninit_lock_error).1 = true
    · simp only [hs, if_true]
      cases (env.carddav_lock_object url settings
          (env.carddav_lock_support settings env.uninit_lock_error).2).1 with
      | some tok => exact modify_put_reenter _ _ e e' _ _ _ _ _ _ _ _ _ _ _ _ _
      | none =>
        dsimp only
        split_ifs <;> exact modify_put_reenter _ _ e e' _ _ _ _ _ _ _ _ _ _ _ _ _
    · rw [Bool.not_eq_true] at hs
      simp only [hs, Bool.false_eq_true, if_false]
      exact modify_put_reenter _ _ e e' _ _ _ _ _ _ _ _ _ _ _ _ _
  · rw [Bool.not_eq_true] at hl
    simp only [hl, Bool.false_eq_true, if_false]
    exact modify_put_reenter _ _ e e' _ _ _ _ _ _ _ _ _ _ _ _ _

/-- The handler `carddav_modify` reads the entry ErrorDetail on success only:
started with another ErrorDetail it gives the same flag, settings and steps,
the same ErrorDetail when it fails, and the other ErrorDetail when it
succeeds. -/
theorem carddav_modify_reenter (env : Env) (settings : carddav_settings)
    (e e' : carddav_error) :
    carddav_modify env settings e' =
      Outcome.map (reenter e') (carddav_modify env settings e) := by
  unfold carddav_modify
  cases env.get_curl settings with
  | none => rfl
  | some curl =>
    cases env.get_response_header "uid" (g_strdup settings.file) false with
    | none => rfl
    | some uid =>
      dsimp only
      split_ifs
      · rfl
      · rfl
      · cases env.get_url (env.curl_easy_perform (modify_report_request curl uid)).chunk with
        | none => rfl
        | some href =>
          cases env.get_etag (env.curl_easy_perform (modify_report_request curl uid)).chunk with
          | none => rfl
          | some etag =>
            cases env.get_host settings.url with
            | none => rfl
            | some host => exact modify_lock_reenter _ _ e e' _ _ _ _ _ _ _ _ _

/-- The handler `carddav_modify_by_uri` reads the entry ErrorDetail on success
only. -/
theorem carddav_modify_by_uri_reenter (env : Env) (settings : carddav_settings)
    (e e' : carddav_error) :
    carddav_modify_by_uri env settings e' =
      Outcome.map (reenter e') (carddav_modify_by_uri env settings e) := by
  unfold carddav_modify_by_uri
  cases env.get_curl settings with
  | none => rfl
  | some curl =>
    cases env.get_response_header "uri" (g_strdup settings.file) false with
    | none => rfl
    | some uid =>
      cases env.get_host settings.url with
      | none => rfl
      | some host => exact modify_lock_reenter _ _ e e' _ _ _ _ _ _ _ _ _

/-- The listing reads the entry ErrorDetail only to hand it back with a
listing: a run that gives `NULL` has overwritten it. -/
theorem carddav_dirlist_reenter (env : Env) (fuel : Nat) (settings : carddav_settings)
    (e e' : carddav_error) :
    carddav_dirlist env fuel settings e' =
      Outcome.map (reenter_dirlist e') (carddav_dirlist env fuel settings e) := by
  unfold carddav_dirlist
  cases env.get_curl settings with
  | none => rfl
  | some curl =>
    dsimp only
    split_ifs
    · rfl
    · rfl
    · cases (env.curl_easy_perform
          { curl with writedata := none, writeheader := none,
                      postfields := some dirlist_request, httpheader := xml_request_headers,
                      customrequest := some "PROPFIND" }).chunk with
      | none => rfl
      | some report =>
        simp only [g_strdup]
        cases href_lookup env (some report) with
        | none => rfl
        | some href =>
          dsimp only
          cases strstr report href with
          | none => rfl
          | some pos =>
            dsimp only
            cases dirlist_loop env fuel pos "" <;> rfl

/-- The handler `carddav_getall` reads the entry ErrorDetail on success only. -/
theorem carddav_getall_reenter (env : Env) (fuel : Nat) (settings : carddav_settings)
    (e e' : carddav_error) :
    carddav_getall env fuel settings e' =
      Outcome.map (reenter e') (carddav_getall env fuel settings e) := by
  unfold carddav_getall
  rw [carddav_dirlist_reenter env fuel settings e e']
  cases carddav_dirlist env fuel settings e with
  | undefined => rfl
  | timeout => rfl
  | ok d =>
    obtain ⟨all_href, s, err, tr⟩ := d
    cases all_href with
    | none => rfl
    | some listing =>
      simp only [Outcome.map, reenter_dirlist]
      cases env.get_curl s with
      | none => rfl
      | some curl =>
        dsimp only
        split_ifs <;> rfl

/-- C29. `carddav_getall_by_uri` is observationally equal to `carddav_getall`:
for every settings value, entry ErrorDetail and transport behaviour (and every
amount of fuel) the two calls end alike, and when they return they have issued
the same sequence of requests with the same outcomes (methods, headers and
bodies are part of each recorded request) and give the same flag, the same
settings, `settings.file` included, and the same ErrorDetail. -/
theorem C29_getall_by_uri_same_as_getall (env : Env) (fuel : Nat)
    (settings : carddav_settings) (error : carddav_error) :
    Outcome.rel
      (fun r r' => r.trace = r'.trace ∧ r.result = r'.result ∧
        r.settings.file = r'.settings.file ∧ r.settings = r'.settings ∧ r.error = r'.error)
      (carddav_getall_by_uri env fuel settings error)
      (carddav_getall env fuel settings error) ∧
    carddav_getall_by_uri env fuel settings error = carddav_getall env fuel settings error := by
  refine ⟨?_, rfl⟩
  rw [getall_by_uri_unfold]
  cases carddav_getall env fuel settings error with
  | ok r => exact ⟨rfl, rfl, rfl, rfl, rfl⟩
  | undefined => trivial
  | timeout => trivial

/-- C28. `carddav_modify` and `carddav_getall` write the caller's ErrorDetail
only on paths that return failure.  When the call returns success (FALSE) the
ErrorDetail, code and message, is exactly what it was on entry.  When it returns
failure the ErrorDetail has been assigned during the call: it is the same,
code and message, whatever the ErrorDetail was on entry (and so are the flag,
the settings and the steps). -/
theorem C28_error_written_only_on_failure (env : Env) (fuel : Nat)
    (settings : carddav_settings) (error : carddav_error) :
    (∀ r, carddav_modify env settings error = Outcome.ok r →
      (r.result = false → r.error = error) ∧
      (r.result = true → ∀ entry, carddav_modify env settings entry = Outcome.ok r)) ∧
    (∀ r, carddav_getall env fuel settings error = Outcome.ok r →
      (r.result = false → r.error = error) ∧
      (r.result = true → ∀ entry, carddav_getall env fuel settings entry = Outcome.ok r)) := by
  constructor
  · intro r hr
    refine ⟨fun hres => (carddav_modify_success env settings error r hr hres).1, ?_⟩
    intro hres entry
    rw [carddav_modify_reenter env settings error entry, hr]
    simp [Outcome.map, reenter, hres]
  · intro r hr
    refine ⟨fun hres => carddav_getall_success env fuel settings error r hr hres, ?_⟩
    intro hres entry
    rw [carddav_getall_reenter env fuel settings error entry, hr]
    simp [Outcome.map, reenter, hres]

/-- C28 on the demo server: a MODIFY that succeeds hands back the ErrorDetail it
was given, here 409 with its message; a MODIFY that finds no href fails with the
same ErrorDetail whatever it was given. -/
theorem C28_error_written_only_on_failure_witness :
    (∃ r, carddav_modify (demo_env 204 demo_token) demo_settings
        { code := 409, str := some "No object found" } = Outcome.ok r ∧
      r.result = false ∧ r.error = { code := 409, str := some "No object found" }) ∧
    (∃ r, carddav_modify demo_env_no_href demo_settings demo_error = Outcome.ok r ∧
      r.result = true ∧
      ∀ entry, carddav_modify demo_env_no_href demo_settings entry = Outcome.ok r) :=
  ⟨⟨_, rfl, rfl,
    ((C28_error_written_only_on_failure (demo_env 204 demo_token) 0 demo_settings
      { code := 409, str := some "No object found" }).1 _ rfl).1 rfl⟩,
   ⟨_, rfl, rfl,
    ((C28_error_written_only_on_failure demo_env_no_href 0 demo_settings demo_error).1
      _ rfl).2 rfl⟩⟩

/-- The PUT phase does not depend on what `carddav_unlock_object` answers, as
long as a token comes with `lock = 0`. -/
theorem modify_put_with_unlock (env : Env)
    (unlock : String → String → carddav_settings → carddav_error → Bool × carddav_error)
    (settings : carddav_settings)
    (error : carddav_error) (curl : CURL) (url : String) (hdr : List String)
    (LOCKSUPPORT : Bool) (lock_token : Option String) (lock : Int)
    (lock_error : carddav_error) (res : Nat)
    (code last_code : Int) (chunk headers : Option String) (trace : List Event)
    (hinv : lock = 0 ∨ lock_token = none) :
    modify_put (with_unlock env unlock) settings error curl url hdr LOCKSUPPORT lock_token
        lock lock_error res code last_code chunk headers trace =
      modify_put env settings error curl url hdr LOCKSUPPORT lock_token
        lock lock_error res code last_code chunk headers trace := by
  unfold modify_put
  split_ifs
  · cases settings.file with
    | none => rfl
    | some card =>
      dsimp only
      rcases hinv with h | h
      · subst h
        cases LOCKSUPPORT <;> cases lock_token <;> rfl
      · subst h
        cases LOCKSUPPORT <;> rfl
  · rfl

/-- The lock phase does not depend on what `carddav_unlock_object` answers. -/
theorem modify_lock_with_unlock (env : Env)
    (unlock : String → String → carddav_settings → carddav_error → Bool × carddav_error)
    (settings : carddav_settings)
    (error : carddav_error) (curl : CURL) (url : String) (hdr : List String) (res : Nat)
    (code last_code : Int) (chunk headers : Option String) (trace : List Event) :
    modify_lock (with_unlock env unlock) settings error curl url hdr res code last_code
        chunk headers trace =
      modify_lock env settings error curl url hdr res code last_code chunk headers trace := by
  unfold modify_lock
  have hsup : (with_unlock env unlock).carddav_lock_support = env.carddav_lock_support := rfl
  have hobj : (with_unlock env unlock).carddav_lock_object = env.carddav_lock_object := rfl
  have hun : (with_unlock env unlock).uninit_lock_error = env.uninit_lock_error := rfl
  rw [hsup, hobj, hun]
  by_cases hl : settings.use_locking = true
  · simp only [hl, if_true]
    by_cases hs : (env.carddav_lock_support settings env.uninit_lock_error).1 = true
    · simp only [hs, if_true]
      cases (env.carddav_lock_object url settings
          (env.carddav_lock_support settings env.uninit_lock_error).2).1 with
      | some tok =>
        exact modify_put_with_unlock _ _ _ _ _ _ _ _ _ _ _ _ _ _ _ _ _ (Or.inl rfl)
      | none =>
        dsimp only
        split_ifs
        · exact modify_put_with_unlock _ _ _ _ _ _ _ _ _ _ _ _ _ _ _ _ _ (Or.inr rfl)
        · exact modify_put_with_unlock _ _ _ _ _ _ _ _ _ _ _ _ _ _ _ _ _ (Or.inl rfl)
        · exact modify_put_with_unlock _ _ _ _ _ _ _ _ _ _ _ _ _ _ _ _ _ (Or.inr rfl)
    · rw [Bool.not_eq_true] at hs
      simp only [hs, Bool.false_eq_true, if_false]
      exact modify_put_with_unlock _ _ _ _ _ _ _ _ _ _ _ _ _ _ _ _ _ (Or.inl rfl)
  · rw [Bool.not_eq_true] at hl
    simp only [hl, Bool.false_eq_true, if_false]
    exact modify_put_with_unlock _ _ _ _ _ _ _ _ _ _ _ _ _ _ _ _ _ (Or.inl rfl)

/-- C24. Lock release cannot mask the write.  Take any two executions of
`carddav_modify` that agree on the settings, the entry ErrorDetail and every
answer of the environment except what `carddav_unlock_object` returns and
reports: they end alike, and when they return, the success/failure flag and the
ErrorDetail written to the caller are identical (as are the settings and the
steps).  The same holds for `carddav_modify_by_uri`. -/
theorem C24_unlock_outcome_never_read (env : Env)
    (unlock : String → String → carddav_settings → carddav_error → Bool × carddav_error)
    (settings : carddav_settings) (error : carddav_error) :
    Outcome.rel (fun r r' => r.result = r'.result ∧ r.error = r'.error)
      (carddav_modify env settings error)
      (carddav_modify (with_unlock env unlock) settings error) ∧
    Outcome.rel (fun r r' => r.result = r'.result ∧ r.error = r'.error)
      (carddav_modify_by_uri env settings error)
      (carddav_modify_by_uri (with_unlock env unlock) settings error) ∧
    carddav_modify (with_unlock env unlock) settings error
      = carddav_modify env settings error ∧
    carddav_modify_by_uri (with_unlock env unlock) settings error
      = carddav_modify_by_uri env settings error := by
  have h1 : carddav_modify (with_unlock env unlock) settings error
      = carddav_modify env settings error := by
    unfold carddav_modify
    have hc : (with_unlock env unlock).get_curl = env.get_curl := rfl
    have hh : (with_unlock env unlock).get_response_header = env.get_response_header := rfl
    have hp : (with_unlock env unlock).curl_easy_perform = env.curl_easy_perform := rfl
    have hu : (with_unlock env unlock).get_url = env.get_url := rfl
    have he : (with_unlock env unlock).get_etag = env.get_etag := rfl
    have ho : (with_unlock env unlock).get_host = env.get_host := rfl
    rw [hc, hh, hp, hu, he, ho]
    cases env.get_curl settings with
    | none => rfl
    | some curl =>
      cases env.get_response_header "uid" (g_strdup settings.file) false with
      | none => rfl
      | some uid =>
        dsimp only
        split_ifs
        · rfl
        · rfl
        · cases env.get_url (env.curl_easy_perform (modify_report_request curl uid)).chunk with
          | none => rfl
          | some href =>
            cases env.get_etag
                (env.curl_easy_perform (modify_report_request curl uid)).chunk with
            | none => rfl
            | some etag =>
              cases env.get_host settings.url with
              | none => rfl
              | some host => exact modify_lock_with_unlock _ _ _ _ _ _ _ _ _ _ _ _ _
  have h2 : carddav_modify_by_uri (with_unlock env unlock) settings error
      = carddav_modify_by_uri env settings error := by
    unfold carddav_modify_by_uri
    have hc : (with_unlock env unlock).get_curl = env.get_curl := rfl
    have hh : (with_unlock env unlock).get_response_header = env.get_response_header := rfl
    have ho : (with_unlock env unlock).get_host = env.get_host := rfl
    have hn : (with_unlock env unlock).uninit_code = env.uninit_code := rfl
    rw [hc, hh, ho, hn]
    cases env.get_curl settings with
    | none => rfl
    | some curl =>
      cases env.get_response_header "uri" (g_strdup settings.file) false with
      | none => rfl
      | some uid =>
        cases env.get_host settings.url with
        | none => rfl
        | some host => exact modify_lock_with_unlock _ _ _ _ _ _ _ _ _ _ _ _ _
  refine ⟨?_, ?_, h1, h2⟩
  · rw [h1]
    cases carddav_modify env settings error with
    | ok r => exact ⟨rfl, rfl⟩
    | undefined => trivial
    | timeout => trivial
  · rw [h2]
    cases carddav_modify_by_uri env settings error with
    | ok r => exact ⟨rfl, rfl⟩
    | undefined => trivial
    | timeout => trivial

/-- C26. For every card text from which no UID property can be extracted, once
the handle is there, `carddav_modify` fails with ErrorDetail code 1 and the
message "Error: Missing required UID for object" and takes no step: no REPORT,
no lock call, no PUT; `carddav_modify_by_uri` does the same, with its own fixed
message, when no URI property can be extracted.  The public calls, whose probe
passed, then return CONFLICT with that ErrorDetail, the probe being their only
step. -/
theorem C26_missing_identifier (env : Env) (settings : carddav_settings)
    (error : carddav_error) (curl : CURL)
    (hcurl : env.get_curl settings = some curl) :
    (env.get_response_header "uid" (g_strdup settings.file) false = none →
      carddav_modify env settings error = Outcome.ok
        { result := true, settings := settings,
          error := { code := 1, str := some "Error: Missing required UID for object" },
          trace := [] } ∧
      ∀ (fuel : Nat) (object URL : Option String) (info : runtime_info),
        carddav_modify_object_settings env object URL (init_options info) = settings →
        probe_passes env settings curl (init_error info) error →
        ∃ p, carddav_modify_object env fuel object URL info = Outcome.ok p ∧
          p.response = CARDDAV_RESPONSE.CONFLICT ∧
          p.info.error =
            some { code := 1, str := some "Error: Missing required UID for object" } ∧
          p.trace = [Event.getoptions]) ∧
    (env.get_response_header "uri" (g_strdup settings.file) false = none →
      carddav_modify_by_uri env settings error = Outcome.ok
        { result := true, settings := settings,
          error :=
            { code := 1,
              str := some ("Error: Missing required URI for object\n" ++
                "The requested contact may not exist on the server") },
          trace := [] } ∧
      ∀ (fuel : Nat) (object URL : Option String) (info : runtime_info),
        carddav_modify_object_by_uri_settings env object URL (init_options info) = settings →
        probe_passes env settings curl (init_error info) error →
        ∃ p, carddav_modify_object_by_uri env fuel object URL info = Outcome.ok p ∧
          p.response = CARDDAV_RESPONSE.CONFLICT ∧
          p.info.error =
            some { code := 1,
                   str := some ("Error: Missing required URI for object\n" ++
                     "The requested contact may not exist on the server") } ∧
          p.trace = [Event.getoptions]) := by
  constructor
  · intro huid
    have hmod : carddav_modify env settings error = Outcome.ok
        { result := true, settings := settings,
          error := { code := 1, str := some "Error: Missing required UID for object" },
          trace := [] } := by
      unfold carddav_modify
      simp only [hcurl, huid]
    refine ⟨hmod, ?_⟩
    intro fuel object URL info hset hprobe
    subst hset
    obtain ⟨hc, hp1, hp2⟩ := hprobe
    have hA : (carddav_modify_object_settings env object URL (init_options info)).ACTION
        = CARDDAV_ACTION.MODIFY := rfl
    have hU : (carddav_modify_object_settings env object URL (init_options info)).use_uri
        = 0 := rfl
    unfold carddav_modify_object
    simp only [init_runtime, make_carddav_call, hc, hp1, hp2, hA, hU, hmod, with_trace,
      Bool.not_true, Bool.false_eq_true, if_false, if_true]
    exact ⟨_, rfl, rfl, rfl, rfl⟩
  · intro huri
    have hmod : carddav_modify_by_uri env settings error = Outcome.ok
        { result := true, settings := settings,
          error :=
            { code := 1,
              str := some ("Error: Missing required URI for object\n" ++
                "The requested contact may not exist on the server") },
          trace := [] } := by
      unfold carddav_modify_by_uri
      simp only [hcurl, huri]
    refine ⟨hmod, ?_⟩
    intro fuel object URL info hset hprobe
    subst hset
    obtain ⟨hc, hp1, hp2⟩ := hprobe
    have hA : (carddav_modify_object_by_uri_settings env object URL (init_options info)).ACTION
        = CARDDAV_ACTION.MODIFY := rfl
    have hU : (carddav_modify_object_by_uri_settings env object URL (init_options info)).use_uri
        = 1 := rfl
    unfold carddav_modify_object_by_uri
    simp only [init_runtime, make_carddav_call, hc, hp1, hp2, hA, hU, hmod, with_trace,
      Bool.not_true, Bool.false_eq_true, if_false, if_true, one_ne_zero]
    exact ⟨_, rfl, rfl, rfl, rfl⟩

/-- C24 on the demo server: with a `carddav_unlock_object` that fails and
reports 500, the MODIFY of the demo card still succeeds and leaves the
ErrorDetail as it was. -/
theorem C24_unlock_outcome_never_read_witness :
    ∃ r, carddav_modify (with_unlock (demo_env 204 demo_token) demo_failing_unlock)
        demo_settings demo_error = Outcome.ok r ∧
      Event.unlock_object "opaquelocktoken:1" "example.org/book/42.vcf" ∈ r.trace ∧
      r.result = false ∧ r.error = demo_error :=
  ⟨_, (C24_unlock_outcome_never_read (demo_env 204 demo_token) demo_failing_unlock
      demo_settings demo_error).2.2.1, by decide, rfl, rfl⟩

/-- C26 on the demo server, for a card that carries neither UID nor URI. -/
theorem C26_missing_identifier_witness :
    (∃ p, carddav_modify_object demo_env_no_property 0 (some demo_card_bare)
        (some "http://example.org/book/") demo_info = Outcome.ok p ∧
      p.response = CARDDAV_RESPONSE.CONFLICT ∧
      p.info.error =
        some { code := 1, str := some "Error: Missing required UID for object" } ∧
      p.trace = [Event.getoptions]) ∧
    (∃ p, carddav_modify_object_by_uri demo_env_no_property 0 (some demo_card_bare)
        (some "http://example.org/book/") demo_info = Outcome.ok p ∧
      p.response = CARDDAV_RESPONSE.CONFLICT ∧
      p.info.error =
        some { code := 1,
               str := some ("Error: Missing required URI for object\n" ++
                 "The requested contact may not exist on the server") } ∧
      p.trace = [Event.getoptions]) :=
  ⟨((C26_missing_identifier demo_env_no_property demo_settings_bare demo_error demo_curl
      rfl).1 rfl).2 0 (some demo_card_bare) (some "http://example.org/book/") demo_info
      rfl ⟨rfl, rfl, rfl⟩,
   ((C26_missing_identifier demo_env_no_property demo_settings_bare_by_uri demo_error
      demo_curl rfl).2 rfl).2 0 (some demo_card_bare) (some "http://example.org/book/")
      demo_info rfl ⟨rfl, rfl, rfl⟩⟩

/-- The common tail leaves the options of the runtime_info as they are. -/
theorem public_tail_options (retrieval : Bool) (info : runtime_info)
    (call : Outcome CallResult) (p : PublicResult)
    (h : public_tail retrieval info call = Outcome.ok p) : p.info.options = info.options := by
  cases call with
  | undefined => cases h
  | timeout => cases h
  | ok c =>
    unfold public_tail at h
    dsimp only at h
    split_ifs at h <;>
      · injection h with h
        subst h
        rfl

/-- A MODIFY by identifier that went through `make_carddav_call` with success
goes through again, with the same steps, from any other ErrorDetail for which
the probe answers alike. -/
theorem make_carddav_call_modify_again (env : Env) (fuel : Nat)
    (settings : carddav_settings) (e e' : carddav_error) (options options' : Option debug_curl)
    (r : CallResult)
    (hA : settings.ACTION = CARDDAV_ACTION.MODIFY) (hU : settings.use_uri = 0)
    (hsame : ∀ curl, (env.carddav_getoptions curl settings none e true).1
      = (env.carddav_getoptions curl settings none e' true).1)
    (h : make_carddav_call env fuel settings { error := some e, options := options }
      = Outcome.ok r)
    (hres : r.result = false) :
    ∃ r', make_carddav_call env fuel settings { error := some e', options := options' }
        = Outcome.ok r' ∧ r'.result = false ∧ r'.trace = r.trace := by
  unfold make_carddav_call at h ⊢
  dsimp only at h ⊢
  cases hc : env.get_curl settings with
  | none =>
    rw [hc] at h
    injection h with h
    subst h
    cases hres
  | some curl =>
    rw [hc] at h
    dsimp only at h ⊢
    rw [← hsame curl]
    cases hp : (env.carddav_getoptions curl settings none e true).1 with
    | false =>
      rw [hp] at h
      simp only [Bool.not_false, if_true] at h
      injection h with h
      subst h
      cases hres
    | true =>
      rw [hp] at h
      simp only [Bool.not_true, Bool.false_eq_true, if_false, hA, hU, if_true] at h ⊢
      rw [carddav_modify_reenter env settings
        (env.carddav_getoptions curl settings none e true).2.2
        (env.carddav_getoptions curl settings none e' true).2.2]
      cases hm : carddav_modify env settings
          (env.carddav_getoptions curl settings none e true).2.2 with
      | undefined => rw [hm] at h; cases h
      | timeout => rw [hm] at h; cases h
      | ok c =>
        rw [hm] at h
        simp only [with_trace] at h
        injection h with h
        subst h
        have hc' : c.result = false := hres
        exact ⟨_, rfl, by simp [reenter, hc'], by simp [reenter, hc']⟩

/-- C23. Re-running MODIFY is free of client-side state bleed.  Let one
`carddav_modify_object` call return OK, for any card text, URL, runtime_info and
transport behaviour, the transport answering alike in every call (the answer of
the capability probe does not depend on the ErrorDetail it is handed).  Then a
second call with the same inputs and the runtime_info as the first call left it
returns OK as well, with the same steps; and so does the call from any
runtime_info with the same options, whatever an earlier call left in its
ErrorDetail. -/
theorem C23_modify_rerun_ok (env : Env) (fuel : Nat) (object URL : Option String)
    (info : runtime_info) (p : PublicResult)
    (hsame : ∀ curl settings e e', (env.carddav_getoptions curl settings none e true).1
      = (env.carddav_getoptions curl settings none e' true).1)
    (h : carddav_modify_object env fuel object URL info = Outcome.ok p)
    (hok : p.response = CARDDAV_RESPONSE.OK) :
    (∃ p', carddav_modify_object env fuel object URL p.info = Outcome.ok p' ∧
      p'.response = CARDDAV_RESPONSE.OK ∧ p'.trace = p.trace) ∧
    (∀ earlier : runtime_info, init_options earlier = init_options info →
      ∃ p', carddav_modify_object env fuel object URL earlier = Outcome.ok p' ∧
        p'.response = CARDDAV_RESPONSE.OK ∧ p'.trace = p.trace) := by
  have hv := (public_verbs_eq_tail env fuel object URL 0 0 info).2.2.2.1
  rw [hv] at h
  obtain ⟨c, hcall, -, htrace, hiff, -⟩ := public_tail_ok _ _ _ _ h
  have hopt := public_tail_options _ _ _ _ h
  have hres : c.result = false := hiff.1 hok
  have hA : (carddav_modify_object_settings env object URL (init_options info)).ACTION
      = CARDDAV_ACTION.MODIFY := rfl
  have hU : (carddav_modify_object_settings env object URL (init_options info)).use_uri
      = 0 := rfl
  have key : ∀ earlier : runtime_info, init_options earlier = init_options info →
      ∃ p', carddav_modify_object env fuel object URL earlier = Outcome.ok p' ∧
        p'.response = CARDDAV_RESPONSE.OK ∧ p'.trace = p.trace := by
    intro earlier hopts
    obtain ⟨c', hc', hres', htr'⟩ :=
      make_carddav_call_modify_again env fuel _ (init_error info) (init_error earlier)
        (some (init_options info)) (some (init_options info)) c hA hU
        (fun curl => hsame curl _ _ _) hcall hres
    have hv' := (public_verbs_eq_tail env fuel object URL 0 0 earlier).2.2.2.1
    rw [hv', hopts]
    have hrun : init_runtime earlier
        = { error := some (init_error earlier), options := some (init_options info) } := by
      unfold init_runtime
      rw [hopts]
    rw [hrun, hc']
    unfold public_tail
    simp only [hres', Bool.false_eq_true, if_false]
    exact ⟨_, rfl, rfl, by rw [htr', htrace]⟩
  refine ⟨key p.info ?_, key⟩
  unfold init_options
  rw [hopt]
  rfl

/-- C23 on the demo server: the MODIFY of the demo card returns OK, and it
returns OK again when re-run with the runtime_info it left, and when run with a
runtime_info that an earlier failure left at 409. -/
theorem C23_modify_rerun_ok_witness :
    ∃ p, carddav_modify_object (demo_env 204 demo_token) 0 (some demo_card)
        (some "http://example.org/book/") demo_info = Outcome.ok p ∧
      p.response = CARDDAV_RESPONSE.OK ∧
      (∃ p', carddav_modify_object (demo_env 204 demo_token) 0 (some demo_card)
          (some "http://example.org/book/") p.info = Outcome.ok p' ∧
        p'.response = CARDDAV_RESPONSE.OK ∧ p'.trace = p.trace) ∧
      (∃ p', carddav_modify_object (demo_env 204 demo_token) 0 (some demo_card)
          (some "http://example.org/book/") demo_stale_info = Outcome.ok p' ∧
        p'.response = CARDDAV_RESPONSE.OK ∧ p'.trace = p.trace) :=
  ⟨_, rfl, rfl,
    (C23_modify_rerun_ok (demo_env 204 demo_token) 0 (some demo_card)
      (some "http://example.org/book/") demo_info _ (fun _ _ _ _ => rfl) rfl rfl).1,
    (C23_modify_rerun_ok (demo_env 204 demo_token) 0 (some demo_card)
      (some "http://example.org/book/") demo_info _ (fun _ _ _ _ => rfl) rfl rfl).2
      demo_stale_info rfl⟩

/-- C25 as the code has it.  A transport fault (`res ≠ 0`, no status obtained)
of the PROPFIND of `carddav_dirlist`, of the REPORT of `carddav_getall` or of
the discovery REPORT of `carddav_modify` makes the verb fail with ErrorDetail
code -1.  A transport fault of the PUT of `carddav_modify` makes the verb fail
as well, but with ErrorDetail code 207, the status of the discovery REPORT
that went before: that code is not negative. -/
theorem C25_put_fault_reports_207 (env : Env) (fuel : Nat) (settings : carddav_settings)
    (error : carddav_error) :
    (∀ r c t, carddav_getall env fuel settings error = Outcome.ok r →
      Event.perform c t ∈ r.trace → t.res ≠ 0 → r.result = true ∧ r.error.code = -1) ∧
    (∀ r c t, carddav_modify env settings error = Outcome.ok r →
      Event.perform c t ∈ r.trace → c.customrequest = some "REPORT" → t.res ≠ 0 →
      r.result = true ∧ r.error.code = -1) ∧
    (∀ r c t, carddav_modify env settings error = Outcome.ok r →
      put_sent r.trace c t → t.res ≠ 0 →
      r.result = true ∧ r.error.code = 207 ∧ ¬ r.error.code < 0) := by
  refine ⟨?_, ?_, ?_⟩
  · intro r c t h hm hfault
    rcases carddav_getall_cases env fuel settings error r h with
      ⟨-, -, htr⟩ | ⟨curl, -, ⟨htr, hres, hcase⟩ | ⟨h0, -, report, hrefs, -, -, htr, hcase⟩⟩
    · rw [htr] at hm
      cases hm
    · rw [htr] at hm
      rcases List.mem_singleton.1 hm with hm
      injection hm with hm1 hm2
      subst hm2
      rcases hcase with ⟨-, hcode⟩ | ⟨h0, -⟩
      · exact ⟨hres, hcode⟩
      · exact absurd h0 hfault
    · rw [htr] at hm
      rcases List.mem_cons.1 hm with hm | hm
      · injection hm with hm1 hm2
        subst hm2
        exact absurd h0 hfault
      · rcases List.mem_singleton.1 hm with hm
        injection hm with hm1 hm2
        subst hm2
        rcases hcase with ⟨-, hres, hcode⟩ | ⟨h1, -⟩ | ⟨h1, -⟩
        · exact ⟨hres, hcode⟩
        · exact absurd h1 hfault
        · exact absurd h1 hfault
  · intro r c t hr hm hc hfault
    have hone : ∀ (q : CallResult) (curl : CURL) (u : String),
        Outcome.ok q = Outcome.ok r →
        q.trace = [Event.perform (modify_report_request curl u)
          (env.curl_easy_perform (modify_report_request curl u))] →
        t = env.curl_easy_perform (modify_report_request curl u) := by
      intro q curl u hq hq'
      injection hq with hq
      subst hq
      rw [hq'] at hm
      rcases List.mem_singleton.1 hm with hm
      injection hm with hm1 hm2
    unfold carddav_modify at hr
    cases hcu : env.get_curl settings with
    | none =>
      rw [hcu] at hr
      injection hr with hr
      subst hr
      cases hm
    | some curl =>
      rw [hcu] at hr
      cases hu : env.get_response_header "uid" (g_strdup settings.file) false with
      | none =>
        rw [hu] at hr
        injection hr with hr
        subst hr
        cases hm
      | some u =>
        rw [hu] at hr
        dsimp only at hr
        split_ifs at hr with h1 h2
        · injection hr with hr
          subst hr
          exact ⟨rfl, rfl⟩
        · exact absurd (hone _ curl u hr rfl ▸ hfault) h1
        · have h1' : (env.curl_easy_perform (modify_report_request curl u)).res = 0 :=
            not_not.1 h1
          have hne : t ≠ env.curl_easy_perform (modify_report_request curl u) := by
            intro heq
            rw [heq] at hfault
            exact hfault h1'
          cases hh : env.get_url
              (env.curl_easy_perform (modify_report_request curl u)).chunk with
          | none => rw [hh] at hr; exact absurd (hone _ curl u hr rfl) hne
          | some href =>
            rw [hh] at hr
            cases he : env.get_etag
                (env.curl_easy_perform (modify_report_request curl u)).chunk with
            | none => rw [he] at hr; exact absurd (hone _ curl u hr rfl) hne
            | some etag =>
              rw [he] at hr
              cases hho : env.get_host settings.url with
              | none => rw [hho] at hr; exact absurd (hone _ curl u hr rfl) hne
              | some host =>
                rw [hho] at hr
                dsimp only at hr
                obtain ⟨ls, tok, lock, le, steps, heq, hsteps, -⟩ :=
                  modify_lock_cases env settings error (modify_report_request curl u)
                    (host ++ href) (modify_put_headers etag) 0
                    (env.curl_easy_perform (modify_report_request curl u)).code
                    (env.curl_easy_perform (modify_report_request curl u)).code
                    (env.curl_easy_perform (modify_report_request curl u)).chunk
                    (env.curl_easy_perform (modify_report_request curl u)).headers
                    [Event.perform (modify_report_request curl u)
                      (env.curl_easy_perform (modify_report_request curl u))]
                rw [heq] at hr
                unfold modify_put at hr
                split_ifs at hr with hcond
                · cases hf : settings.file with
                  | none => simp only [hf] at hr; cases hr
                  | some card =>
                    simp only [hf] at hr
                    injection hr with hr
                    subst hr
                    rw [modify_verdict_trace] at hm
                    rcases List.mem_append.1 hm with hm | hm
                    · rcases List.mem_append.1 hm with hm | hm
                      · rcases List.mem_singleton.1 hm with hm
                        injection hm with hm1 hm2
                        exact absurd hm2 hne
                      · exact absurd hm (hsteps c t)
                    · rcases List.mem_cons.1 hm with hm | hm
                      · injection hm with hm1 hm2
                        rw [hm1] at hc
                        exact absurd (show some "PUT" = some "REPORT" from hc) (by decide)
                      · exact absurd hm (release_lock_no_perform _ _ _ _ _ _ c t)
                · injection hr with hr
                  subst hr
                  rw [modify_verdict_trace] at hm
                  rcases List.mem_append.1 hm with hm | hm
                  · rcases List.mem_singleton.1 hm with hm
                    injection hm with hm1 hm2
                    exact absurd hm2 hne
                  · exact absurd hm (hsteps c t)
  · intro r c t hr hput hfault
    have hnone : ∀ (q : CallResult), Outcome.ok q = Outcome.ok r →
        (∀ c t, ¬ put_sent q.trace c t) → False := by
      intro q hq hq'
      injection hq with hq
      subst hq
      exact hq' c t hput
    unfold carddav_modify at hr
    cases hcu : env.get_curl settings with
    | none => rw [hcu] at hr; exact (hnone _ hr no_put_nil).elim
    | some curl =>
      rw [hcu] at hr
      cases hu : env.get_response_header "uid" (g_strdup settings.file) false with
      | none => rw [hu] at hr; exact (hnone _ hr no_put_nil).elim
      | some u =>
        rw [hu] at hr
        have hrep := no_put_single (modify_report_request curl u)
          (env.curl_easy_perform (modify_report_request curl u))
          (modify_report_request_no_put curl u)
        dsimp only at hr
        split_ifs at hr with h1 h2
        · exact (hnone _ hr hrep).elim
        · exact (hnone _ hr hrep).elim
        · have h2' : (env.curl_easy_perform (modify_report_request curl u)).code = 207 :=
            not_not.1 h2
          cases hh : env.get_url
              (env.curl_easy_perform (modify_report_request curl u)).chunk with
          | none => rw [hh] at hr; exact (hnone _ hr hrep).elim
          | some href =>
            rw [hh] at hr
            cases he : env.get_etag
                (env.curl_easy_perform (modify_report_request curl u)).chunk with
            | none => rw [he] at hr; exact (hnone _ hr hrep).elim
            | some etag =>
              rw [he] at hr
              cases hho : env.get_host settings.url with
              | none => rw [hho] at hr; exact (hnone _ hr hrep).elim
              | some host =>
                rw [hho] at hr
                dsimp only at hr
                obtain ⟨ls, tok, lock, le, steps, heq, hsteps, hinv⟩ :=
                  modify_lock_cases env settings error (modify_report_request curl u)
                    (host ++ href) (modify_put_headers etag) 0
                    (env.curl_easy_perform (modify_report_request curl u)).code
                    (env.curl_easy_perform (modify_report_request curl u)).code
                    (env.curl_easy_perform (modify_report_request curl u)).chunk
                    (env.curl_easy_perform (modify_report_request curl u)).headers
                    [Event.perform (modify_report_request curl u)
                      (env.curl_easy_perform (modify_report_request curl u))]
                rw [heq, h2'] at hr
                have hpre : ∀ c t, ¬ put_sent
                    ([Event.perform (modify_report_request curl u)
                      (env.curl_easy_perform (modify_report_request curl u))] ++ steps) c t :=
                  no_put_append _ _ hrep hsteps
                unfold modify_put at hr
                split_ifs at hr with hcond
                · have hlock : lock = 0 := by
                    rcases hinv with h | ⟨-, hls, htok⟩
                    · exact h
                    · subst hls
                      subst htok
                      simp at hcond
                  subst hlock
                  cases hf : settings.file with
                  | none => simp only [hf] at hr; cases hr
                  | some card =>
                    simp only [hf] at hr
                    injection hr with hr
                    subst hr
                    rw [modify_verdict_trace] at hput
                    obtain ⟨hc1, ht1⟩ := (put_sent_append _ _ _ _ hpre
                      (release_lock_no_perform _ _ _ _ _ _) rfl c t).1 hput
                    subst ht1
                    unfold modify_verdict
                    simp [hfault]
                · exact (hnone _ hr (by
                    intro c t
                    rw [modify_verdict_trace]
                    exact hpre c t)).elim

/-- C25 on the demo server whose PUT fails in the transport: the MODIFY of the
demo card fails with ErrorDetail code 207. -/
theorem C25_put_fault_reports_207_witness :
    ∃ r c t, carddav_modify demo_env_put_fault demo_settings demo_error = Outcome.ok r ∧
      put_sent r.trace c t ∧ t.res = 7 ∧
      r.result = true ∧ r.error.code = 207 ∧ ¬ r.error.code < 0 := by
  have h : ∃ r, carddav_modify demo_env_put_fault demo_settings demo_error = Outcome.ok r ∧
      put_sent r.trace demo_put (demo_env_put_fault.curl_easy_perform demo_put) :=
    ⟨_, rfl, by decide, rfl⟩
  obtain ⟨r, hr, hp⟩ := h
  exact ⟨r, demo_put, _, hr, hp, rfl,
    (C25_put_fault_reports_207 demo_env_put_fault 0 demo_settings demo_error).2.2 r demo_put _
      hr hp (by decide)⟩

/-- C21 as the code has it.  With a transport handle, `carddav_enabled_resource`
returns non-zero exactly when the capability probe succeeded and the
ErrorDetail code it left is 0 or 200, and 0 otherwise.  Without a transport
handle it returns `TRUE`, which is not zero, having stored code -1 and issued no
probe. -/
theorem C21_no_handle_answers_true (env : Env) (URL : Option String) (info : runtime_info) :
    (env.get_curl (parse_url env env.init_carddav_settings URL) = none →
      (carddav_enabled_resource env URL info).value = 1 ∧
      (carddav_enabled_resource env URL info).value ≠ 0 ∧
      (carddav_enabled_resource env URL info).trace = [] ∧
      (carddav_enabled_resource env URL info).info.error
        = some { code := -1, str := some "Could not initialize libcurl" }) ∧
    (∀ curl, env.get_curl (parse_url env env.init_carddav_settings URL) = some curl →
      ((carddav_enabled_resource env URL info).value ≠ 0 ↔
        (env.carddav_getoptions curl (probe_settings env URL info) none (init_error info)
            true).1 = true ∧
          ((env.carddav_getoptions curl (probe_settings env URL info) none (init_error info)
              true).2.2.code = 0 ∨
            (env.carddav_getoptions curl (probe_settings env URL info) none (init_error info)
              true).2.2.code = 200)) ∧
      ((carddav_enabled_resource env URL info).value = 0 ∨
        (carddav_enabled_resource env URL info).value = 1) ∧
      (carddav_enabled_resource env URL info).trace = [Event.getoptions]) := by
  constructor
  · intro h
    have hv : carddav_enabled_resource env URL info =
        { value := 1,
          info := { error := some { code := -1, str := some "Could not initialize libcurl" },
                    options := some (init_options info) },
          trace := [] } := by
      unfold carddav_enabled_resource
      dsimp only
      rw [h]
    rw [hv]
    exact ⟨rfl, one_ne_zero, rfl, rfl⟩
  · intro curl h
    have hv : carddav_enabled_resource env URL info =
        { value :=
            if ((env.carddav_getoptions curl (probe_settings env URL info) none
                  (init_error info) true).1 &&
                ((env.carddav_getoptions curl (probe_settings env URL info) none
                    (init_error info) true).2.2.code == 0 ||
                  (env.carddav_getoptions curl (probe_settings env URL info) none
                    (init_error info) true).2.2.code == 200)) = true
            then 1 else 0,
          info :=
            { error := some (env.carddav_getoptions curl (probe_settings env URL info) none
                (init_error info) true).2.2,
              options := some (init_options info) },
          trace := [Event.getoptions] } := by
      unfold carddav_enabled_resource probe_settings
      dsimp only
      rw [h]
    rw [hv]
    dsimp only
    refine ⟨?_, ?_, rfl⟩
    · split_ifs with hc
      · simpa using hc
      · simpa using hc
    · split_ifs
      · exact Or.inr rfl
      · exact Or.inl rfl

/-- C21 on the demo server when `get_curl` cannot prepare a handle: the answer
is 1, and no probe was made. -/
theorem C21_no_handle_answers_true_witness :
    (carddav_enabled_resource demo_env_no_curl (some "http://example.org/book/")
      demo_info).value = 1 ∧
    (carddav_enabled_resource demo_env_no_curl (some "http://example.org/book/")
      demo_info).value ≠ 0 ∧
    (carddav_enabled_resource demo_env_no_curl (some "http://example.org/book/")
      demo_info).trace = [] ∧
    (carddav_enabled_resource demo_env_no_curl (some "http://example.org/book/")
      demo_info).info.error = some { code := -1, str := some "Could not initialize libcurl" } :=
  (C21_no_handle_answers_true demo_env_no_curl (some "http://example.org/book/")
    demo_info).1 rfl

/-- A text is absent from `c :: hay` when it does not start there and is absent
from `hay`. -/
theorem absent_cons_iff (needle : List Char) (c : Char) (hay : List Char) :
    absent needle (c :: hay) ↔ needle.isPrefixOf (c :: hay) = false ∧ absent needle hay := by
  unfold absent
  simp [List.tails]

/-- C27 as the code has it.  The scan position of the loop of `carddav_dirlist`
does not advance when the text at the position begins with the href just looked
up (`strstr (pos, href)` is `pos` again): from there the loop runs out of every
amount of fuel, which is to say that it never ends.  For the 207 bodies
`<href>/a</href><href>/a</href>` (a repeated text),
`<href>/a</href><href></href>` (an empty text) and
`<href>/ab</href><href>/a</href>` (overlapping texts), each with two href
elements, `carddav_dirlist` returns for no amount of fuel. -/
theorem C27_scan_position_can_stall :
    (∀ (env : Env) (pos href all_href : String),
      href_lookup env (some pos) = some href → strstr pos href = some pos →
      ∀ fuel, dirlist_loop env fuel pos all_href = Outcome.timeout) ∧
    (∀ fuel, carddav_dirlist (listing_env demo_repeated_listing) fuel demo_settings demo_error
      = Outcome.timeout) ∧
    (∀ fuel, carddav_dirlist (listing_env demo_empty_href_listing) fuel demo_settings
      demo_error = Outcome.timeout) ∧
    (∀ fuel, carddav_dirlist (listing_env demo_overlapping_listing) fuel demo_settings
      demo_error = Outcome.timeout) := by
  have stall : ∀ (body first pos href : String),
      href_lookup (listing_env body) (some body) = some first →
      strstr body first = some pos →
      href_lookup (listing_env body) (some pos) = some href →
      strstr pos href = some pos →
      ∀ fuel, carddav_dirlist (listing_env body) fuel demo_settings demo_error
        = Outcome.timeout := by
    intro body first pos href h1 h2 h3 h4 fuel
    refine carddav_dirlist_of_timeout _ fuel demo_settings demo_error demo_curl body
      rfl rfl rfl rfl ?_
    unfold collected_hrefs
    simp only [h1, h2]
    exact dirlist_scan_stuck _ pos href h3 h4 fuel
  refine ⟨?_, ?_, ?_, ?_⟩
  · intro env pos href all_href hl hs fuel
    rw [dirlist_loop_eq_scan, dirlist_scan_stuck env pos href hl hs fuel]
  · exact stall demo_repeated_listing "/a" "/a</href><href>/a</href>" "/a" rfl rfl rfl rfl
  · exact stall demo_empty_href_listing "/a" "/a</href><href></href>" "" rfl rfl rfl rfl
  · exact stall demo_overlapping_listing "/ab" "/ab</href><href>/a</href>" "/a"
      rfl rfl rfl rfl

/-- C27 on the listing with a repeated text: the loop, standing at the first
text, looks up `/a` and finds it where it stands; a thousand rounds do not
end it. -/
theorem C27_scan_position_can_stall_witness :
    dirlist_loop (listing_env demo_repeated_listing) 1000
      "/a</href><href>/a</href>" "" = Outcome.timeout :=
  C27_scan_position_can_stall.1 (listing_env demo_repeated_listing)
    "/a</href><href>/a</href>" "/a" "" rfl rfl 1000

/-- A first occurrence at offset 0 is an occurrence at the start. -/
theorem first_at_zero (needle hay : List Char) :
    first_at needle hay 0 ↔ needle.isPrefixOf hay = true := by
  unfold first_at
  simp

/-- A first occurrence behind the first character. -/
theorem first_at_cons_succ (needle : List Char) (c : Char) (hay : List Char) (n : Nat) :
    first_at needle (c :: hay) (n + 1) ↔
      needle.isPrefixOf (c :: hay) = false ∧ first_at needle hay n := by
  unfold first_at
  simp [List.tails, and_assoc]

/-- A first occurrence in `y` is the first occurrence in `x ++ y` when none
starts inside `x`. -/
theorem first_at_append_left (needle : List Char) (y : List Char) (n : Nat) :
    ∀ x : List Char, starts_nowhere needle x y → first_at needle y n →
      first_at needle (x ++ y) (x.length + n) := by
  intro x
  induction x with
  | nil =>
    intro _ h
    simpa using h
  | cons c x ih =>
    intro hx h
    have hlen : (c :: x).length + n = (x.length + n) + 1 := by
      simp only [List.length_cons]
      omega
    rw [hlen]
    exact (first_at_cons_succ needle c (x ++ y) (x.length + n)).2 ⟨hx.1, ih hx.2 h⟩

/-- A first occurrence in `b ++ hay` behind `b` is a first occurrence in
`hay`. -/
theorem first_at_drop_left (needle : List Char) (hay : List Char) (n : Nat) :
    ∀ b : List Char, first_at needle (b ++ hay) (b.length + n) → first_at needle hay n := by
  intro b
  induction b with
  | nil =>
    intro h
    simpa using h
  | cons c b ih =>
    intro h
    have hlen : (c :: b).length + n = (b.length + n) + 1 := by
      simp only [List.length_cons]
      omega
    rw [hlen] at h
    exact ih ((first_at_cons_succ needle c (b ++ hay) (b.length + n)).1 h).2

/-- A text absent from `y` is absent from `x ++ y` when no occurrence starts
inside `x`. -/
theorem absent_append_left (needle : List Char) (y : List Char) :
    ∀ x : List Char, starts_nowhere needle x y → absent needle y → absent needle (x ++ y) := by
  intro x
  induction x with
  | nil =>
    intro _ h
    simpa using h
  | cons c x ih =>
    intro hx h
    exact (absent_cons_iff needle c (x ++ y)).2 ⟨hx.1, ih hx.2 h⟩

/-- No occurrence starts inside `x1 ++ x2` when none starts inside `x1` and
none inside `x2`. -/
theorem starts_nowhere_append (needle : List Char) (x2 y : List Char) :
    ∀ x1 : List Char, starts_nowhere needle x1 (x2 ++ y) → starts_nowhere needle x2 y →
      starts_nowhere needle (x1 ++ x2) y := by
  intro x1
  induction x1 with
  | nil =>
    intro _ h
    simpa using h
  | cons c x1 ih =>
    intro h1 h2
    refine ⟨?_, ih h1.2 h2⟩
    have := h1.1
    simpa [List.append_assoc] using this

/-- A text that begins with `<` starts nowhere inside a text without `<`. -/
theorem starts_nowhere_of_no_lt (s y : List Char) :
    ∀ x : List Char, '<' ∉ x → starts_nowhere ('<' :: s) x y := by
  intro x
  induction x with
  | nil => intro _; trivial
  | cons c x ih =>
    intro h
    have hc : ¬ '<' = c := fun e => h (e ▸ List.mem_cons_self _ _)
    have hx : '<' ∉ x := fun e => h (List.mem_cons_of_mem _ e)
    exact ⟨by simp [List.isPrefixOf, hc], ih hx⟩

/-- A text without `<` that starts `x ++ y`, where `y` is empty or begins with
`<`, starts `x` already. -/
theorem isPrefixOf_of_append (y : List Char) (hy : y = [] ∨ ∃ y', y = '<' :: y') :
    ∀ (s x : List Char), '<' ∉ s → s.isPrefixOf (x ++ y) = true → s.isPrefixOf x = true := by
  intro s
  induction s with
  | nil => intro x _ _; simp [List.isPrefixOf]
  | cons a s ih =>
    intro x hs h
    have ha : ¬ a = '<' := fun e => hs (e ▸ List.mem_cons_self _ _)
    have hs' : '<' ∉ s := fun e => hs (List.mem_cons_of_mem _ e)
    cases x with
    | nil =>
      rcases hy with hy | ⟨y', hy⟩
      · subst hy
        simp [List.isPrefixOf] at h
      · subst hy
        simp [List.isPrefixOf, ha] at h
    | cons b x =>
      simp only [List.cons_append, List.isPrefixOf, Bool.and_eq_true] at h ⊢
      exact ⟨h.1, ih x hs' h.2⟩

/-- An opening `<s` that is absent from `x` starts nowhere inside `x` when what
follows `x` is empty or begins with `<`. -/
theorem starts_nowhere_of_absent (s y : List Char) (hs : '<' ∉ s)
    (hy : y = [] ∨ ∃ y', y = '<' :: y') :
    ∀ x : List Char, absent ('<' :: s) x → starts_nowhere ('<' :: s) x y := by
  intro x
  induction x with
  | nil => intro _; trivial
  | cons c x ih =>
    intro h
    obtain ⟨h1, h2⟩ := (absent_cons_iff _ _ _).1 h
    refine ⟨?_, ih h2⟩
    cases hp : List.isPrefixOf ('<' :: s) (c :: (x ++ y)) with
    | false => rfl
    | true =>
      simp only [List.isPrefixOf, Bool.and_eq_true] at hp h1
      have := isPrefixOf_of_append y hy s x hs hp.2
      simp [List.isPrefixOf, hp.1, this] at h1

/-- The characters of the three spellings. -/
theorem spellings_data (t : String) (ht : t ∈ spellings) :
    t.data = ['h', 'r', 'e', 'f'] ∨ t.data = ['D', ':', 'h', 'r', 'e', 'f'] ∨
      t.data = ['d', ':', 'h', 'r', 'e', 'f'] := by
  unfold spellings at ht
  simp only [List.mem_cons, List.mem_singleton, List.not_mem_nil, or_false] at ht
  rcases ht with h | h | h <;> subst h
  · exact Or.inl rfl
  · exact Or.inr (Or.inl rfl)
  · exact Or.inr (Or.inr rfl)

/-- None of the three spellings contains `<`. -/
theorem spellings_no_lt (t : String) (ht : t ∈ spellings) : '<' ∉ t.data := by
  rcases spellings_data t ht with h | h | h <;> rw [h] <;> decide

/-- No opening of an href tag starts inside a closing tag. -/
theorem starts_nowhere_close_tag (t tag : String) (ht : t ∈ spellings)
    (htag : tag ∈ spellings) (y : List Char) :
    starts_nowhere ('<' :: t.data) (close_tag tag) y := by
  unfold close_tag
  rcases spellings_data t ht with h | h | h <;>
    rcases spellings_data tag htag with h' | h' | h' <;>
      rw [h, h'] <;> simp [starts_nowhere, List.isPrefixOf]

/-- No opening of an href tag in another spelling starts inside an opening
tag. -/
theorem starts_nowhere_open_tag (t tag : String) (ht : t ∈ spellings)
    (htag : tag ∈ spellings) (hne : t ≠ tag) (y : List Char) :
    starts_nowhere ('<' :: t.data) (open_tag tag) y := by
  have hd : t.data ≠ tag.data := fun e => hne (String.ext e)
  unfold open_tag
  rcases spellings_data t ht with h | h | h <;>
    rcases spellings_data tag htag with h' | h' | h' <;>
      rw [h, h'] at hd <;> rw [h, h'] <;>
        first
        | exact absurd rfl hd
        | simp [starts_nowhere, List.isPrefixOf]

/-- A spelling tried before `tag` is another spelling. -/
theorem earlier_spellings_mem (t tag : String) (htag : tag ∈ spellings)
    (ht : t ∈ earlier_spellings tag) : t ∈ spellings ∧ t ≠ tag := by
  unfold spellings at htag
  simp only [List.mem_cons, List.mem_singleton, List.not_mem_nil, or_false] at htag
  rcases htag with h | h | h <;> subst h
  · have he : earlier_spellings "href" = [] := by decide
    rw [he] at ht
    cases ht
  · have he : earlier_spellings "D:href" = ["href"] := by decide
    rw [he] at ht
    rcases List.mem_singleton.1 ht with rfl
    exact ⟨by decide, by decide⟩
  · have he : earlier_spellings "d:href" = ["href", "D:href"] := by decide
    rw [he] at ht
    simp only [List.mem_cons, List.mem_singleton, List.not_mem_nil, or_false] at ht
    rcases ht with rfl | rfl
    · exact ⟨by decide, by decide⟩
    · exact ⟨by decide, by decide⟩

/-- A well-formed listing spelled `tag` opens no href tag in another
spelling. -/
theorem absent_listing_chars (t tag : String) (ht : t ∈ spellings) (htag : tag ∈ spellings)
    (hne : t ≠ tag) (trailer : String) :
    ∀ items : List (String × String), well_formed_listing items trailer →
      absent ('<' :: t.data) (listing_chars tag items trailer) := by
  intro items
  induction items with
  | nil =>
    intro h
    exact h.2 t ht
  | cons item items ih =>
    intro h
    obtain ⟨gap, text⟩ := item
    obtain ⟨htext, hgap⟩ := h.1 (gap, text) (List.mem_cons_self _ _)
    have hrest : well_formed_listing items trailer :=
      ⟨fun it hit => h.1 it (List.mem_cons_of_mem _ hit), h.2⟩
    show absent ('<' :: t.data) (gap.data ++ (open_tag tag ++ (text.data ++
      (close_tag tag ++ listing_chars tag items trailer))))
    refine absent_append_left _ _ _
      (starts_nowhere_of_absent _ _ (spellings_no_lt t ht) (Or.inr ⟨_, rfl⟩) _ (hgap t ht)) ?_
    refine absent_append_left _ _ _ (starts_nowhere_open_tag t tag ht htag hne _) ?_
    refine absent_append_left _ _ _ (starts_nowhere_of_no_lt _ _ _ htext) ?_
    exact absent_append_left _ _ _ (starts_nowhere_close_tag t tag ht htag _) (ih hrest)

/-- The empty text first occurs at the very start. -/
theorem first_at_nil (hay : List Char) (n : Nat) (h : first_at [] hay n) : n = 0 := by
  cases n with
  | zero => rfl
  | succ m =>
    exfalso
    have h1 := h.1
    cases hay with
    | nil => simp [List.tails] at h1
    | cons c hay => simp [List.tails] at h1

/-- A text starts itself followed by anything. -/
theorem isPrefixOf_append_self (x y : List Char) : x.isPrefixOf (x ++ y) = true := by
  induction x with
  | nil => simp [List.isPrefixOf]
  | cons c x ih => simp [List.isPrefixOf, ih]

/-- In a well-formed listing whose texts first occur in their own elements the
scan of `carddav_dirlist` finds its way.  `pre` is where the scan stands, a text
inside which no href tag is opened, and `before` the part of the body in front
of it. -/
theorem scan_ok_of_well_formed (tag : String) (htag : tag ∈ spellings) (trailer : String) :
    ∀ (items : List (String × String)) (before pre : List Char),
      (∀ t ∈ spellings, ∀ y, starts_nowhere ('<' :: t.data) pre y) →
      well_formed_listing items trailer →
      own_content_first tag trailer (before ++ pre) items →
      scan_ok tag pre items trailer := by
  intro items
  induction items with
  | nil =>
    intro before pre hpre hwf _
    intro t ht
    exact absent_append_left _ _ _ (hpre t ht _) (hwf.2 t ht)
  | cons item items ih =>
    intro before pre hpre hwf hown
    obtain ⟨gap, text⟩ := item
    obtain ⟨htext, hgap⟩ := hwf.1 (gap, text) (List.mem_cons_self _ _)
    have hrest : well_formed_listing items trailer :=
      ⟨fun it hit => hwf.1 it (List.mem_cons_of_mem _ hit), hwf.2⟩
    obtain ⟨hfirst, hnext⟩ := hown
    have hshape : listing_chars tag ((gap, text) :: items) trailer =
        gap.data ++ (open_tag tag ++ (text.data ++
          (close_tag tag ++ listing_chars tag items trailer))) := rfl
    refine ⟨?_, ?_, ?_, ?_, ?_⟩
    · intro t ht
      obtain ⟨hts, hne⟩ := earlier_spellings_mem t tag htag ht
      exact absent_append_left _ _ _ (hpre t hts _)
        (absent_listing_chars t tag hts htag hne trailer _ hwf)
    · rw [hshape, ← List.append_assoc pre]
      have h0 : first_at ('<' :: tag.data)
          (open_tag tag ++ (text.data ++ (close_tag tag ++ listing_chars tag items trailer)))
          0 := by
        rw [first_at_zero]
        have : open_tag tag ++ (text.data ++ (close_tag tag ++ listing_chars tag items trailer))
            = ('<' :: tag.data) ++ ('>' :: (text.data ++
                (close_tag tag ++ listing_chars tag items trailer))) := by
          simp [open_tag]
        rw [this]
        exact isPrefixOf_append_self _ _
      have := first_at_append_left ('<' :: tag.data) _ 0 (pre ++ gap.data)
        (starts_nowhere_append _ _ _ _ (hpre tag htag _)
          (starts_nowhere_of_absent _ _ (spellings_no_lt tag htag) (Or.inr ⟨_, rfl⟩) _
            (hgap tag htag))) h0
      exact this
    · have h0 : first_at (close_tag tag) (close_tag tag ++ listing_chars tag items trailer) 0 := by
        rw [first_at_zero]
        exact isPrefixOf_append_self _ _
      have := first_at_append_left (close_tag tag) _ 0 text.data
        (starts_nowhere_of_no_lt ('/' :: tag.data ++ ['>']) _ _ htext) h0
      simpa using this
    · have h := hfirst
      rw [List.append_assoc before pre] at h
      have hlen : (before ++ pre ++ gap.data ++ open_tag tag).length
          = before.length + (pre ++ gap.data ++ open_tag tag).length := by
        simp only [List.length_append]
        omega
      rw [hlen] at h
      exact first_at_drop_left _ _ _ before h
    · refine ih (before ++ pre ++ gap.data ++ open_tag tag) (text.data ++ close_tag tag) ?_
        hrest ?_
      · intro t ht y
        exact starts_nowhere_append _ _ _ _ (starts_nowhere_of_no_lt _ _ _ htext)
          (starts_nowhere_close_tag t tag ht htag y)
      · simpa [List.append_assoc] using hnext

/-- C30. Take a 207 listing body whose href elements all use one spelling and
carry the texts h1..hn, n ≥ 1: the texts are character data, and neither the
text between two elements nor the text behind the last opens an href tag.  If
no hk occurs anywhere in the body before the content of its own element (which
makes every hk non-empty), then `carddav_dirlist`, given one unit of fuel per
element, returns the listing built from exactly h2..hn, in order: the first
href element is located but never emitted, and n = 1 yields the empty
listing. -/
theorem C30_first_href_located_not_emitted (env : Env) (fuel : Nat)
    (settings : carddav_settings) (error : carddav_error) (tag gap text : String)
    (items : List (String × String)) (trailer : String)
    (htag : tag ∈ spellings)
    (hbody : answers_listing env settings (listing_body tag ((gap, text) :: items) trailer))
    (hwf : well_formed_listing ((gap, text) :: items) trailer)
    (hown : own_content_first tag trailer [] ((gap, text) :: items))
    (hfuel : items.length < fuel) :
    (∀ item ∈ (gap, text) :: items, item.2 ≠ "") ∧
    href_lookup env (some (listing_body tag ((gap, text) :: items) trailer)) = some text ∧
    ∃ d, carddav_dirlist env fuel settings error = Outcome.ok d ∧
      d.all_href = some (href_elements (items.map Prod.snd)) ∧
      d.error = error ∧
      (items = [] → d.all_href = some "") := by
  obtain ⟨henv, curl, hcurl, hres, hcode, hchunk⟩ := hbody
  have hscan : scan_ok tag [] ((gap, text) :: items) trailer :=
    scan_ok_of_well_formed tag htag trailer _ [] [] (fun _ _ _ => trivial) hwf hown
  have hcol := collected_hrefs_uniform env henv tag htag gap text items trailer fuel hscan
    hfuel
  have hlook := (scan_step env henv tag htag [] gap text items trailer hscan).1
  simp only [List.nil_append] at hlook
  refine ⟨?_, hlook, _, carddav_dirlist_of_collected env fuel settings error curl _ _ hcurl hres
    hcode hchunk hcol, rfl, rfl, ?_⟩
  · have key : ∀ (its : List (String × String)) (before : List Char),
        own_content_first tag trailer before its → ∀ item ∈ its, item.2 ≠ "" := by
      intro its
      induction its with
      | nil => intro _ _ item hi; cases hi
      | cons it its ih =>
        intro before h item hi
        obtain ⟨g, x⟩ := it
        obtain ⟨h1, h2⟩ := h
        rcases List.mem_cons.1 hi with rfl | hi
        · intro hx
          have hx' : x = "" := hx
          subst hx'
          have hz : (before ++ g.data ++ open_tag tag).length = 0 := first_at_nil _ _ h1
          simp [open_tag] at hz
        · exact ih _ h2 item hi
    exact key _ _ hown
  · intro hnil
    subst hnil
    rfl

/-- C30 on the demo listing, whose three elements give the listing of the
second and third, and on a listing with the collection alone, which gives the
empty listing. -/
theorem C30_first_href_located_not_emitted_witness :
    (∃ d, carddav_dirlist (listing_env demo_listing) 3 demo_settings demo_error
        = Outcome.ok d ∧
      d.all_href = some " <D:href>/book/1.vcf</D:href>\r\n <D:href>/book/2.vcf</D:href>\r\n") ∧
    (∃ d, carddav_dirlist
        (listing_env (listing_body "D:href" demo_single_items "</response></multistatus>"))
        1 demo_settings demo_error = Outcome.ok d ∧
      d.all_href = some "") := by
  obtain ⟨-, -, d, hd, hall, -, -⟩ :=
    C30_first_href_located_not_emitted (listing_env demo_listing) 3 demo_settings demo_error
      "href" "<multistatus><response>" "/book/"
      [("</response><response>", "/book/1.vcf"), ("</response><response>", "/book/2.vcf")]
      "</response></multistatus>" (by decide) ⟨rfl, demo_curl, rfl, rfl, rfl, rfl⟩
      (by decide) (by decide) (by decide)
  obtain ⟨-, -, d', hd', -, -, hnil⟩ :=
    C30_first_href_located_not_emitted
      (listing_env (listing_body "D:href" demo_single_items "</response></multistatus>"))
      1 demo_settings demo_error
      "D:href" "<multistatus><response>" "/book/" []
      "</response></multistatus>" (by decide) ⟨rfl, demo_curl, rfl, rfl, rfl, rfl⟩
      (by decide) (by decide) (by decide)
  exact ⟨⟨d, hd, hall⟩, ⟨d', hd', hnil rfl⟩⟩

/-- C13 as the code has it.  When `get_curl` gives no handle,
`make_carddav_call` stores the message "Could not initialize libcurl" and
leaves the code of the ErrorDetail as it found it (carddav.c:81-85 assigns
`str` only), and `init_runtime` has not reset it before.  So after a public
call (each is the common tail applied to `make_carddav_call`), the ErrorDetail
holds the code an earlier call left, and the value returned is read off that
code: FORBIDDEN after an earlier 403, LOCKED after 423, NOTIMPLEMENTED after
501, CONFLICT when the code was not positive.  Both depend on the earlier
call. -/
theorem C13_no_handle_keeps_earlier_code (env : Env) (fuel : Nat) (info : runtime_info) :
    (∀ settings error, info.error = some error → env.get_curl settings = none →
      make_carddav_call env fuel settings info = Outcome.ok
        { result := true, settings := { settings with file := none },
          error := { code := error.code, str := some "Could not initialize libcurl" },
          trace := [] }) ∧
    (∀ retrieval settings, env.get_curl settings = none →
      ∃ p, public_tail retrieval (init_runtime info)
          (make_carddav_call env fuel settings (init_runtime info)) = Outcome.ok p ∧
        p.info.error =
          some { code := (init_error info).code, str := some "Could not initialize libcurl" } ∧
        p.trace = [] ∧
        ((init_error info).code = 403 → p.response = CARDDAV_RESPONSE.FORBIDDEN) ∧
        ((init_error info).code = 423 → p.response = CARDDAV_RESPONSE.LOCKED) ∧
        ((init_error info).code = 501 → p.response = CARDDAV_RESPONSE.NOTIMPLEMENTED) ∧
        ((init_error info).code ≤ 0 → p.response = CARDDAV_RESPONSE.CONFLICT)) ∧
    (∀ object URL,
      env.get_curl (carddav_modify_object_settings env object URL (init_options info)) = none →
      ∃ p, carddav_modify_object env fuel object URL info = Outcome.ok p ∧
        p.info.error =
          some { code := (init_error info).code, str := some "Could not initialize libcurl" } ∧
        p.trace = [] ∧
        ((init_error info).code = 403 → p.response = CARDDAV_RESPONSE.FORBIDDEN) ∧
        ((init_error info).code ≤ 0 → p.response = CARDDAV_RESPONSE.CONFLICT)) := by
  have tail : ∀ retrieval settings, env.get_curl settings = none →
      ∃ p, public_tail retrieval (init_runtime info)
          (make_carddav_call env fuel settings (init_runtime info)) = Outcome.ok p ∧
        p.info.error =
          some { code := (init_error info).code, str := some "Could not initialize libcurl" } ∧
        p.trace = [] ∧
        ((init_error info).code = 403 → p.response = CARDDAV_RESPONSE.FORBIDDEN) ∧
        ((init_error info).code = 423 → p.response = CARDDAV_RESPONSE.LOCKED) ∧
        ((init_error info).code = 501 → p.response = CARDDAV_RESPONSE.NOTIMPLEMENTED) ∧
        ((init_error info).code ≤ 0 → p.response = CARDDAV_RESPONSE.CONFLICT) := by
    intro retrieval settings hc
    unfold make_carddav_call public_tail
    simp only [init_runtime, hc, if_true]
    refine ⟨_, rfl, rfl, rfl, ?_, ?_, ?_, ?_⟩
    · intro h
      simp [h]
    · intro h
      simp [h]
    · intro h
      simp [h]
    · intro h
      have : ¬ (init_error info).code > 0 := not_lt.2 h
      simp [this]
  refine ⟨?_, tail, ?_⟩
  · intro settings error herr hc
    unfold make_carddav_call
    simp only [herr, hc]
  · intro object URL hc
    obtain ⟨p, hp, he, ht, h403, -, -, h0⟩ := tail false _ hc
    rw [← (public_verbs_eq_tail env fuel object URL 0 0 info).2.2.2.1] at hp
    exact ⟨p, hp, he, ht, h403, h0⟩

/-- C13 on the demo server without a handle: the same MODIFY returns FORBIDDEN
with code 403 when the runtime_info comes from a call that was refused, and
CONFLICT with code 0 when it is fresh. -/
theorem C13_no_handle_keeps_earlier_code_witness :
    (∃ p, carddav_modify_object demo_env_no_curl 0 (some demo_card)
        (some "http://example.org/book/") demo_forbidden_info = Outcome.ok p ∧
      p.info.error = some { code := 403, str := some "Could not initialize libcurl" } ∧
      p.response = CARDDAV_RESPONSE.FORBIDDEN) ∧
    (∃ p, carddav_modify_object demo_env_no_curl 0 (some demo_card)
        (some "http://example.org/book/") demo_zeroed_info = Outcome.ok p ∧
      p.info.error = some { code := 0, str := some "Could not initialize libcurl" } ∧
      p.response = CARDDAV_RESPONSE.CONFLICT) := by
  obtain ⟨p, hp, he, -, h403, -⟩ :=
    (C13_no_handle_keeps_earlier_code demo_env_no_curl 0 demo_forbidden_info).2.2
      (some demo_card) (some "http://example.org/book/") rfl
  obtain ⟨q, hq, hqe, -, -, h0⟩ :=
    (C13_no_handle_keeps_earlier_code demo_env_no_curl 0 demo_zeroed_info).2.2
      (some demo_card) (some "http://example.org/book/") rfl
  exact ⟨⟨p, hp, he, h403 rfl⟩, ⟨q, hq, hqe, h0 (by decide)⟩⟩

end CardDAV
